import Mathlib

/-!
# WiFi connection manager (`WiFi.cpp`, `WiFiEventHandler.cpp`)

A shallow embedding of the `WiFi` class: its member variables are the fields of
the structure `WiFi`, every member function is a state-passing function, and the
radio driver, the network-interface layer and the asynchronous event source are
an explicit script (`Driver`) that the calls consume and a log (`Call`) that the
calls extend.
-/

namespace WiFi

/-! ## Constants of the SDK headers -/

/-- Byte strings (`std::string`, `char *`), one natural number below 256 per byte. -/
abbrev Bytes := List Nat

/-- The success code `ESP_OK` of `esp_err_t`. -/
def ESP_OK : Int := 0

/-- The largest `uint8_t`, the unset value of `m_apConnectionStatus`. -/
def UINT8_MAX : Nat := 255

/-- Radio mode `WIFI_MODE_NULL` of `wifi_mode_t`. -/
def WIFI_MODE_NULL : Nat := 0

/-- Radio mode `WIFI_MODE_STA` of `wifi_mode_t`. -/
def WIFI_MODE_STA : Nat := 1

/-- Radio mode `WIFI_MODE_AP` of `wifi_mode_t`. -/
def WIFI_MODE_AP : Nat := 2

/-- Radio mode `WIFI_MODE_APSTA` of `wifi_mode_t`. -/
def WIFI_MODE_APSTA : Nat := 3

/-- The C expression `~x` on a 32-bit `int`, as a bit mask. -/
def bitNot32 (x : Nat) : Nat := 4294967295 - x % 4294967296

/-- The event categories (`esp_event_base_t`). -/
inductive EventBase where
  | WIFI_EVENT
  | IP_EVENT
  | other (n : Nat)
  deriving DecidableEq, Repr

/-- Event identifiers of `wifi_event_t`. -/
def WIFI_EVENT_WIFI_READY : Int := 0
/-- Event identifier of `wifi_event_t`. -/
def WIFI_EVENT_SCAN_DONE : Int := 1
/-- Event identifier of `wifi_event_t`. -/
def WIFI_EVENT_STA_START : Int := 2
/-- Event identifier of `wifi_event_t`. -/
def WIFI_EVENT_STA_STOP : Int := 3
/-- Event identifier of `wifi_event_t`. -/
def WIFI_EVENT_STA_CONNECTED : Int := 4
/-- Event identifier of `wifi_event_t`. -/
def WIFI_EVENT_STA_DISCONNECTED : Int := 5
/-- Event identifier of `wifi_event_t`. -/
def WIFI_EVENT_STA_AUTHMODE_CHANGE : Int := 6
/-- Event identifier of `wifi_event_t`. -/
def WIFI_EVENT_AP_START : Int := 12
/-- Event identifier of `wifi_event_t`. -/
def WIFI_EVENT_AP_STOP : Int := 13
/-- Event identifier of `wifi_event_t`. -/
def WIFI_EVENT_AP_STACONNECTED : Int := 14
/-- Event identifier of `wifi_event_t`. -/
def WIFI_EVENT_AP_STADISCONNECTED : Int := 15
/-- Event identifier of `ip_event_t`. -/
def IP_EVENT_STA_GOT_IP : Int := 0

/-- One event as the driver delivers it: category, identifier, and the `reason`
byte that `event_data` holds when it is read as `wifi_event_sta_disconnected_t`. -/
structure Event where
  base : EventBase
  event_id : Int
  reason : Nat
  deriving DecidableEq, Repr

/-- The virtual callbacks of `WiFiEventHandler`. -/
inductive Callback where
  | apStart
  | apStop
  | apStaConnected
  | apStaDisconnected
  | staScanDone
  | staAuthChange
  | staConnected
  | staDisconnected
  | wifiReady
  | staStart
  | staStop
  | staGotIp
  deriving DecidableEq, Repr

/-- A record of the driver's scan result table (`wifi_ap_record_t`). -/
structure wifi_ap_record_t where
  bssid : List Nat
  ssid : Bytes
  authmode : Nat
  rssi : Int
  deriving DecidableEq, Repr

/-- The class `WiFiAPRecord` of `WiFi.h`. -/
structure WiFiAPRecord where
  m_bssid : List Nat
  m_rssi : Int
  m_ssid : Bytes
  m_authMode : Nat
  deriving DecidableEq, Repr

/-- The fields of `wifi_config_t.ap` that `startAP` writes. The two byte fields
hold every byte the `memcpy` calls copy, in order, from the start of the field;
`ssid_len` is the byte that the field holds when the configuration is pushed. -/
structure ApConfig where
  ssid : Bytes
  ssid_len : Nat
  password : Bytes
  channel : Nat
  authmode : Nat
  ssid_hidden : Nat
  max_connection : Nat
  beacon_interval : Nat
  deriving DecidableEq, Repr

/-- Every call that leaves the class: driver, network interface, resolver, and
the caller-side operations on the semaphore `m_connectFinished`. -/
inductive Call where
  | esp_event_loop_create_default
  | esp_event_handler_register (base : EventBase)
  | nvs_flash_init
  | esp_netif_init
  | esp_wifi_init
  | esp_wifi_set_storage
  | esp_netif_create_default_wifi_sta
  | esp_netif_set_hostname (hostname : Bytes)
  | esp_netif_create_default_wifi_ap
  | esp_wifi_set_mode (mode : Nat)
  | esp_wifi_start
  | esp_phy_erase_cal_data_in_nvs
  | esp_netif_dhcpc_stop
  | esp_netif_dhcpc_start
  | esp_netif_dhcps_stop
  | esp_netif_set_ip_info (ip gw netmask : Nat)
  | esp_wifi_set_config_sta (ssid password : Bytes)
  | esp_wifi_set_config_ap (cfg : ApConfig)
  | esp_wifi_connect
  | esp_wifi_disconnect
  | esp_wifi_scan_start
  | esp_wifi_scan_get_ap_num
  | esp_wifi_scan_get_ap_records (capacity : Nat)
  | dns_setserver (numdns : Int) (ip : Nat)
  | take
  | take_timed (timeoutMs : Nat) (taken : Bool)
  | give
  deriving DecidableEq, Repr

/-- The external collaborators as a script. Each list is consumed from the head
by the call it answers; an exhausted list answers `ESP_OK`, and an exhausted
`events` list delivers no event. `events` holds, per timed wait on the
semaphore, the events the driver delivers before that wait ends. -/
structure Driver where
  rc_wifi_init : List Int := []
  rc_set_storage : List Int := []
  rc_start : List Int := []
  rc_set_mode : List Int := []
  rc_set_config : List Int := []
  rc_connect : List Int := []
  rc_disconnect : List Int := []
  rc_scan_start : List Int := []
  rc_scan_get_ap_num : List (Int × Nat) := []
  rc_scan_get_ap_records : List (Int × List wifi_ap_record_t) := []
  malloc_fails : List Bool := []
  sta_netif : Nat := 1
  ap_netif : Nat := 2
  events : List (List Event) := []
  deriving DecidableEq, Repr

end WiFi

/-- The member variables of the class `WiFi` (`WiFi.h`), followed by the script
of the external collaborators, the log of the calls issued so far, and the log
of the `WiFiEventHandler` callbacks invoked so far. The semaphore
`m_connectFinished` is `true` when it is available. `m_pWifiEventHandler` is the
chain of handlers reached through `m_nextHandler`, empty for `nullptr`. -/
structure WiFi where
  ip : Nat := 0
  gw : Nat := 0
  netmask : Nat := 0
  m_pWifiEventHandler : List Nat := []
  m_dnsCount : Nat := 0
  m_eventLoopStarted : Bool := false
  m_initCalled : Bool := false
  m_apConnectionStatus : Nat := WiFi.UINT8_MAX
  m_connectFinished : Bool := true
  staInterface : Nat := 0
  apInterface : Nat := 0
  m_stationHostname : WiFi.Bytes := []
  m_wifiMode : Nat := WiFi.WIFI_MODE_NULL
  m_testConnection : Bool := false
  drv : WiFi.Driver := {}
  log : List WiFi.Call := []
  dispatched : List (Nat × WiFi.Callback) := []
  deriving DecidableEq, Repr

namespace WiFi

/-- How a member function ends: it returns a value, the process aborts, or the
caller is still parked inside the function when the observation ends. -/
inductive Res (α : Type) where
  | ret (v : α) (s : WiFi)
  | abort (s : WiFi)
  | blocked (s : WiFi)
  deriving Repr

/-- The state a run ended in. -/
def Res.state {α : Type} : Res α → WiFi
  | .ret _ s => s
  | .abort s => s
  | .blocked s => s

/-- The value a run returned, if it returned. -/
def Res.value {α : Type} : Res α → Option α
  | .ret v _ => some v
  | .abort _ => none
  | .blocked _ => none

/-- The state a run returned in, if it returned. -/
def Res.returned {α : Type} : Res α → Option WiFi
  | .ret _ s => some s
  | .abort _ => none
  | .blocked _ => none

/-- Append one call to the log. -/
def call (c : Call) (s : WiFi) : WiFi := { s with log := s.log ++ [c] }

/-- The bytes of `s.c_str()` that `strcpy` and `std::string(char *)` read. -/
def c_str (s : Bytes) : Bytes := s.takeWhile (fun b => b ≠ 0)

/-! ## The external calls -/

/-- Driver call `esp_wifi_init`: logs the call and answers from the script. -/
def esp_wifi_init (s : WiFi) : Int × WiFi :=
  (s.drv.rc_wifi_init.headD 0,
   { s with drv := { s.drv with rc_wifi_init := s.drv.rc_wifi_init.tail },
            log := s.log ++ [Call.esp_wifi_init] })

/-- Driver call `esp_wifi_set_storage(WIFI_STORAGE_RAM)`. -/
def esp_wifi_set_storage (s : WiFi) : Int × WiFi :=
  (s.drv.rc_set_storage.headD 0,
   { s with drv := { s.drv with rc_set_storage := s.drv.rc_set_storage.tail },
            log := s.log ++ [Call.esp_wifi_set_storage] })

/-- Driver call `esp_wifi_start`. -/
def esp_wifi_start (s : WiFi) : Int × WiFi :=
  (s.drv.rc_start.headD 0,
   { s with drv := { s.drv with rc_start := s.drv.rc_start.tail },
            log := s.log ++ [Call.esp_wifi_start] })

/-- Driver call `esp_wifi_set_mode(mode)`. -/
def esp_wifi_set_mode (mode : Nat) (s : WiFi) : Int × WiFi :=
  (s.drv.rc_set_mode.headD 0,
   { s with drv := { s.drv with rc_set_mode := s.drv.rc_set_mode.tail },
            log := s.log ++ [Call.esp_wifi_set_mode mode] })

/-- Driver call `esp_wifi_set_config(WIFI_IF_STA, &sta_config)`. -/
def esp_wifi_set_config_sta (ssid password : Bytes) (s : WiFi) : Int × WiFi :=
  (s.drv.rc_set_config.headD 0,
   { s with drv := { s.drv with rc_set_config := s.drv.rc_set_config.tail },
            log := s.log ++ [Call.esp_wifi_set_config_sta ssid password] })

/-- Driver call `esp_wifi_set_config(WIFI_IF_AP, &apConfig)`. -/
def esp_wifi_set_config_ap (cfg : ApConfig) (s : WiFi) : Int × WiFi :=
  (s.drv.rc_set_config.headD 0,
   { s with drv := { s.drv with rc_set_config := s.drv.rc_set_config.tail },
            log := s.log ++ [Call.esp_wifi_set_config_ap cfg] })

/-- Driver call `esp_wifi_connect`. -/
def esp_wifi_connect (s : WiFi) : Int × WiFi :=
  (s.drv.rc_connect.headD 0,
   { s with drv := { s.drv with rc_connect := s.drv.rc_connect.tail },
            log := s.log ++ [Call.esp_wifi_connect] })

/-- Driver call `esp_wifi_disconnect`. -/
def esp_wifi_disconnect (s : WiFi) : Int × WiFi :=
  (s.drv.rc_disconnect.headD 0,
   { s with drv := { s.drv with rc_disconnect := s.drv.rc_disconnect.tail },
            log := s.log ++ [Call.esp_wifi_disconnect] })

/-- Driver call `esp_wifi_scan_start(&conf, true)`, which blocks until the scan is done. -/
def esp_wifi_scan_start (s : WiFi) : Int × WiFi :=
  (s.drv.rc_scan_start.headD 0,
   { s with drv := { s.drv with rc_scan_start := s.drv.rc_scan_start.tail },
            log := s.log ++ [Call.esp_wifi_scan_start] })

/-- Driver call `esp_wifi_scan_get_ap_num(&apCount)`: the code and the count,
the count reduced to `uint16_t`. -/
def esp_wifi_scan_get_ap_num (s : WiFi) : (Int × Nat) × WiFi :=
  (((s.drv.rc_scan_get_ap_num.headD (0, 0)).1, (s.drv.rc_scan_get_ap_num.headD (0, 0)).2 % 65536),
   { s with drv := { s.drv with rc_scan_get_ap_num := s.drv.rc_scan_get_ap_num.tail },
            log := s.log ++ [Call.esp_wifi_scan_get_ap_num] })

/-- Driver call `esp_wifi_scan_get_ap_records(&apCount, list)`: the code and the
records written, at most `apCount` of them; the count written back is their number. -/
def esp_wifi_scan_get_ap_records (apCount : Nat) (s : WiFi) : (Int × List wifi_ap_record_t) × WiFi :=
  (((s.drv.rc_scan_get_ap_records.headD (0, [])).1,
    (s.drv.rc_scan_get_ap_records.headD (0, [])).2.take apCount),
   { s with drv := { s.drv with rc_scan_get_ap_records := s.drv.rc_scan_get_ap_records.tail },
            log := s.log ++ [Call.esp_wifi_scan_get_ap_records apCount] })

/-- The allocation `malloc(sizeof(wifi_ap_record_t) * apCount)`: `true` when it
yields a buffer. -/
def malloc (s : WiFi) : Bool × WiFi :=
  (!(s.drv.malloc_fails.headD false),
   { s with drv := { s.drv with malloc_fails := s.drv.malloc_fails.tail } })

/-! ## WiFiEventHandler -/

/-- The callback that the two `switch` statements of
`WiFiEventHandler::eventHandler` select for an event, if any. -/
def callbackOf (base : EventBase) (event_id : Int) : Option Callback :=
  if base = EventBase.WIFI_EVENT then
    if event_id = WIFI_EVENT_AP_START then some Callback.apStart
    else if event_id = WIFI_EVENT_AP_STOP then some Callback.apStop
    else if event_id = WIFI_EVENT_AP_STACONNECTED then some Callback.apStaConnected
    else if event_id = WIFI_EVENT_AP_STADISCONNECTED then some Callback.apStaDisconnected
    else if event_id = WIFI_EVENT_SCAN_DONE then some Callback.staScanDone
    else if event_id = WIFI_EVENT_STA_AUTHMODE_CHANGE then some Callback.staAuthChange
    else if event_id = WIFI_EVENT_STA_CONNECTED then some Callback.staConnected
    else if event_id = WIFI_EVENT_STA_DISCONNECTED then some Callback.staDisconnected
    else if event_id = WIFI_EVENT_WIFI_READY then some Callback.wifiReady
    else if event_id = WIFI_EVENT_STA_START then some Callback.staStart
    else if event_id = WIFI_EVENT_STA_STOP then some Callback.staStop
    else none
  else if base = EventBase.IP_EVENT then
    if event_id = IP_EVENT_STA_GOT_IP then some Callback.staGotIp else none
  else none

/-- The static `WiFiEventHandler::eventHandler(ctx, base, event_id, event_data)`
on the chain that starts at `ctx`: the empty chain is the null context; each
handler runs the callback selected for the event and then passes the event to
`m_nextHandler`. The result lists the callbacks invoked, in order. -/
def WiFiEventHandler.eventHandler (base : EventBase) (event_id : Int) :
    List Nat → List (Nat × Callback)
  | [] => []
  | h :: next =>
    (match callbackOf base event_id with
     | some cb => [(h, cb)]
     | none => []) ++ WiFiEventHandler.eventHandler base event_id next

/-! ## The semaphore `m_connectFinished` -/

/-- Modelled from the spec: the class `FreeRTOS::Semaphore` (`FreeRTOS.h`) is not
among the sources; the spec describes it as a binary signal with
park-with-timeout and signal-once. `give` makes the signal available. -/
def give (s : WiFi) : WiFi :=
  { s with m_connectFinished := true, log := s.log ++ [Call.give] }

/-- Modelled from the spec: `take(owner)` of the binary signal claims it when it
is available; `none` when the caller parks because it is not available. -/
def take (s : WiFi) : Option WiFi :=
  if s.m_connectFinished then
    some { s with m_connectFinished := false, log := s.log ++ [Call.take] }
  else none

/-- `WiFi::eventHandler(ctx, base, event_id, event_data)`, run by the driver on
the object `ctx`: forward to the handler chain, then record the outcome of a
station disconnect or of an acquired address and release the semaphore. -/
def eventHandler (e : Event) (s : WiFi) : WiFi :=
  let s1 : WiFi :=
    if s.m_pWifiEventHandler ≠ [] then
      { s with dispatched :=
          s.dispatched ++ WiFiEventHandler.eventHandler e.base e.event_id s.m_pWifiEventHandler }
    else s
  if e.base = EventBase.WIFI_EVENT then
    if e.event_id = WIFI_EVENT_STA_DISCONNECTED then
      { s1 with m_apConnectionStatus := e.reason % 256, m_connectFinished := true }
    else s1
  else if e.base = EventBase.IP_EVENT then
    if e.event_id = IP_EVENT_STA_GOT_IP then
      { s1 with m_apConnectionStatus := 0, m_connectFinished := true }
    else s1
  else s1

/-- The driver delivers a list of events, one after the other. -/
def deliver (evs : List Event) (s : WiFi) : WiFi :=
  evs.foldl (fun st e => eventHandler e st) s

/-- The caller is parked in a timed wait: the driver delivers the events of the
next wait of its script. -/
def park (s : WiFi) : WiFi :=
  deliver (s.drv.events.headD []) { s with drv := { s.drv with events := s.drv.events.tail } }

/-- Modelled from the spec: `take(timeoutMs, owner)` of the binary signal. An
available signal is claimed at once. Otherwise the caller parks, and the signal
is claimed if one of the events delivered meanwhile released it; if none did,
the wait times out and answers `false`. -/
def take_timed (timeoutMs : Nat) (s : WiFi) : Bool × WiFi :=
  if s.m_connectFinished then
    (true, { s with m_connectFinished := false,
                    log := s.log ++ [Call.take_timed timeoutMs true] })
  else
    let s1 := park s
    if s1.m_connectFinished then
      (true, { s1 with m_connectFinished := false,
                       log := s1.log ++ [Call.take_timed timeoutMs true] })
    else
      (false, { s1 with log := s1.log ++ [Call.take_timed timeoutMs false] })

/-! ## The member functions of `WiFi` -/

/-- The constructor `WiFi::WiFi()`, on a given script of the collaborators. -/
def fresh (d : Driver) : WiFi :=
  { ip := 0, gw := 0, netmask := 0, m_pWifiEventHandler := [],
    staInterface := 0, apInterface := 0,
    m_eventLoopStarted := false, m_initCalled := false,
    m_apConnectionStatus := UINT8_MAX, drv := d }

/-- `WiFi::init(mode)`. -/
def init (mode : Nat) (s : WiFi) : Res Unit :=
  let s1 : WiFi :=
    if !s.m_eventLoopStarted then
      { s with log := s.log ++ [Call.esp_event_loop_create_default,
                                Call.esp_event_handler_register EventBase.WIFI_EVENT,
                                Call.esp_event_handler_register EventBase.IP_EVENT],
               m_eventLoopStarted := true }
    else s
  if !s1.m_initCalled then
    let s2 := call Call.esp_netif_init (call Call.nvs_flash_init { s1 with m_initCalled := true })
    let r3 := esp_wifi_init s2
    if r3.1 ≠ ESP_OK then Res.abort r3.2
    else
      let r4 := esp_wifi_set_storage r3.2
      if r4.1 ≠ ESP_OK then Res.abort r4.2
      else
        let s5 := call Call.esp_netif_create_default_wifi_sta
          { r4.2 with staInterface := r4.2.drv.sta_netif }
        if s5.staInterface = 0 then Res.abort s5
        else
          let s6 :=
            if s5.m_stationHostname ≠ [] then
              call (Call.esp_netif_set_hostname (c_str s5.m_stationHostname)) s5
            else s5
          let s7 := call Call.esp_netif_create_default_wifi_ap
            { s6 with apInterface := s6.drv.ap_netif }
          if s7.apInterface = 0 then Res.abort s7
          else
            let r8 := esp_wifi_set_mode mode s7
            let r9 := esp_wifi_start r8.2
            if r9.1 ≠ ESP_OK then Res.abort r9.2
            else Res.ret () r9.2
  else Res.ret () s1

/-- `WiFi::disconnectSTA()`. -/
def disconnectSTA (s : WiFi) : Res Int :=
  if s.m_wifiMode &&& WIFI_MODE_STA = 0 then Res.ret ESP_OK s
  else
    let r1 := esp_wifi_disconnect s
    let s2 : WiFi := { r1.2 with m_wifiMode := r1.2.m_wifiMode &&& bitNot32 WIFI_MODE_STA }
    if s2.m_wifiMode ≠ WIFI_MODE_NULL then
      let r3 := esp_wifi_set_mode s2.m_wifiMode s2
      if r3.1 ≠ ESP_OK then Res.abort r3.2
      else Res.ret r3.1 r3.2
    else Res.ret r1.1 s2

/-- The drain loop of `connectSTA`, `while (m_connectFinished.take(5000, ...)) ;`.
The first argument is the number of timed waits the observation lets end. -/
def drain : Nat → WiFi → Res Unit
  | 0, s => Res.blocked s
  | n + 1, s =>
    let r := take_timed 5000 s
    if r.1 then drain n r.2 else Res.ret () r.2

/-- The part of `connectSTA` after the `do ... while` loop. -/
def connectFinish (fuel : Nat) (s : WiFi) : Res Int :=
  if s.m_testConnection then
    let ret : Int := s.m_apConnectionStatus
    match disconnectSTA s with
    | Res.abort s1 => Res.abort s1
    | Res.blocked s1 => Res.blocked s1
    | Res.ret _ s1 =>
      match drain fuel s1 with
      | Res.abort s2 => Res.abort s2
      | Res.blocked s2 => Res.blocked s2
      | Res.ret _ s2 =>
        Res.ret ret
          { give { s2 with m_testConnection := false } with m_apConnectionStatus := UINT8_MAX }
  else
    let s1 := give s
    Res.ret (s1.m_apConnectionStatus : Int) s1

/-- The `do ... while (!m_testConnection)` loop of `connectSTA` and what follows
it. The first argument is the number of timed waits the observation lets end:
when it is used up the caller is parked in `take(5000, ...)`, after the
`esp_wifi_connect` call of that iteration. -/
def connectLoop : Nat → WiFi → Res Int
  | 0, s =>
    let r := esp_wifi_connect s
    if r.1 ≠ ESP_OK then
      Res.ret r.1 { give r.2 with m_testConnection := false }
    else Res.blocked r.2
  | n + 1, s =>
    let r := esp_wifi_connect s
    if r.1 ≠ ESP_OK then
      Res.ret r.1 { give r.2 with m_testConnection := false }
    else
      let w := take_timed 5000 r.2
      if w.1 then connectFinish n w.2
      else if !w.2.m_testConnection then connectLoop n w.2
      else connectFinish n w.2

/-- The first part of `connectSTA`, up to the check of `esp_wifi_set_config`:
`init`, the restart of an active station, the mode-set, the static address and
the station configuration. -/
def connectSetup (ssid password : Bytes) (s : WiFi) : Res Unit :=
  match init (s.m_wifiMode ||| WIFI_MODE_STA) s with
  | Res.abort s0 => Res.abort s0
  | Res.blocked s0 => Res.blocked s0
  | Res.ret _ s0 =>
    let s1 : WiFi :=
      if s0.m_wifiMode &&& WIFI_MODE_STA ≠ 0 then
        (esp_wifi_set_mode (s0.m_wifiMode &&& bitNot32 WIFI_MODE_STA) s0).2
      else s0
    let s2 := call Call.esp_phy_erase_cal_data_in_nvs s1
    let s3 : WiFi := { s2 with m_apConnectionStatus := UINT8_MAX }
    let s4 : WiFi := { s3 with m_wifiMode := s3.m_wifiMode ||| WIFI_MODE_STA }
    let r5 := esp_wifi_set_mode s4.m_wifiMode s4
    if r5.1 ≠ ESP_OK then Res.abort r5.2
    else
      let s6 : WiFi :=
        if r5.2.ip ≠ 0 ∧ r5.2.gw ≠ 0 ∧ r5.2.netmask ≠ 0 then
          call (Call.esp_netif_set_ip_info r5.2.ip r5.2.gw r5.2.netmask)
            (call Call.esp_netif_dhcpc_stop r5.2)
        else r5.2
      let r7 := esp_wifi_set_config_sta (c_str ssid) (c_str password) s6
      if r7.1 ≠ ESP_OK then Res.abort r7.2
      else Res.ret () r7.2

/-- `WiFi::connectSTA(ssid, password, waitForConnection, testConnection)`. The
first argument is the number of timed waits the observation lets end. -/
def connectSTA (fuel : Nat) (ssid password : Bytes) (waitForConnection testConnection : Bool)
    (s : WiFi) : Res Int :=
  match connectSetup ssid password s with
  | Res.abort s7 => Res.abort s7
  | Res.blocked s7 => Res.blocked s7
  | Res.ret _ s7 =>
    if !waitForConnection then
      let r8 := esp_wifi_connect s7
      if r8.1 ≠ ESP_OK then Res.abort r8.2
      else Res.ret (r8.2.m_apConnectionStatus : Int) r8.2
    else
      let s8 : WiFi := { s7 with m_testConnection := testConnection }
      match take s8 with
      | none => Res.blocked s8
      | some s9 => connectLoop fuel s9

/-- `WiFi::stopAP()`. -/
def stopAP (s : WiFi) : Res Unit :=
  if s.m_wifiMode &&& WIFI_MODE_AP = 0 then Res.ret () s
  else
    let s1 : WiFi := { s with m_wifiMode := s.m_wifiMode &&& bitNot32 WIFI_MODE_AP }
    let s2 := call Call.esp_netif_dhcps_stop s1
    if s2.m_wifiMode ≠ WIFI_MODE_NULL then
      let r3 := esp_wifi_set_mode s2.m_wifiMode s2
      if r3.1 ≠ ESP_OK then Res.abort r3.2 else Res.ret () r3.2
    else
      let r3 := esp_wifi_set_mode WIFI_MODE_STA s2
      if r3.1 ≠ ESP_OK then Res.abort r3.2 else Res.ret () r3.2

/-- The buffer `mem` after `memcpy(mem + off, src, src.size())`; bytes copied
past the end of `mem` extend it. -/
def memcpyAt (mem : List Nat) (off : Nat) (src : List Nat) : List Nat :=
  mem.take off ++ src ++ mem.drop (off + src.length)

/-- `WiFi::startAP(ssid, password, auth, channel, ssid_hidden, max_connection)`.
`mem` is the start of `apConfig` after the `memset`, the `memcpy` of the ssid to
offset 0, the assignment of `ssid_len` (offset 96) and the `memcpy` of the
password to offset 32, in this order: a password of more than 64 bytes runs
over `ssid_len`, so the `ssid_len` that the driver receives is read from `mem`.
The fields assigned after the two copies are as assigned. The offsets are those
of `wifi_ap_config_t` in the SDK header, see `ApConfig.image`. -/
def startAP (ssid password : Bytes) (auth channel : Nat) (ssid_hidden : Bool)
    (max_connection : Nat) (s : WiFi) : Res Unit :=
  match init (s.m_wifiMode ||| WIFI_MODE_AP) s with
  | Res.abort s0 => Res.abort s0
  | Res.blocked s0 => Res.blocked s0
  | Res.ret _ s0 =>
    match (if s0.m_wifiMode &&& WIFI_MODE_AP ≠ 0 then stopAP s0 else Res.ret () s0) with
    | Res.abort s1 => Res.abort s1
    | Res.blocked s1 => Res.blocked s1
    | Res.ret _ s1 =>
      let s2 : WiFi := { s1 with m_wifiMode := s1.m_wifiMode ||| WIFI_MODE_AP }
      let r3 := esp_wifi_set_mode s2.m_wifiMode s2
      if r3.1 ≠ ESP_OK then Res.abort r3.2
      else
        let mem := memcpyAt (memcpyAt (memcpyAt (List.replicate 98 0) 0 ssid) 96
          [ssid.length % 256]) 32 password
        let apConfig : ApConfig :=
          { ssid := ssid, ssid_len := mem.getD 96 0, password := password,
            channel := channel % 256, authmode := auth,
            ssid_hidden := if ssid_hidden then 1 else 0,
            max_connection := max_connection % 256, beacon_interval := 100 }
        let r4 := esp_wifi_set_config_ap apConfig r3.2
        if r4.1 ≠ ESP_OK then Res.abort r4.2 else Res.ret () r4.2

/-- The three-argument `WiFi::startAP(ssid, password, auth)`. -/
def startAP3 (ssid password : Bytes) (auth : Nat) (s : WiFi) : Res Unit :=
  startAP ssid password auth 0 false 4 s

/-- The loop of `scan` that copies the driver records into `WiFiAPRecord`s. -/
def toAPRecords (list : List wifi_ap_record_t) : List WiFiAPRecord :=
  list.map (fun r =>
    { m_bssid := r.bssid, m_ssid := c_str r.ssid, m_authMode := r.authmode,
      m_rssi := r.rssi })

/-- `WiFi::scan()`. The call of `std::sort` with the comparator
`lhs.m_rssi > rhs.m_rssi` is an insertion sort into non-increasing `m_rssi`. -/
def scan (s : WiFi) : Res (List WiFiAPRecord) :=
  match init (s.m_wifiMode ||| WIFI_MODE_STA) s with
  | Res.abort s0 => Res.abort s0
  | Res.blocked s0 => Res.blocked s0
  | Res.ret _ s0 =>
    let r1 := esp_wifi_set_mode (s0.m_wifiMode ||| WIFI_MODE_STA) s0
    if r1.1 ≠ ESP_OK then Res.abort r1.2
    else
      let r2 := esp_wifi_scan_start r1.2
      if r2.1 ≠ ESP_OK then
        Res.ret [] (esp_wifi_set_mode r2.2.m_wifiMode r2.2).2
      else
        let r3 := esp_wifi_scan_get_ap_num r2.2
        if r3.1.1 ≠ ESP_OK then
          Res.ret [] (esp_wifi_set_mode r3.2.m_wifiMode r3.2).2
        else if r3.1.2 = 0 then
          Res.ret [] (esp_wifi_set_mode r3.2.m_wifiMode r3.2).2
        else
          let r4 := malloc r3.2
          if !r4.1 then
            Res.ret [] (esp_wifi_set_mode r4.2.m_wifiMode r4.2).2
          else
            let r5 := esp_wifi_scan_get_ap_records r3.1.2 r4.2
            if r5.1.1 ≠ ESP_OK then Res.abort r5.2
            else
              let apRecords :=
                (toAPRecords r5.1.2).insertionSort (fun lhs rhs => rhs.m_rssi ≤ lhs.m_rssi)
              Res.ret apRecords (esp_wifi_set_mode r5.2.m_wifiMode r5.2).2

/-- `WiFi::addDNSServer(ip_addr_t ip)`. -/
def addDNSServer (ip : Nat) (s : WiFi) : Res Unit :=
  match init WIFI_MODE_STA s with
  | Res.abort s0 => Res.abort s0
  | Res.blocked s0 => Res.blocked s0
  | Res.ret _ s0 =>
    let s1 := call (Call.dns_setserver (s0.m_dnsCount : Int) ip) s0
    let s2 : WiFi := { s1 with m_dnsCount := (s1.m_dnsCount + 1) % 256 }
    Res.ret () { s2 with m_dnsCount := s2.m_dnsCount % 2 }

/-- `WiFi::addDNSServer(const char *ip)`; `inet_pton` is the address parser of the
C library, `none` when the text is not an address. -/
def addDNSServerStr (inet_pton : Bytes → Option Nat) (ip : Bytes) (s : WiFi) : Res Unit :=
  match inet_pton (c_str ip) with
  | some dns_server => addDNSServer dns_server s
  | none => Res.ret () s

/-- `WiFi::setDNSServer(int numdns, ip_addr_t ip)`. The resolver function is
`dns_setserver(u8_t numdns, ...)`: the `int` is converted to one byte at the
call. -/
def setDNSServer (numdns : Int) (ip : Nat) (s : WiFi) : Res Unit :=
  match init WIFI_MODE_STA s with
  | Res.abort s0 => Res.abort s0
  | Res.blocked s0 => Res.blocked s0
  | Res.ret _ s0 => Res.ret () (call (Call.dns_setserver (numdns % 256) ip) s0)

/-- `WiFi::setDNSServer(int numdns, const char *ip)`. -/
def setDNSServerStr (inet_pton : Bytes → Option Nat) (numdns : Int) (ip : Bytes) (s : WiFi) :
    Res Unit :=
  match inet_pton (c_str ip) with
  | some dns_server => setDNSServer numdns dns_server s
  | none => Res.ret () s

/-- `WiFi::setIPInfo(uint32_t ip, uint32_t gw, uint32_t netmask)`. -/
def setIPInfo (ip gw netmask : Nat) (s : WiFi) : Res Unit :=
  match init (s.m_wifiMode ||| WIFI_MODE_STA) s with
  | Res.abort s0 => Res.abort s0
  | Res.blocked s0 => Res.blocked s0
  | Res.ret _ s0 =>
    let s1 : WiFi := { s0 with ip := ip, gw := gw, netmask := netmask }
    if ip ≠ 0 ∧ gw ≠ 0 ∧ netmask ≠ 0 then
      Res.ret () (call (Call.esp_netif_set_ip_info ip gw netmask)
        (call Call.esp_netif_dhcpc_stop s1))
    else
      Res.ret () (call Call.esp_netif_dhcpc_start { s1 with ip := 0 })

/-- `WiFi::setIPInfo(const char *ip, const char *gw, const char *netmask)`. -/
def setIPInfoStr (inet_pton : Bytes → Option Nat) (ip gw netmask : Bytes) (s : WiFi) :
    Res Unit :=
  match inet_pton (c_str ip), inet_pton (c_str gw), inet_pton (c_str netmask) with
  | some new_ip, some new_gw, some new_netmask => setIPInfo new_ip new_gw new_netmask s
  | _, _, _ => Res.ret () s

/-- `WiFi::isConnectedToAP()`: the status byte converted to `bool`. -/
def isConnectedToAP (s : WiFi) : Bool := s.m_apConnectionStatus ≠ 0

/-- `WiFi::setWifiEventHandler(wifiEventHandler)`. -/
def setWifiEventHandler (chain : List Nat) (s : WiFi) : WiFi :=
  { s with m_pWifiEventHandler := chain }

/-- `WiFi::setStationHostname(hostname)`. -/
def setStationHostname (hostname : Bytes) (s : WiFi) : WiFi :=
  { s with m_stationHostname := hostname }


/-! ## Sequences of operations and observations on the log -/

/-- The public operations with their arguments; `connectSTA` carries the number
of timed waits it is observed for. -/
inductive Op where
  | connectSTA (fuel : Nat) (ssid password : Bytes) (waitForConnection testConnection : Bool)
  | disconnectSTA
  | startAP (ssid password : Bytes) (auth channel : Nat) (ssid_hidden : Bool)
      (max_connection : Nat)
  | stopAP
  | scan
  | addDNSServer (ip : Nat)
  | setDNSServer (numdns : Int) (ip : Nat)
  | setIPInfo (ip gw netmask : Nat)
  deriving DecidableEq, Repr

/-- Run one operation; `none` when it does not return (abort, or still parked). -/
def Op.run : Op → WiFi → Option WiFi
  | Op.connectSTA fuel ssid password w t, s => (WiFi.connectSTA fuel ssid password w t s).returned
  | Op.disconnectSTA, s => (WiFi.disconnectSTA s).returned
  | Op.startAP ssid password auth channel hidden maxc, s =>
    (WiFi.startAP ssid password auth channel hidden maxc s).returned
  | Op.stopAP, s => (WiFi.stopAP s).returned
  | Op.scan, s => (WiFi.scan s).returned
  | Op.addDNSServer ip, s => (WiFi.addDNSServer ip s).returned
  | Op.setDNSServer n ip, s => (WiFi.setDNSServer n ip s).returned
  | Op.setIPInfo ip gw nm, s => (WiFi.setIPInfo ip gw nm s).returned

/-- Run a sequence of operations, each on the state the previous one returned in. -/
def runOps : List Op → WiFi → Option WiFi
  | [], s => some s
  | op :: ops, s =>
    match op.run s with
    | some s1 => runOps ops s1
    | none => none

/-- The operations that set or clear a mode flag: `connectSTA` without
credential test, `startAP`, `disconnectSTA`, `stopAP`. -/
def Op.isModeOp : Op → Bool
  | Op.connectSTA _ _ _ _ testConnection => !testConnection
  | Op.disconnectSTA => true
  | Op.startAP _ _ _ _ _ _ => true
  | Op.stopAP => true
  | _ => false

/-- The composition the mode flag is specified to follow: bitwise OR of the flag
for a set, AND-NOT of the flag for a clear. -/
def modeStep (m : Nat) : Op → Nat
  | Op.connectSTA _ _ _ _ _ => m ||| WIFI_MODE_STA
  | Op.startAP _ _ _ _ _ _ => m ||| WIFI_MODE_AP
  | Op.disconnectSTA => m &&& bitNot32 WIFI_MODE_STA
  | Op.stopAP => m &&& bitNot32 WIFI_MODE_AP
  | _ => m

/-- The left-to-right fold of `modeStep` from `WIFI_MODE_NULL`. -/
def modeFold (ops : List Op) : Nat := ops.foldl modeStep WIFI_MODE_NULL

/-- The mode most recently passed to `esp_wifi_set_mode`, if any. -/
def lastMode (l : List Call) : Option Nat :=
  l.foldl (fun acc c => match c with
    | Call.esp_wifi_set_mode m => some m
    | _ => acc) none

/-- The calls that `init` issues. -/
def Call.isInit : Call → Bool
  | Call.esp_event_loop_create_default => true
  | Call.esp_event_handler_register _ => true
  | Call.nvs_flash_init => true
  | Call.esp_netif_init => true
  | Call.esp_wifi_init => true
  | Call.esp_wifi_set_storage => true
  | Call.esp_netif_create_default_wifi_sta => true
  | Call.esp_netif_set_hostname _ => true
  | Call.esp_netif_create_default_wifi_ap => true
  | Call.esp_wifi_set_mode _ => true
  | Call.esp_wifi_start => true
  | _ => false

/-- The calls to the radio driver (`esp_wifi_*`). -/
def Call.isDriver : Call → Bool
  | Call.esp_wifi_init => true
  | Call.esp_wifi_set_storage => true
  | Call.esp_wifi_set_mode _ => true
  | Call.esp_wifi_start => true
  | Call.esp_wifi_set_config_sta _ _ => true
  | Call.esp_wifi_set_config_ap _ => true
  | Call.esp_wifi_connect => true
  | Call.esp_wifi_disconnect => true
  | Call.esp_wifi_scan_start => true
  | Call.esp_wifi_scan_get_ap_num => true
  | Call.esp_wifi_scan_get_ap_records _ => true
  | _ => false

/-- The caller-side claims of the semaphore: `take` and timed `take`. -/
def Call.isWait : Call → Bool
  | Call.take => true
  | Call.take_timed _ _ => true
  | _ => false

/-- Number of `esp_wifi_connect` calls in a log. -/
def connectCalls (l : List Call) : Nat := l.count Call.esp_wifi_connect

/-- Number of `esp_wifi_disconnect` calls in a log. -/
def disconnectCalls (l : List Call) : Nat := l.count Call.esp_wifi_disconnect

/-- Number of claims of the semaphore (`take`, timed `take`) in a log. -/
def waits (l : List Call) : Nat := l.countP Call.isWait

/-- Number of 5000 ms waits in a log that ended in a timeout. -/
def timeouts (l : List Call) : Nat := l.count (Call.take_timed 5000 false)

/-- No connect, no disconnect and no claim of the semaphore in a list of calls. -/
def NoTraffic (l : List Call) : Prop :=
  connectCalls l = 0 ∧ disconnectCalls l = 0 ∧ waits l = 0 ∧ timeouts l = 0

/-- Every code of a script list is `ESP_OK`. -/
def allOk (l : List Int) : Prop := ∀ rc ∈ l, rc = ESP_OK

instance (l : List Int) : Decidable (allOk l) := by
  unfold allOk
  infer_instance

/-- The driver accepts the setup calls: bring-up, mode-set, config-set, and the
creation of the two network interfaces. -/
def Driver.setupAccepted (d : Driver) : Prop :=
  allOk d.rc_wifi_init ∧ allOk d.rc_set_storage ∧ allOk d.rc_start ∧
  allOk d.rc_set_mode ∧ allOk d.rc_set_config ∧ d.sta_netif ≠ 0 ∧ d.ap_netif ≠ 0

instance (d : Driver) : Decidable d.setupAccepted := by
  unfold Driver.setupAccepted
  infer_instance

/-- The driver accepts every `esp_wifi_connect` call. -/
def Driver.connectAccepted (d : Driver) : Prop := allOk d.rc_connect

instance (d : Driver) : Decidable d.connectAccepted := by
  unfold Driver.connectAccepted
  infer_instance

/-- The events on which `eventHandler` gives the semaphore. -/
def Event.releases (e : Event) : Bool :=
  (e.base = EventBase.WIFI_EVENT ∧ e.event_id = WIFI_EVENT_STA_DISCONNECTED) ∨
  (e.base = EventBase.IP_EVENT ∧ e.event_id = IP_EVENT_STA_GOT_IP)


/-! ## The states that the straight-line parts lead to -/

/-- The calls that a returning `init(mode)` issues from the state `s`. -/
def initCalls (mode : Nat) (s : WiFi) : List Call :=
  (if s.m_eventLoopStarted then []
   else [Call.esp_event_loop_create_default,
         Call.esp_event_handler_register EventBase.WIFI_EVENT,
         Call.esp_event_handler_register EventBase.IP_EVENT]) ++
  (if s.m_initCalled then []
   else [Call.nvs_flash_init, Call.esp_netif_init, Call.esp_wifi_init, Call.esp_wifi_set_storage,
         Call.esp_netif_create_default_wifi_sta] ++
        (if s.m_stationHostname ≠ [] then [Call.esp_netif_set_hostname (c_str s.m_stationHostname)]
         else []) ++
        [Call.esp_netif_create_default_wifi_ap, Call.esp_wifi_set_mode mode, Call.esp_wifi_start])

/-- The state in which a returning `init(mode)` leaves the object `s`. -/
def initDone (mode : Nat) (s : WiFi) : WiFi :=
  { s with
    m_eventLoopStarted := true
    m_initCalled := true
    staInterface := if s.m_initCalled then s.staInterface else s.drv.sta_netif
    apInterface := if s.m_initCalled then s.apInterface else s.drv.ap_netif
    drv :=
      { s.drv with
        rc_wifi_init := if s.m_initCalled then s.drv.rc_wifi_init else s.drv.rc_wifi_init.tail
        rc_set_storage :=
          if s.m_initCalled then s.drv.rc_set_storage else s.drv.rc_set_storage.tail
        rc_set_mode := if s.m_initCalled then s.drv.rc_set_mode else s.drv.rc_set_mode.tail
        rc_start := if s.m_initCalled then s.drv.rc_start else s.drv.rc_start.tail }
    log := s.log ++ initCalls mode s }

/-- The calls that a returning `connectSetup` issues after `init`. -/
def setupCalls (ssid password : Bytes) (s : WiFi) : List Call :=
  (if s.m_wifiMode &&& WIFI_MODE_STA ≠ 0 then
     [Call.esp_wifi_set_mode (s.m_wifiMode &&& bitNot32 WIFI_MODE_STA)]
   else []) ++
  [Call.esp_phy_erase_cal_data_in_nvs, Call.esp_wifi_set_mode (s.m_wifiMode ||| WIFI_MODE_STA)] ++
  (if s.ip ≠ 0 ∧ s.gw ≠ 0 ∧ s.netmask ≠ 0 then
     [Call.esp_netif_dhcpc_stop, Call.esp_netif_set_ip_info s.ip s.gw s.netmask]
   else []) ++
  [Call.esp_wifi_set_config_sta (c_str ssid) (c_str password)]

/-- The state in which a returning `connectSetup` leaves the object `s`. -/
def connectSetupDone (ssid password : Bytes) (s : WiFi) : WiFi :=
  let s0 := initDone (s.m_wifiMode ||| WIFI_MODE_STA) s
  { s0 with
    m_apConnectionStatus := UINT8_MAX
    m_wifiMode := s.m_wifiMode ||| WIFI_MODE_STA
    drv :=
      { s0.drv with
        rc_set_mode :=
          if s.m_wifiMode &&& WIFI_MODE_STA ≠ 0 then s0.drv.rc_set_mode.tail.tail
          else s0.drv.rc_set_mode.tail
        rc_set_config := s0.drv.rc_set_config.tail }
    log := s0.log ++ setupCalls ssid password s }

/-- The state in which `connectSTA` enters its loop: setup done,
`m_testConnection` stored, semaphore taken. -/
def connectEntry (ssid password : Bytes) (testConnection : Bool) (s : WiFi) : WiFi :=
  { connectSetupDone ssid password s with
    m_testConnection := testConnection
    m_connectFinished := false
    log := (connectSetupDone ssid password s).log ++ [Call.take] }

/-- The state in which `disconnectSTA` leaves an object whose mode includes
the STATION flag, when it returns. -/
def disconnectDone (s : WiFi) : WiFi :=
  { s with
    m_wifiMode := s.m_wifiMode &&& bitNot32 WIFI_MODE_STA
    drv :=
      { s.drv with
        rc_disconnect := s.drv.rc_disconnect.tail
        rc_set_mode :=
          if s.m_wifiMode &&& bitNot32 WIFI_MODE_STA ≠ WIFI_MODE_NULL then s.drv.rc_set_mode.tail
          else s.drv.rc_set_mode }
    log := s.log ++ (Call.esp_wifi_disconnect ::
      (if s.m_wifiMode &&& bitNot32 WIFI_MODE_STA ≠ WIFI_MODE_NULL then
         [Call.esp_wifi_set_mode (s.m_wifiMode &&& bitNot32 WIFI_MODE_STA)]
       else [])) }

/-- The stored mode, the `init` flag and the mode last passed to the driver are
the same in two states. -/
def ModeSame (s t : WiFi) : Prop :=
  t.m_wifiMode = s.m_wifiMode ∧ t.m_initCalled = s.m_initCalled ∧ lastMode t.log = lastMode s.log

/-- The relation that the stored mode keeps with the mode last passed to
`esp_wifi_set_mode`: a stored mode other than `WIFI_MODE_NULL` is the mode last
passed; with `WIFI_MODE_NULL` stored, no mode was passed yet or the last one was
`WIFI_MODE_NULL` or `WIFI_MODE_STA`. The stored mode is one of the four modes,
and it is `WIFI_MODE_NULL` as long as `init` has not run. -/
def ModeInv (s : WiFi) : Prop :=
  s.m_wifiMode < 4 ∧ (s.m_initCalled = false → s.m_wifiMode = WIFI_MODE_NULL) ∧
  (s.m_wifiMode ≠ WIFI_MODE_NULL → lastMode s.log = some s.m_wifiMode) ∧
  (s.m_wifiMode = WIFI_MODE_NULL →
    lastMode s.log = none ∨ lastMode s.log = some WIFI_MODE_NULL ∨
      lastMode s.log = some WIFI_MODE_STA)

/-! ## One-time bring-up -/

/-- The calls of the one-time bring-up in `init`: event loop and handler
registration, storage and netif init, driver init, storage mode, creation of
the two interfaces (with the station hostname), driver start. -/
def Call.isBringUp : Call → Bool
  | Call.esp_event_loop_create_default => true
  | Call.esp_event_handler_register _ => true
  | Call.nvs_flash_init => true
  | Call.esp_netif_init => true
  | Call.esp_wifi_init => true
  | Call.esp_wifi_set_storage => true
  | Call.esp_netif_create_default_wifi_sta => true
  | Call.esp_netif_set_hostname _ => true
  | Call.esp_netif_create_default_wifi_ap => true
  | Call.esp_wifi_start => true
  | _ => false

/-- The bring-up calls of one `init` on an object without station hostname, in
the order `init` issues them. -/
def bringUpOnce : List Call :=
  [Call.esp_event_loop_create_default,
   Call.esp_event_handler_register EventBase.WIFI_EVENT,
   Call.esp_event_handler_register EventBase.IP_EVENT,
   Call.nvs_flash_init, Call.esp_netif_init, Call.esp_wifi_init, Call.esp_wifi_set_storage,
   Call.esp_netif_create_default_wifi_sta, Call.esp_netif_create_default_wifi_ap,
   Call.esp_wifi_start]

/-- The operations whose body calls `init`. -/
def Op.callsInit : Op → Bool
  | Op.disconnectSTA => false
  | Op.stopAP => false
  | _ => true

/-- The two `init` flags, the station hostname and the bring-up calls of the log
are the same in two states. -/
def SameBoot (s t : WiFi) : Prop :=
  t.m_initCalled = s.m_initCalled ∧ t.m_eventLoopStarted = s.m_eventLoopStarted ∧
  t.m_stationHostname = s.m_stationHostname ∧
  t.log.filter Call.isBringUp = s.log.filter Call.isBringUp

/-- The state of the bring-up: not begun, with no bring-up call in the log, or
done, with each bring-up call in the log once. -/
def BootInv (s : WiFi) : Prop :=
  s.m_stationHostname = [] ∧
  ((s.m_initCalled = false ∧ s.m_eventLoopStarted = false ∧
      s.log.filter Call.isBringUp = []) ∨
   (s.m_initCalled = true ∧ s.m_eventLoopStarted = true ∧
      s.log.filter Call.isBringUp = bringUpOnce))

/-! ## The handler chain as linked objects -/

/-- `WiFiEventHandler::eventHandler(ctx, base, event_id, event_data)` on handler
objects linked by pointers: `m_nextHandler h` is the `m_nextHandler` field of
the handler at address `h`, and 0 is `nullptr`. The first argument bounds the
depth of the recursion; `none` when it is used up. The result lists the
callbacks invoked, in order. -/
def WiFiEventHandler.eventHandlerAt (m_nextHandler : Nat → Nat) (base : EventBase)
    (event_id : Int) : Nat → Nat → Option (List (Nat × Callback))
  | 0, _ => none
  | fuel + 1, ctx =>
    if ctx = 0 then some []
    else
      let own : List (Nat × Callback) :=
        match callbackOf base event_id with
        | some cb => [(ctx, cb)]
        | none => []
      if m_nextHandler ctx ≠ 0 then
        (WiFiEventHandler.eventHandlerAt m_nextHandler base event_id fuel (m_nextHandler ctx)).map
          (fun rest => own ++ rest)
      else some own

/-- The handlers `chain`, in this order, are the acyclic chain that starts at
the address `head`: each is a non-null address, each is linked to the next one,
and the last one has a null `m_nextHandler`. -/
def IsChain (m_nextHandler : Nat → Nat) : Nat → List Nat → Prop
  | head, [] => head = 0
  | head, h :: rest => head = h ∧ h ≠ 0 ∧ IsChain m_nextHandler (m_nextHandler h) rest

/-! ## DNS server slots -/

/-- The resolver writes of a log: slot and address of each `dns_setserver` call. -/
def dnsWrites (l : List Call) : List (Int × Nat) :=
  l.filterMap (fun c => match c with
    | Call.dns_setserver numdns ip => some (numdns, ip)
    | _ => none)

/-- The resolver writes that a sequence of `addDNSServer` and `setDNSServer` is
specified to make, `k` counting the `addDNSServer` calls made before: the
k-th `addDNSServer` writes slot `k mod 2`, `setDNSServer(n, ip)` writes slot `n`. -/
def dnsExpected : Nat → List Op → List (Int × Nat)
  | _, [] => []
  | k, Op.addDNSServer ip :: ops => (((k % 2 : Nat) : Int), ip) :: dnsExpected (k + 1) ops
  | k, Op.setDNSServer n ip :: ops => (n, ip) :: dnsExpected k ops
  | k, _ :: ops => dnsExpected k ops

/-- The operations `addDNSServer` and `setDNSServer`. -/
def Op.isDnsOp : Op → Bool
  | Op.addDNSServer _ => true
  | Op.setDNSServer _ _ => true
  | _ => false

/-- Number of `addDNSServer` operations in a sequence. -/
def addCount (ops : List Op) : Nat :=
  ops.countP (fun op => match op with
    | Op.addDNSServer _ => true
    | _ => false)

/-! ## The access-point configuration in memory -/

/-- The first 98 bytes of the `wifi_config_t` that `startAP` builds, written in
the order of the source: `memset` to zero, `memcpy` of the ssid to offset 0,
`ssid_len` at offset 96, `memcpy` of the password to offset 32, `channel` at
offset 97. The offsets are those of `wifi_ap_config_t` in the SDK header:
`uint8_t ssid[32]; uint8_t password[64]; uint8_t ssid_len; uint8_t channel;`. -/
def ApConfig.image (cfg : ApConfig) : List Nat :=
  memcpyAt (memcpyAt (memcpyAt (memcpyAt (List.replicate 98 0) 0 cfg.ssid) 96 [cfg.ssid_len])
    32 cfg.password) 97 [cfg.channel]

/-- The configurations passed to `esp_wifi_set_config(WIFI_IF_AP, ...)` in a
log, in order. -/
def apConfigs (l : List Call) : List ApConfig :=
  l.filterMap (fun c => match c with
    | Call.esp_wifi_set_config_ap cfg => some cfg
    | _ => none)

/-- `WiFi::getApSSID()`: `conf` holds the bytes of the `wifi_config_t` that
`esp_wifi_get_config(WIFI_IF_AP, &conf)` filled; the result is the C string
that starts at `conf.sta.ssid`, which is offset 0. -/
def getApSSID (conf : List Nat) : Bytes := c_str conf

/-- `WiFi::getStaSSID()`: the C string that starts at `conf.ap.ssid`, offset 0 of
the `wifi_config_t` that `esp_wifi_get_config(WIFI_IF_STA, &conf)` filled. -/
def getStaSSID (conf : List Nat) : Bytes := c_str conf

/-! ## A dotted-quad parser for `inet_pton(AF_INET, ...)` -/

/-- The value of a run of one to three decimal digits that is at most 255. -/
def parseOctet (ds : List Nat) : Option Nat :=
  if ds = [] ∨ 3 < ds.length ∨ ¬ ds.all (fun d => 48 ≤ d ∧ d ≤ 57) then none
  else
    let v := ds.foldl (fun acc d => acc * 10 + (d - 48)) 0
    if v ≤ 255 then some v else none

/-- The pieces of a byte string between the dots (byte 46). -/
def splitDots : List Nat → List (List Nat)
  | [] => [[]]
  | b :: rest =>
    if b = 46 then [] :: splitDots rest
    else
      match splitDots rest with
      | [] => [[b]]
      | p :: ps => (b :: p) :: ps

/-- An address parser for dotted-quad text, as `inet_pton(AF_INET, ...)` reads
it: four octets, the first in the lowest byte of the result; `none` when the
text is not of that form. -/
def parseIPv4 (text : List Nat) : Option Nat :=
  match (splitDots text).map parseOctet with
  | [some a, some b, some c, some d] => some (a + 256 * b + 65536 * c + 16777216 * d)
  | _ => none

/-! ## Text formatted into fixed buffers -/

/-- The constants of `wifi_auth_mode_t` that `WiFiAPRecord::toString` names. -/
def WIFI_AUTH_OPEN : Nat := 0
def WIFI_AUTH_WEP : Nat := 1
def WIFI_AUTH_WPA_PSK : Nat := 2
def WIFI_AUTH_WPA2_PSK : Nat := 3
def WIFI_AUTH_WPA_WPA2_PSK : Nat := 4

/-- The decimal digits of `n` as characters, most significant first. -/
def decimalDigits (n : Nat) : Bytes := (Nat.toDigits 10 n).map Char.toNat

/-- The text that the conversion `%d` of `sprintf` prints for `x`: a minus sign
(byte 45) for a negative value, then the decimal digits. -/
def fmt_d (x : Int) : Bytes :=
  if x < 0 then 45 :: decimalDigits x.natAbs else decimalDigits x.natAbs

/-- The `switch` of `WiFiAPRecord::toString`: the name of the auth mode. -/
def authName (m_authMode : Nat) : Bytes :=
  if m_authMode = WIFI_AUTH_OPEN then
    -- "WIFI_AUTH_OPEN"
    [87, 73, 70, 73, 95, 65, 85, 84, 72, 95, 79, 80, 69, 78]
  else if m_authMode = WIFI_AUTH_WEP then
    -- "WIFI_AUTH_WEP"
    [87, 73, 70, 73, 95, 65, 85, 84, 72, 95, 87, 69, 80]
  else if m_authMode = WIFI_AUTH_WPA_PSK then
    -- "WIFI_AUTH_WPA_PSK"
    [87, 73, 70, 73, 95, 65, 85, 84, 72, 95, 87, 80, 65, 95, 80, 83, 75]
  else if m_authMode = WIFI_AUTH_WPA2_PSK then
    -- "WIFI_AUTH_WPA2_PSK"
    [87, 73, 70, 73, 95, 65, 85, 84, 72, 95, 87, 80, 65, 50, 95, 80, 83, 75]
  else if m_authMode = WIFI_AUTH_WPA_WPA2_PSK then
    -- "WIFI_AUTH_WPA_WPA2_PSK"
    [87, 73, 70, 73, 95, 65, 85, 84, 72, 95, 87, 80, 65, 95, 87, 80, 65, 50, 95, 80, 83, 75]
  else
    -- "<unknown>"
    [60, 117, 110, 107, 110, 111, 119, 110, 62]

/-- The characters that `sprintf(info_str, "ssid: %s, auth: %s, rssi: %d", ...)`
of `WiFiAPRecord::toString` produces, without the terminating zero: the pieces
of the format are "ssid: ", ", auth: " and ", rssi: ". -/
def WiFiAPRecord.text (r : WiFiAPRecord) : Bytes :=
  [115, 115, 105, 100, 58, 32] ++ c_str r.m_ssid ++
  [44, 32, 97, 117, 116, 104, 58, 32] ++ authName r.m_authMode ++
  [44, 32, 114, 115, 115, 105, 58, 32] ++ fmt_d r.m_rssi

/-- The size of `static char info_str[6 + 32 + 8 + 22 + 8 + 3 + 1]`. -/
def info_str_size : Nat := 6 + 32 + 8 + 22 + 8 + 3 + 1

/-- `WiFiAPRecord::toString()`: the string read back from `info_str`; `none` when
`sprintf` writes the text and its terminating zero past the end of `info_str`. -/
def WiFiAPRecord.toString (r : WiFiAPRecord) : Option Bytes :=
  if r.text.length + 1 ≤ info_str_size then some r.text else none

/-- The upper-case hexadecimal digit of a value below 16, as `%X` prints it. -/
def hexDigit (d : Nat) : Nat := if d < 10 then 48 + d else 55 + d

/-- The text that the conversion `%02X` prints for a `uint8_t`: two digits. -/
def fmt_02X (b : Nat) : Bytes := [hexDigit (b / 16 % 16), hexDigit (b % 16)]

/-- The characters that `sprintf(mac_str, "%02X:%02X:%02X:%02X:%02X:%02X",
mac[0], ..., mac[5])` produces, without the terminating zero; byte 58 is the
colon. -/
def macText (mac : List Nat) : Bytes :=
  fmt_02X (mac.getD 0 0) ++ 58 :: fmt_02X (mac.getD 1 0) ++ 58 :: fmt_02X (mac.getD 2 0) ++
    58 :: fmt_02X (mac.getD 3 0) ++ 58 :: fmt_02X (mac.getD 4 0) ++ 58 :: fmt_02X (mac.getD 5 0)

/-- The size of `char mac_str[10]`. -/
def mac_str_size : Nat := 10

/-- `WiFi::getApMac()`, `mac` being the six bytes that
`esp_wifi_get_mac(WIFI_IF_AP, mac)` wrote: the string read back from `mac_str`;
`none` when `sprintf` writes the text and its terminating zero past the end of
`mac_str`. -/
def getApMac (mac : List Nat) : Option Bytes :=
  if (macText mac).length + 1 ≤ mac_str_size then some (macText mac) else none

/-- `WiFi::getStaMac()`, `mac` being the six bytes that
`esp_wifi_get_mac(WIFI_IF_STA, mac)` wrote. -/
def getStaMac (mac : List Nat) : Option Bytes :=
  if (macText mac).length + 1 ≤ mac_str_size then some (macText mac) else none

/-! ## Lemmas and theorems -/

theorem allOk_headD {l : List Int} (h : allOk l) : l.headD 0 = 0 := by
  cases l with
  | nil => rfl
  | cons a t => simpa [ESP_OK] using h a (by simp)

theorem allOk_tail {l : List Int} (h : allOk l) : allOk l.tail := by
  intro rc hrc
  exact h rc (List.mem_of_mem_tail hrc)

theorem allOk_ite_tail {l : List Int} (c : Bool) (h : allOk l) :
    allOk (if c then l else l.tail) := by
  cases c
  · simpa using allOk_tail h
  · simpa using h

theorem init_ret {mode : Nat} {s s0 : WiFi} {u : Unit} (h : init mode s = Res.ret u s0) :
    s0 = initDone mode s := by
  unfold init at h
  rcases s with ⟨ip, gw, nm, hd, dc, els, ic, st, sem, si, ai, hn, wm, tc, drv, log, disp⟩
  cases els <;> cases ic <;>
    simp [initDone, initCalls, call, esp_wifi_init, esp_wifi_set_storage, esp_wifi_set_mode,
      esp_wifi_start] at h ⊢ <;>
    first
    | (exact h.symm)
    | (by_cases hh : hn = [] <;> simp [hh] at h ⊢ <;> split_ifs at h <;> simp_all)

theorem init_accepted (mode : Nat) (s : WiFi) (h : s.drv.setupAccepted) :
    init mode s = Res.ret () (initDone mode s) := by
  obtain ⟨h1, h2, h3, h4, h5, h6, h7⟩ := h
  have e1 := allOk_headD h1
  have e2 := allOk_headD h2
  have e3 := allOk_headD h3
  unfold init
  rcases s with ⟨ip, gw, nm, hd, dc, els, ic, st, sem, si, ai, hn, wm, tc, drv, log, disp⟩
  simp only [List.headD_eq_head?_getD] at e1 e2 e3
  cases els <;> cases ic <;>
    simp [initDone, initCalls, call, esp_wifi_init, esp_wifi_set_storage, esp_wifi_set_mode,
      esp_wifi_start, ESP_OK, e1, e2, e3] <;>
    simp_all <;>
    (by_cases hh : hn = [] <;> simp [hh, h6, h7, e3])

theorem initDone_accepted (mode : Nat) {s : WiFi} (h : s.drv.setupAccepted) :
    (initDone mode s).drv.setupAccepted := by
  obtain ⟨h1, h2, h3, h4, h5, h6, h7⟩ := h
  exact ⟨allOk_ite_tail _ h1, allOk_ite_tail _ h2, allOk_ite_tail _ h3, allOk_ite_tail _ h4,
    h5, h6, h7⟩

theorem init_not_blocked {mode : Nat} {s s0 : WiFi} : init mode s ≠ Res.blocked s0 := by
  intro h
  unfold init at h
  rcases s with ⟨ip, gw, nm, hd, dc, els, ic, st, sem, si, ai, hn, wm, tc, drv, log, disp⟩
  cases els <;> cases ic <;>
    simp [call, esp_wifi_init, esp_wifi_set_storage, esp_wifi_set_mode, esp_wifi_start] at h <;>
    split_ifs at h

@[simp] theorem initDone_ip (mode : Nat) (s : WiFi) : (initDone mode s).ip = s.ip := rfl
@[simp] theorem initDone_gw (mode : Nat) (s : WiFi) : (initDone mode s).gw = s.gw := rfl
@[simp] theorem initDone_netmask (mode : Nat) (s : WiFi) :
    (initDone mode s).netmask = s.netmask := rfl
@[simp] theorem initDone_wifiMode (mode : Nat) (s : WiFi) :
    (initDone mode s).m_wifiMode = s.m_wifiMode := rfl
@[simp] theorem initDone_initCalled (mode : Nat) (s : WiFi) :
    (initDone mode s).m_initCalled = true := rfl
@[simp] theorem initDone_log (mode : Nat) (s : WiFi) :
    (initDone mode s).log = s.log ++ initCalls mode s := rfl
@[simp] theorem initDone_dnsCount (mode : Nat) (s : WiFi) :
    (initDone mode s).m_dnsCount = s.m_dnsCount := rfl

theorem connectSetup_ret {ssid password : Bytes} {s s7 : WiFi} {u : Unit}
    (h : connectSetup ssid password s = Res.ret u s7) : s7 = connectSetupDone ssid password s := by
  unfold connectSetup at h
  split at h
  · cases h
  · cases h
  · rename_i u0 s0 h0
    have e0 := init_ret h0
    subst e0
    simp only [esp_wifi_set_mode, esp_wifi_set_config_sta, call] at h
    split_ifs at h <;> cases h <;>
      simp_all [connectSetupDone, setupCalls, UINT8_MAX]

theorem connectSetup_accepted (ssid password : Bytes) (s : WiFi) (h : s.drv.setupAccepted) :
    connectSetup ssid password s = Res.ret () (connectSetupDone ssid password s) := by
  have h0 := initDone_accepted (s.m_wifiMode ||| WIFI_MODE_STA) h
  obtain ⟨-, -, -, h4, h5, -, -⟩ := h0
  have e4 := allOk_headD h4
  have e4t := allOk_headD (allOk_tail h4)
  have e5 := allOk_headD h5
  unfold connectSetup
  rw [init_accepted _ _ h]
  simp only [esp_wifi_set_mode, esp_wifi_set_config_sta, call]
  split_ifs <;> simp_all [connectSetupDone, setupCalls, UINT8_MAX, ESP_OK]

theorem eventHandler_frame (e : Event) (s : WiFi) :
    eventHandler e s =
      { s with m_apConnectionStatus := (eventHandler e s).m_apConnectionStatus
               m_connectFinished := (eventHandler e s).m_connectFinished
               dispatched := (eventHandler e s).dispatched } := by
  unfold eventHandler
  dsimp only
  split_ifs <;> rfl

theorem deliver_frame (evs : List Event) (s : WiFi) :
    deliver evs s =
      { s with m_apConnectionStatus := (deliver evs s).m_apConnectionStatus
               m_connectFinished := (deliver evs s).m_connectFinished
               dispatched := (deliver evs s).dispatched } := by
  induction evs generalizing s with
  | nil => rfl
  | cons e evs ih =>
    have h1 : deliver (e :: evs) s = deliver evs (eventHandler e s) := rfl
    rw [h1]
    have h2 := ih (eventHandler e s)
    have h3 := eventHandler_frame e s
    generalize deliver evs (eventHandler e s) = t at h2 ⊢
    generalize eventHandler e s = u at h2 h3
    rw [h2, h3]

@[simp] theorem deliver_nil (s : WiFi) : deliver [] s = s := rfl

@[simp] theorem deliver_drv (evs : List Event) (s : WiFi) : (deliver evs s).drv = s.drv := by
  rw [deliver_frame]
@[simp] theorem deliver_log (evs : List Event) (s : WiFi) : (deliver evs s).log = s.log := by
  rw [deliver_frame]
@[simp] theorem deliver_wifiMode (evs : List Event) (s : WiFi) :
    (deliver evs s).m_wifiMode = s.m_wifiMode := by
  rw [deliver_frame]
@[simp] theorem deliver_testConnection (evs : List Event) (s : WiFi) :
    (deliver evs s).m_testConnection = s.m_testConnection := by
  rw [deliver_frame]
@[simp] theorem deliver_initCalled (evs : List Event) (s : WiFi) :
    (deliver evs s).m_initCalled = s.m_initCalled := by
  rw [deliver_frame]

theorem eventHandler_quiet {e : Event} (h : e.releases = false) (s : WiFi) :
    (eventHandler e s).m_connectFinished = s.m_connectFinished ∧
    (eventHandler e s).m_apConnectionStatus = s.m_apConnectionStatus := by
  unfold Event.releases at h
  unfold eventHandler
  dsimp only
  split_ifs <;> simp_all

theorem deliver_quiet {evs : List Event} (h : ∀ e ∈ evs, e.releases = false) (s : WiFi) :
    (deliver evs s).m_connectFinished = s.m_connectFinished ∧
    (deliver evs s).m_apConnectionStatus = s.m_apConnectionStatus := by
  induction evs generalizing s with
  | nil => exact ⟨rfl, rfl⟩
  | cons e evs ih =>
    have h1 : deliver (e :: evs) s = deliver evs (eventHandler e s) := rfl
    rw [h1]
    have h2 := ih (fun x hx => h x (List.mem_cons_of_mem _ hx)) (eventHandler e s)
    have h3 := eventHandler_quiet (h e (List.mem_cons_self _ _)) s
    exact ⟨h2.1.trans h3.1, h2.2.trans h3.2⟩

@[simp] theorem park_drv (s : WiFi) :
    (park s).drv = { s.drv with events := s.drv.events.tail } := by
  simp [park]
@[simp] theorem park_log (s : WiFi) : (park s).log = s.log := by
  simp [park]
@[simp] theorem park_wifiMode (s : WiFi) : (park s).m_wifiMode = s.m_wifiMode := by
  simp [park]
@[simp] theorem park_testConnection (s : WiFi) :
    (park s).m_testConnection = s.m_testConnection := by
  simp [park]
@[simp] theorem park_initCalled (s : WiFi) : (park s).m_initCalled = s.m_initCalled := by
  simp [park]

theorem park_quiet (s : WiFi) (hq : ∀ e ∈ s.drv.events.headD [], e.releases = false) :
    (park s).m_connectFinished = s.m_connectFinished ∧
    (park s).m_apConnectionStatus = s.m_apConnectionStatus :=
  deliver_quiet hq _

theorem take_timed_parked (t : Nat) (s : WiFi) (h : s.m_connectFinished = false) :
    take_timed t s =
      ((park s).m_connectFinished,
       { park s with
         m_connectFinished := false
         log := s.log ++ [Call.take_timed t (park s).m_connectFinished] }) := by
  unfold take_timed
  simp only [h, Bool.false_eq_true, if_false]
  have hl : (park s).log = s.log := park_log s
  generalize park s = d at hl ⊢
  rcases d with ⟨ip, gw, nm, hdl, dc, els, ic, st, sem, si, ai, hn, wm, tc, drv, log, disp⟩
  cases sem <;> simp_all

theorem take_timed_quiet (t : Nat) (s : WiFi) (h : s.m_connectFinished = false)
    (hq : ∀ e ∈ s.drv.events.headD [], e.releases = false) :
    (take_timed t s).1 = false ∧
    (take_timed t s).2.m_connectFinished = false ∧
    (take_timed t s).2.m_testConnection = s.m_testConnection ∧
    (take_timed t s).2.m_apConnectionStatus = s.m_apConnectionStatus ∧
    (take_timed t s).2.m_wifiMode = s.m_wifiMode ∧
    (take_timed t s).2.drv = { s.drv with events := s.drv.events.tail } ∧
    (take_timed t s).2.log = s.log ++ [Call.take_timed t false] := by
  have hd := park_quiet s hq
  rw [take_timed_parked t s h]
  simp [hd.1, hd.2, h]

theorem quiet_headD {ws : List (List Event)} (h : ∀ w ∈ ws, ∀ e ∈ w, e.releases = false) :
    ∀ e ∈ ws.headD [], e.releases = false := by
  cases ws with
  | nil => intro e he; cases he
  | cons w t => exact h w (List.mem_cons_self _ _)

theorem quiet_tail {ws : List (List Event)} (h : ∀ w ∈ ws, ∀ e ∈ w, e.releases = false) :
    ∀ w ∈ ws.tail, ∀ e ∈ w, e.releases = false :=
  fun w hw => h w (List.mem_of_mem_tail hw)

theorem connectLoop_zero (s : WiFi) (hc : s.drv.rc_connect.headD 0 = ESP_OK) :
    connectLoop 0 s = Res.blocked (esp_wifi_connect s).2 := by
  have e : (esp_wifi_connect s).1 = 0 := hc
  unfold connectLoop
  simp [ESP_OK, e]

theorem connectLoop_succ (n : Nat) (s : WiFi) (hc : s.drv.rc_connect.headD 0 = ESP_OK) :
    connectLoop (n + 1) s =
      if (take_timed 5000 (esp_wifi_connect s).2).1 then
        connectFinish n (take_timed 5000 (esp_wifi_connect s).2).2
      else if !(take_timed 5000 (esp_wifi_connect s).2).2.m_testConnection then
        connectLoop n (take_timed 5000 (esp_wifi_connect s).2).2
      else connectFinish n (take_timed 5000 (esp_wifi_connect s).2).2 := by
  have e : (esp_wifi_connect s).1 = 0 := hc
  rw [connectLoop]
  simp [ESP_OK, e]

theorem connectLoop_rejected (n : Nat) (s : WiFi) (h : s.drv.rc_connect.headD 0 ≠ ESP_OK) :
    connectLoop n s =
      Res.ret (s.drv.rc_connect.headD 0)
        { give (esp_wifi_connect s).2 with m_testConnection := false } := by
  have e : (esp_wifi_connect s).1 = s.drv.rc_connect.headD 0 := rfl
  cases n <;> simp only [connectLoop, e, ne_eq, h, not_false_eq_true, if_true]

@[simp] theorem esp_wifi_connect_log (s : WiFi) :
    (esp_wifi_connect s).2.log = s.log ++ [Call.esp_wifi_connect] := rfl
@[simp] theorem esp_wifi_connect_sem (s : WiFi) :
    (esp_wifi_connect s).2.m_connectFinished = s.m_connectFinished := rfl
@[simp] theorem esp_wifi_connect_test (s : WiFi) :
    (esp_wifi_connect s).2.m_testConnection = s.m_testConnection := rfl
@[simp] theorem esp_wifi_connect_status (s : WiFi) :
    (esp_wifi_connect s).2.m_apConnectionStatus = s.m_apConnectionStatus := rfl
@[simp] theorem esp_wifi_connect_wifiMode (s : WiFi) :
    (esp_wifi_connect s).2.m_wifiMode = s.m_wifiMode := rfl
@[simp] theorem esp_wifi_connect_events (s : WiFi) :
    (esp_wifi_connect s).2.drv.events = s.drv.events := rfl
@[simp] theorem esp_wifi_connect_rc_connect (s : WiFi) :
    (esp_wifi_connect s).2.drv.rc_connect = s.drv.rc_connect.tail := rfl

theorem connectLoop_quiet (k : Nat) : ∀ s : WiFi, s.m_connectFinished = false →
    s.m_testConnection = false → allOk s.drv.rc_connect →
    (∀ w ∈ s.drv.events, ∀ e ∈ w, e.releases = false) →
    ∃ s' l, connectLoop k s = Res.blocked s' ∧ s'.log = s.log ++ l ∧
      connectCalls l = k + 1 ∧ timeouts l = k ∧ waits l = k ∧ disconnectCalls l = 0 := by
  induction k with
  | zero =>
    intro s _ _ hc _
    refine ⟨_, [Call.esp_wifi_connect], connectLoop_zero s (allOk_headD hc), rfl, ?_, ?_, ?_, ?_⟩ <;> decide
  | succ k ih =>
    intro s hsem htest hc hq
    have hw := take_timed_quiet 5000 (esp_wifi_connect s).2 (by simpa using hsem)
      (by simpa using quiet_headD hq)
    obtain ⟨w1, w2, w3, -, -, w6, w7⟩ := hw
    obtain ⟨s', l, h1, h2, h3, h4, h5, h6⟩ := ih (take_timed 5000 (esp_wifi_connect s).2).2 w2
      (by rw [w3]; simpa using htest)
      (by rw [w6]; simpa using allOk_tail hc)
      (by rw [w6]; simpa using quiet_tail hq)
    refine ⟨s', [Call.esp_wifi_connect, Call.take_timed 5000 false] ++ l, ?_, ?_, ?_, ?_, ?_, ?_⟩
    · rw [connectLoop_succ k s (allOk_headD hc), w1, w3]
      simpa [htest] using h1
    · rw [h2, w7]; simp
    · simp only [connectCalls] at h3 ⊢
      rw [List.count_append, h3]
      simp [List.count_cons]
      omega
    · simp only [timeouts] at h4 ⊢
      rw [List.count_append, h4]
      simp [List.count_cons]
      omega
    · simp only [waits] at h5 ⊢
      rw [List.countP_append, h5]
      simp [List.countP_cons, Call.isWait]
      omega
    · simp only [disconnectCalls] at h6 ⊢
      rw [List.count_append, h6]
      simp [List.count_cons]

@[simp] theorem connectCalls_append (l1 l2 : List Call) :
    connectCalls (l1 ++ l2) = connectCalls l1 + connectCalls l2 := by
  simp [connectCalls]
@[simp] theorem disconnectCalls_append (l1 l2 : List Call) :
    disconnectCalls (l1 ++ l2) = disconnectCalls l1 + disconnectCalls l2 := by
  simp [disconnectCalls]
@[simp] theorem waits_append (l1 l2 : List Call) : waits (l1 ++ l2) = waits l1 + waits l2 := by
  simp [waits]
@[simp] theorem timeouts_append (l1 l2 : List Call) :
    timeouts (l1 ++ l2) = timeouts l1 + timeouts l2 := by
  simp [timeouts]

theorem noTraffic_nil : NoTraffic [] := ⟨rfl, rfl, rfl, rfl⟩

theorem noTraffic_append {l1 l2 : List Call} (h1 : NoTraffic l1) (h2 : NoTraffic l2) :
    NoTraffic (l1 ++ l2) := by
  obtain ⟨a1, a2, a3, a4⟩ := h1
  obtain ⟨b1, b2, b3, b4⟩ := h2
  exact ⟨by simp [a1, b1], by simp [a2, b2], by simp [a3, b3], by simp [a4, b4]⟩

theorem initCalls_noTraffic (mode : Nat) (s : WiFi) : NoTraffic (initCalls mode s) := by
  unfold initCalls NoTraffic connectCalls disconnectCalls waits timeouts
  split_ifs <;> simp [List.count_cons, List.countP_cons, Call.isWait]

theorem setupCalls_noTraffic (ssid password : Bytes) (s : WiFi) :
    NoTraffic (setupCalls ssid password s) := by
  unfold setupCalls NoTraffic connectCalls disconnectCalls waits timeouts
  split_ifs <;> simp [List.count_cons, List.countP_cons, Call.isWait]

@[simp] theorem connectSetupDone_log (ssid password : Bytes) (s : WiFi) :
    (connectSetupDone ssid password s).log =
      s.log ++ (initCalls (s.m_wifiMode ||| WIFI_MODE_STA) s ++ setupCalls ssid password s) := by
  simp [connectSetupDone]
@[simp] theorem connectSetupDone_sem (ssid password : Bytes) (s : WiFi) :
    (connectSetupDone ssid password s).m_connectFinished = s.m_connectFinished := rfl
@[simp] theorem connectSetupDone_status (ssid password : Bytes) (s : WiFi) :
    (connectSetupDone ssid password s).m_apConnectionStatus = 255 := rfl
@[simp] theorem connectSetupDone_wifiMode (ssid password : Bytes) (s : WiFi) :
    (connectSetupDone ssid password s).m_wifiMode = s.m_wifiMode ||| WIFI_MODE_STA := rfl
@[simp] theorem connectSetupDone_initCalled (ssid password : Bytes) (s : WiFi) :
    (connectSetupDone ssid password s).m_initCalled = true := rfl
@[simp] theorem connectSetupDone_events (ssid password : Bytes) (s : WiFi) :
    (connectSetupDone ssid password s).drv.events = s.drv.events := rfl
@[simp] theorem connectSetupDone_rc_connect (ssid password : Bytes) (s : WiFi) :
    (connectSetupDone ssid password s).drv.rc_connect = s.drv.rc_connect := rfl
@[simp] theorem connectSetupDone_rc_disconnect (ssid password : Bytes) (s : WiFi) :
    (connectSetupDone ssid password s).drv.rc_disconnect = s.drv.rc_disconnect := rfl

theorem connectSetupDone_rc_set_mode (ssid password : Bytes) (s : WiFi)
    (h : allOk s.drv.rc_set_mode) : allOk (connectSetupDone ssid password s).drv.rc_set_mode := by
  have h1 : allOk (initDone (s.m_wifiMode ||| WIFI_MODE_STA) s).drv.rc_set_mode :=
    allOk_ite_tail _ h
  simp only [connectSetupDone]
  split_ifs
  · exact allOk_tail (allOk_tail h1)
  · exact allOk_tail h1

/-- C4: with `waitForConnection = false` and a driver that accepts the setup and
connect calls, `connectSTA` returns 255, the unset value of the outcome; the
calls it adds to the log hold exactly one `esp_wifi_connect` and no `take` or
timed `take` of the semaphore, whose state is left as it was. -/
theorem connectSTA_no_wait_returns_pending (fuel : Nat) (ssid password : Bytes)
    (testConnection : Bool) (s : WiFi)
    (hsetup : s.drv.setupAccepted) (hconn : s.drv.connectAccepted) :
    ∃ s' l, connectSTA fuel ssid password false testConnection s = Res.ret 255 s' ∧
      s'.log = s.log ++ l ∧ connectCalls l = 1 ∧ waits l = 0 ∧
      s'.m_connectFinished = s.m_connectFinished := by
  have e : (esp_wifi_connect (connectSetupDone ssid password s)).1 = 0 := allOk_headD hconn
  have hn := noTraffic_append (initCalls_noTraffic (s.m_wifiMode ||| WIFI_MODE_STA) s)
    (setupCalls_noTraffic ssid password s)
  refine ⟨(esp_wifi_connect (connectSetupDone ssid password s)).2,
    (initCalls (s.m_wifiMode ||| WIFI_MODE_STA) s ++ setupCalls ssid password s) ++
      [Call.esp_wifi_connect], ?_, ?_, ?_, ?_, ?_⟩
  · unfold connectSTA
    rw [connectSetup_accepted ssid password s hsetup]
    simp [e, ESP_OK]
  · simp
  · rw [connectCalls_append, hn.1]
    rfl
  · rw [waits_append, hn.2.2.1]
    rfl
  · simp

theorem connectSTA_no_wait_returns_pending_witness :
    (fresh {}).drv.setupAccepted ∧ (fresh {}).drv.connectAccepted ∧
    ∃ s' l, connectSTA 0 [104, 111, 109, 101] [112, 119] false true (fresh {}) = Res.ret 255 s' ∧
      s'.log = (fresh {}).log ++ l ∧ connectCalls l = 1 ∧ waits l = 0 ∧
      s'.m_connectFinished = (fresh {}).m_connectFinished :=
  ⟨by decide, by decide,
    connectSTA_no_wait_returns_pending 0 [104, 111, 109, 101] [112, 119] true (fresh {})
      (by decide) (by decide)⟩

/-- C7: when the stored mode does not include the STATION flag, `disconnectSTA`
returns `ESP_OK` in the very state it was called in: no call is added to the
log and no field changes. -/
theorem disconnectSTA_without_station (s : WiFi) (h : s.m_wifiMode &&& WIFI_MODE_STA = 0) :
    disconnectSTA s = Res.ret ESP_OK s := by
  unfold disconnectSTA
  simp [h]

theorem disconnectSTA_without_station_witness :
    ({ m_wifiMode := WIFI_MODE_AP, log := [Call.esp_wifi_set_mode 2] } : WiFi).m_wifiMode
        &&& WIFI_MODE_STA = 0 ∧
      disconnectSTA { m_wifiMode := WIFI_MODE_AP, log := [Call.esp_wifi_set_mode 2] } =
        Res.ret ESP_OK { m_wifiMode := WIFI_MODE_AP, log := [Call.esp_wifi_set_mode 2] } :=
  ⟨by decide, disconnectSTA_without_station _ (by decide)⟩

@[simp] theorem connectEntry_log (ssid password : Bytes) (t : Bool) (s : WiFi) :
    (connectEntry ssid password t s).log =
      s.log ++ (initCalls (s.m_wifiMode ||| WIFI_MODE_STA) s ++ setupCalls ssid password s ++
        [Call.take]) := by
  simp [connectEntry]
@[simp] theorem connectEntry_sem (ssid password : Bytes) (t : Bool) (s : WiFi) :
    (connectEntry ssid password t s).m_connectFinished = false := rfl
@[simp] theorem connectEntry_test (ssid password : Bytes) (t : Bool) (s : WiFi) :
    (connectEntry ssid password t s).m_testConnection = t := rfl
@[simp] theorem connectEntry_status (ssid password : Bytes) (t : Bool) (s : WiFi) :
    (connectEntry ssid password t s).m_apConnectionStatus = 255 := rfl
@[simp] theorem connectEntry_wifiMode (ssid password : Bytes) (t : Bool) (s : WiFi) :
    (connectEntry ssid password t s).m_wifiMode = s.m_wifiMode ||| WIFI_MODE_STA := rfl
@[simp] theorem connectEntry_initCalled (ssid password : Bytes) (t : Bool) (s : WiFi) :
    (connectEntry ssid password t s).m_initCalled = true := rfl
@[simp] theorem connectEntry_events (ssid password : Bytes) (t : Bool) (s : WiFi) :
    (connectEntry ssid password t s).drv.events = s.drv.events := rfl
@[simp] theorem connectEntry_rc_connect (ssid password : Bytes) (t : Bool) (s : WiFi) :
    (connectEntry ssid password t s).drv.rc_connect = s.drv.rc_connect := rfl
@[simp] theorem connectEntry_rc_disconnect (ssid password : Bytes) (t : Bool) (s : WiFi) :
    (connectEntry ssid password t s).drv.rc_disconnect = s.drv.rc_disconnect := rfl

theorem connectEntry_rc_set_mode (ssid password : Bytes) (t : Bool) (s : WiFi)
    (h : allOk s.drv.rc_set_mode) : allOk (connectEntry ssid password t s).drv.rc_set_mode :=
  connectSetupDone_rc_set_mode ssid password s h

theorem entry_noTraffic (ssid password : Bytes) (s : WiFi) :
    NoTraffic (initCalls (s.m_wifiMode ||| WIFI_MODE_STA) s ++ setupCalls ssid password s) :=
  noTraffic_append (initCalls_noTraffic _ s) (setupCalls_noTraffic ssid password s)

theorem connectSTA_wait (fuel : Nat) (ssid password : Bytes) (t : Bool) (s : WiFi)
    (hsetup : s.drv.setupAccepted) (hsem : s.m_connectFinished = true) :
    connectSTA fuel ssid password true t s = connectLoop fuel (connectEntry ssid password t s) := by
  unfold connectSTA
  rw [connectSetup_accepted ssid password s hsetup]
  simp [take, hsem, connectEntry]

theorem connectSTA_wait_ret {fuel : Nat} {ssid password : Bytes} {t : Bool} {s s' : WiFi} {v : Int}
    (h : connectSTA fuel ssid password true t s = Res.ret v s') :
    connectLoop fuel (connectEntry ssid password t s) = Res.ret v s' := by
  unfold connectSTA at h
  split at h
  · cases h
  · cases h
  · rename_i u s7 h7
    have e7 := connectSetup_ret h7
    subst e7
    simp only [Bool.not_true, Bool.false_eq_true, if_false, take] at h
    split at h
    · cases h
    · rename_i s9 h9
      split_ifs at h9 with hs
      cases h9
      simpa [connectEntry] using h

theorem connectSTA_no_wait_ret {fuel : Nat} {ssid password : Bytes} {t : Bool} {s s' : WiFi}
    {v : Int} (h : connectSTA fuel ssid password false t s = Res.ret v s') :
    s' = (esp_wifi_connect (connectSetupDone ssid password s)).2 := by
  unfold connectSTA at h
  split at h
  · cases h
  · cases h
  · rename_i u s7 h7
    have e7 := connectSetup_ret h7
    subst e7
    simp only [Bool.not_false, if_true] at h
    split_ifs at h
    cases h
    rfl

theorem or_sta_and_sta (m : Nat) : (m ||| WIFI_MODE_STA) &&& WIFI_MODE_STA ≠ 0 := by
  intro h
  have h1 := congrArg (fun x => Nat.testBit x 0) h
  simp [WIFI_MODE_STA] at h1

theorem disconnectSTA_idle (s : WiFi) (h : s.m_wifiMode &&& WIFI_MODE_STA = 0) :
    disconnectSTA s = Res.ret ESP_OK s := by
  unfold disconnectSTA
  rw [if_pos h]

theorem disconnectSTA_ret {s s' : WiFi} {rc : Int} (hm : s.m_wifiMode &&& WIFI_MODE_STA ≠ 0)
    (h : disconnectSTA s = Res.ret rc s') : s' = disconnectDone s := by
  unfold disconnectSTA at h
  simp only [hm, if_false, esp_wifi_disconnect, esp_wifi_set_mode] at h
  split_ifs at h with h1 h2
  · cases h
    simp [disconnectDone, h1]
  · cases h
    simp [disconnectDone, h1]

theorem disconnectSTA_accepted (s : WiFi) (hm : s.m_wifiMode &&& WIFI_MODE_STA ≠ 0)
    (hok : allOk s.drv.rc_set_mode) :
    ∃ rc, disconnectSTA s = Res.ret rc (disconnectDone s) := by
  have e := allOk_headD hok
  unfold disconnectSTA
  simp only [hm, if_false, esp_wifi_disconnect, esp_wifi_set_mode]
  split_ifs with h1 h2
  · exact absurd e h2
  · exact ⟨s.drv.rc_set_mode.headD 0, by simp [disconnectDone, h1]⟩
  · exact ⟨s.drv.rc_disconnect.headD 0, by simp [disconnectDone, h1]⟩

theorem disconnectSTA_not_blocked {s s' : WiFi} : disconnectSTA s ≠ Res.blocked s' := by
  unfold disconnectSTA
  intro h
  dsimp only at h
  split_ifs at h

@[simp] theorem disconnectDone_sem (s : WiFi) :
    (disconnectDone s).m_connectFinished = s.m_connectFinished := rfl
@[simp] theorem disconnectDone_test (s : WiFi) :
    (disconnectDone s).m_testConnection = s.m_testConnection := rfl
@[simp] theorem disconnectDone_status (s : WiFi) :
    (disconnectDone s).m_apConnectionStatus = s.m_apConnectionStatus := rfl
@[simp] theorem disconnectDone_wifiMode (s : WiFi) :
    (disconnectDone s).m_wifiMode = s.m_wifiMode &&& bitNot32 WIFI_MODE_STA := rfl
@[simp] theorem disconnectDone_initCalled (s : WiFi) :
    (disconnectDone s).m_initCalled = s.m_initCalled := rfl
@[simp] theorem disconnectDone_events (s : WiFi) :
    (disconnectDone s).drv.events = s.drv.events := rfl
@[simp] theorem disconnectDone_log (s : WiFi) :
    (disconnectDone s).log = s.log ++ (Call.esp_wifi_disconnect ::
      (if s.m_wifiMode &&& bitNot32 WIFI_MODE_STA ≠ WIFI_MODE_NULL then
         [Call.esp_wifi_set_mode (s.m_wifiMode &&& bitNot32 WIFI_MODE_STA)]
       else [])) := rfl

theorem take_timed_frame (t : Nat) (s : WiFi) :
    (take_timed t s).2.m_wifiMode = s.m_wifiMode ∧
    (take_timed t s).2.m_initCalled = s.m_initCalled ∧
    (take_timed t s).2.m_testConnection = s.m_testConnection ∧
    (take_timed t s).2.log = s.log ++ [Call.take_timed t (take_timed t s).1] ∧
    (take_timed t s).2.m_connectFinished = false ∧
    (take_timed t s).2.drv.rc_set_mode = s.drv.rc_set_mode ∧
    (take_timed t s).2.drv.rc_connect = s.drv.rc_connect ∧
    (take_timed t s).2.drv.events.length ≤ s.drv.events.length := by
  unfold take_timed
  dsimp only
  split_ifs with h1 h2 <;> simp_all

theorem lastMode_append_wait (l : List Call) (t : Nat) (b : Bool) :
    lastMode (l ++ [Call.take_timed t b]) = lastMode l := by
  simp [lastMode]

theorem take_timed_modeSame (t : Nat) (s : WiFi) : ModeSame s (take_timed t s).2 := by
  obtain ⟨h1, h2, -, h4, -⟩ := take_timed_frame t s
  exact ⟨h1, h2, by rw [h4, lastMode_append_wait]⟩

theorem modeSame_refl (s : WiFi) : ModeSame s s := ⟨rfl, rfl, rfl⟩

theorem modeSame_trans {s t u : WiFi} (h1 : ModeSame s t) (h2 : ModeSame t u) : ModeSame s u :=
  ⟨h2.1.trans h1.1, h2.2.1.trans h1.2.1, h2.2.2.trans h1.2.2⟩

/-- What the drain loop leaves as it was. -/
theorem drain_frame (fuel : Nat) : ∀ (s s' : WiFi) (u : Unit), drain fuel s = Res.ret u s' →
    ModeSame s s' ∧ s'.m_testConnection = s.m_testConnection ∧
    ∃ l, s'.log = s.log ++ l ∧ connectCalls l = 0 ∧ disconnectCalls l = 0 ∧
      l.getLast? = some (Call.take_timed 5000 false) := by
  induction fuel with
  | zero => intro s s' u h; simp [drain] at h
  | succ n ih =>
    intro s s' u h
    obtain ⟨f1, f2, f3, f4, -⟩ := take_timed_frame 5000 s
    rw [drain] at h
    rcases hb : (take_timed 5000 s).1 with _ | _
    · simp only [hb, Bool.false_eq_true, if_false] at h
      cases h
      rw [hb] at f4
      exact ⟨take_timed_modeSame 5000 s, f3, [Call.take_timed 5000 false], f4, by decide,
        by decide, rfl⟩
    · simp only [hb, if_true] at h
      obtain ⟨g1, g2, l, g3, g4, g5, g6⟩ := ih _ _ _ h
      rw [hb] at f4
      refine ⟨modeSame_trans (take_timed_modeSame 5000 s) g1, g2.trans f3,
        Call.take_timed 5000 true :: l, ?_, ?_, ?_, ?_⟩
      · rw [g3, f4]; simp
      · simpa [connectCalls, List.count_cons] using g4
      · simpa [disconnectCalls, List.count_cons] using g5
      · cases l with
        | nil => simp at g6
        | cons a t => simpa using g6

/-- The drain loop ends once the script of events is used up. -/
theorem drain_returns (fuel : Nat) : ∀ s : WiFi, s.m_connectFinished = false →
    s.drv.events.length < fuel → ∃ s', drain fuel s = Res.ret () s' := by
  induction fuel with
  | zero => intro s _ h; omega
  | succ n ih =>
    intro s hsem hlen
    rw [drain]
    have hp := take_timed_parked 5000 s hsem
    rcases hb : (take_timed 5000 s).1 with _ | _
    · exact ⟨(take_timed 5000 s).2, by simp [hb]⟩
    · simp only [hb, if_true]
      obtain ⟨-, -, -, -, f5, -, -, -⟩ := take_timed_frame 5000 s
      apply ih _ f5
      rw [hp]
      simp only [park_drv]
      have hne : s.drv.events ≠ [] := by
        intro he
        rw [hp] at hb
        simp [park, he, hsem] at hb
      have := List.length_tail s.drv.events
      have hpos : 0 < s.drv.events.length := List.length_pos.mpr hne
      simp only [List.length_tail]
      omega

@[simp] theorem esp_wifi_connect_rc_set_mode (s : WiFi) :
    (esp_wifi_connect s).2.drv.rc_set_mode = s.drv.rc_set_mode := rfl
@[simp] theorem esp_wifi_connect_initCalled (s : WiFi) :
    (esp_wifi_connect s).2.m_initCalled = s.m_initCalled := rfl

theorem esp_wifi_connect_modeSame (s : WiFi) : ModeSame s (esp_wifi_connect s).2 :=
  ⟨rfl, rfl, by simp [lastMode]⟩

theorem give_modeSame (s : WiFi) : ModeSame s (give s) :=
  ⟨rfl, rfl, by simp [give, lastMode]⟩

theorem connectFinish_plain (n : Nat) (s : WiFi) (h : s.m_testConnection = false) :
    connectFinish n s = Res.ret (s.m_apConnectionStatus : Int) (give s) := by
  unfold connectFinish
  simp [h, give]

/-- The credential-test tail of `connectSTA`: disconnect, drain, give. -/
theorem connectFinish_test_of_drain (fuel : Nat) (s s2 : WiFi) (ht : s.m_testConnection = true)
    (hm : s.m_wifiMode &&& WIFI_MODE_STA ≠ 0) (hok : allOk s.drv.rc_set_mode)
    (h2 : drain fuel (disconnectDone s) = Res.ret () s2) :
    ∃ s' l, connectFinish fuel s = Res.ret (s.m_apConnectionStatus : Int) s' ∧
      s'.m_wifiMode = s.m_wifiMode &&& bitNot32 WIFI_MODE_STA ∧
      s'.log = s.log ++ (Call.esp_wifi_disconnect :: l) ∧
      connectCalls l = 0 ∧ disconnectCalls l = 0 ∧
      s'.m_connectFinished = true ∧ s'.m_apConnectionStatus = 255 := by
  obtain ⟨rc, hd⟩ := disconnectSTA_accepted s hm hok
  obtain ⟨g1, -, l, g3, g4, g5, -⟩ := drain_frame fuel _ _ _ h2
  refine ⟨{ give { s2 with m_testConnection := false } with m_apConnectionStatus := UINT8_MAX },
    (if s.m_wifiMode &&& bitNot32 WIFI_MODE_STA ≠ WIFI_MODE_NULL then
         [Call.esp_wifi_set_mode (s.m_wifiMode &&& bitNot32 WIFI_MODE_STA)]
       else []) ++ l ++ [Call.give], ?_, ?_, ?_, ?_, ?_, ?_, ?_⟩
  · unfold connectFinish
    simp only [ht, if_true, hd, h2]
  · simpa [give] using g1.1
  · simp [give, g3]
  · rw [connectCalls_append, connectCalls_append, g4]
    split_ifs <;> rfl
  · rw [disconnectCalls_append, disconnectCalls_append, g5]
    split_ifs <;> rfl
  · rfl
  · rfl

theorem connectFinish_test (fuel : Nat) (s : WiFi) (ht : s.m_testConnection = true)
    (hm : s.m_wifiMode &&& WIFI_MODE_STA ≠ 0) (hok : allOk s.drv.rc_set_mode)
    (hsem : s.m_connectFinished = false) (hfuel : s.drv.events.length < fuel) :
    ∃ s' l, connectFinish fuel s = Res.ret (s.m_apConnectionStatus : Int) s' ∧
      s'.m_wifiMode = s.m_wifiMode &&& bitNot32 WIFI_MODE_STA ∧
      s'.log = s.log ++ (Call.esp_wifi_disconnect :: l) ∧
      connectCalls l = 0 ∧ disconnectCalls l = 0 ∧
      s'.m_connectFinished = true ∧ s'.m_apConnectionStatus = 255 := by
  obtain ⟨s2, h2⟩ := drain_returns fuel (disconnectDone s) (by simpa using hsem)
    (by simpa using hfuel)
  exact connectFinish_test_of_drain fuel s s2 ht hm hok h2

theorem drain_quiet (n : Nat) (s : WiFi) (hsem : s.m_connectFinished = false)
    (hq : ∀ e ∈ s.drv.events.headD [], e.releases = false) :
    drain (n + 1) s = Res.ret () (take_timed 5000 s).2 := by
  obtain ⟨w1, -⟩ := take_timed_quiet 5000 s hsem hq
  rw [drain]
  simp [w1]

theorem connectLoop_test (n : Nat) (s : WiFi) (ht : s.m_testConnection = true)
    (hc : s.drv.rc_connect.headD 0 = ESP_OK) :
    connectLoop (n + 1) s = connectFinish n (take_timed 5000 (esp_wifi_connect s).2).2 := by
  obtain ⟨-, -, f3, -⟩ := take_timed_frame 5000 (esp_wifi_connect s).2
  rw [connectLoop_succ n s hc, f3]
  simp [ht]

/-- The credential test from the loop entry: one connect call, one wait, then the
tail; the value returned is the outcome stored when the first wait ended. -/
theorem connectLoop_test_returns (fuel : Nat) (s : WiFi) (ht : s.m_testConnection = true)
    (hc : s.drv.rc_connect.headD 0 = ESP_OK) (hm : s.m_wifiMode &&& WIFI_MODE_STA ≠ 0)
    (hok : allOk s.drv.rc_set_mode) (hfuel : s.drv.events.length + 1 < fuel) :
    ∃ s' l, connectLoop fuel s =
        Res.ret ((take_timed 5000 (esp_wifi_connect s).2).2.m_apConnectionStatus : Int) s' ∧
      s'.m_wifiMode = s.m_wifiMode &&& bitNot32 WIFI_MODE_STA ∧
      s'.log = s.log ++ ([Call.esp_wifi_connect,
        Call.take_timed 5000 (take_timed 5000 (esp_wifi_connect s).2).1,
        Call.esp_wifi_disconnect] ++ l) ∧
      connectCalls l = 0 ∧ disconnectCalls l = 0 ∧
      s'.m_connectFinished = true ∧ s'.m_apConnectionStatus = 255 := by
  obtain ⟨n, rfl⟩ : ∃ n, fuel = n + 1 := ⟨fuel - 1, by omega⟩
  obtain ⟨f1, -, f3, f4, f5, f6, -, f8⟩ := take_timed_frame 5000 (esp_wifi_connect s).2
  obtain ⟨s', l, h1, h2, h3, h4, h5, h6, h7⟩ := connectFinish_test n
    (take_timed 5000 (esp_wifi_connect s).2).2 (by rw [f3]; simpa using ht)
    (by rw [f1]; simpa using hm) (by rw [f6]; simpa using hok) f5
    (by simp at f8; omega)
  refine ⟨s', l, ?_, ?_, ?_, h4, h5, h6, h7⟩
  · rw [connectLoop_test n s ht hc, h1]
  · rw [h2, f1]; rfl
  · rw [h3, f4]; simp

theorem and_not_sta_of_lt {m : Nat} (h : m < 4) :
    (m ||| WIFI_MODE_STA) &&& bitNot32 WIFI_MODE_STA = m &&& bitNot32 WIFI_MODE_STA ∧
    (m &&& WIFI_MODE_STA = 0 → m &&& bitNot32 WIFI_MODE_STA = m) := by
  interval_cases m <;> decide

/-- C3, counterexample: entered with the stored mode `WIFI_MODE_STA` (left by an
earlier `connectSTA`), the credential test that a got-IP event ends returns with
the stored mode `WIFI_MODE_NULL`. -/
theorem connectSTA_test_mode_counterexample :
    (runOps [Op.connectSTA 0 [110] [112] false false]
      (fresh { events := [[⟨EventBase.IP_EVENT, IP_EVENT_STA_GOT_IP, 0⟩]] })).map
        (fun s => s.m_wifiMode) = some WIFI_MODE_STA ∧
    (runOps [Op.connectSTA 0 [110] [112] false false, Op.connectSTA 3 [110] [112] true true]
      (fresh { events := [[⟨EventBase.IP_EVENT, IP_EVENT_STA_GOT_IP, 0⟩]] })).map
        (fun s => s.m_wifiMode) = some WIFI_MODE_NULL ∧
    WIFI_MODE_NULL ≠ WIFI_MODE_STA := by
  decide

/-- C3, amended: for every mode `m` held before the call (NULL, STA, AP, APSTA)
and every script of events (success, failure or timeout of the attempt, and
whatever follows), `connectSTA(ssid, password, true, true)` returns with the
stored mode `m` with the STATION flag cleared; that is `m` itself when `m` did
not include STATION. -/
theorem connectSTA_test_clears_station (fuel : Nat) (ssid password : Bytes) (s : WiFi)
    (hsem : s.m_connectFinished = true) (hsetup : s.drv.setupAccepted)
    (hconn : s.drv.connectAccepted) (hmode : s.m_wifiMode < 4)
    (hfuel : s.drv.events.length + 1 < fuel) :
    ∃ v s', connectSTA fuel ssid password true true s = Res.ret v s' ∧
      s'.m_wifiMode = s.m_wifiMode &&& bitNot32 WIFI_MODE_STA ∧
      (s.m_wifiMode &&& WIFI_MODE_STA = 0 → s'.m_wifiMode = s.m_wifiMode) := by
  obtain ⟨s', l, h1, h2, -⟩ := connectLoop_test_returns fuel (connectEntry ssid password true s) rfl
    (allOk_headD hconn) (or_sta_and_sta _)
    (connectEntry_rc_set_mode ssid password true s hsetup.2.2.2.1) (by simpa using hfuel)
  obtain ⟨b1, b2⟩ := and_not_sta_of_lt hmode
  rw [connectEntry_wifiMode, b1] at h2
  rw [connectSTA_wait fuel ssid password true s hsetup hsem]
  exact ⟨_, s', h1, h2, fun h0 => by rw [h2, b2 h0]⟩

theorem connectSTA_test_clears_station_witness :
    ∃ v s', connectSTA 3 [110] [112] true true
        { m_wifiMode := WIFI_MODE_APSTA, m_initCalled := true, m_eventLoopStarted := true,
          staInterface := 1, apInterface := 2,
          drv := { events := [[⟨EventBase.WIFI_EVENT, WIFI_EVENT_STA_DISCONNECTED, 201⟩]] } }
        = Res.ret v s' ∧
      s'.m_wifiMode = WIFI_MODE_APSTA &&& bitNot32 WIFI_MODE_STA ∧
      (WIFI_MODE_APSTA &&& WIFI_MODE_STA = 0 → s'.m_wifiMode = WIFI_MODE_APSTA) :=
  connectSTA_test_clears_station 3 [110] [112]
    { m_wifiMode := WIFI_MODE_APSTA, m_initCalled := true, m_eventLoopStarted := true,
      staInterface := 1, apInterface := 2,
      drv := { events := [[⟨EventBase.WIFI_EVENT, WIFI_EVENT_STA_DISCONNECTED, 201⟩]] } }
    rfl (by decide) (by decide) (by decide) (by decide)

theorem quiet_take_headD {ws : List (List Event)} {j : Nat}
    (h : ∀ w ∈ ws.take (j + 1), ∀ e ∈ w, e.releases = false) :
    (∀ e ∈ ws.headD [], e.releases = false) ∧
    (∀ w ∈ ws.tail.take j, ∀ e ∈ w, e.releases = false) := by
  cases ws with
  | nil => constructor <;> simp
  | cons w t =>
    refine ⟨h w (by simp), fun x hx => h x ?_⟩
    simp only [List.take_succ_cons, List.mem_cons]
    exact Or.inr hx

/-- A connect call that the driver rejects, after `j` accepted calls whose waits
timed out. -/
theorem connectLoop_rejected_after (e : Int) (rcs : List Int) (he : e ≠ ESP_OK) (j : Nat) :
    ∀ (s : WiFi) (fuel : Nat), s.m_connectFinished = false →
      (s.m_testConnection = true → j = 0) →
      s.drv.rc_connect = List.replicate j ESP_OK ++ e :: rcs →
      (∀ w ∈ s.drv.events.take j, ∀ x ∈ w, x.releases = false) → j ≤ fuel →
      ∃ s' l, connectLoop fuel s = Res.ret e s' ∧
        s'.log = s.log ++ (l ++ [Call.esp_wifi_connect, Call.give]) ∧
        connectCalls l = j ∧ disconnectCalls l = 0 ∧ timeouts l = j ∧ waits l = j := by
  induction j with
  | zero =>
    intro s fuel _ _ hrc _ _
    have hh : s.drv.rc_connect.headD 0 = e := by simp [hrc]
    refine ⟨{ give (esp_wifi_connect s).2 with m_testConnection := false }, [],
      ?_, ?_, rfl, rfl, rfl, rfl⟩
    · rw [connectLoop_rejected fuel s (by rw [hh]; exact he), hh]
    · simp [give]
  | succ j ih =>
    intro s fuel hsem htest hrc hq hfuel
    obtain ⟨n, rfl⟩ : ∃ n, fuel = n + 1 := ⟨fuel - 1, by omega⟩
    have ht : s.m_testConnection = false := by
      cases h : s.m_testConnection
      · rfl
      · exact absurd (htest h) (by omega)
    have hh : s.drv.rc_connect.headD 0 = ESP_OK := by simp [hrc, List.replicate_succ]
    obtain ⟨q1, q2⟩ := quiet_take_headD hq
    obtain ⟨w1, w2, w3, -, -, w6, w7⟩ := take_timed_quiet 5000 (esp_wifi_connect s).2
      (by simpa using hsem) (by simpa using q1)
    obtain ⟨s', l, h1, h2, h3, h4, h5, h6⟩ := ih (take_timed 5000 (esp_wifi_connect s).2).2 n w2
      (by rw [w3]; intro h; simp [ht] at h)
      (by rw [w6]; simp [hrc, List.replicate_succ])
      (by rw [w6]; simpa using q2)
      (by omega)
    refine ⟨s', [Call.esp_wifi_connect, Call.take_timed 5000 false] ++ l, ?_, ?_, ?_, ?_, ?_, ?_⟩
    · rw [connectLoop_succ n s hh, w1, w3]
      simpa [ht] using h1
    · rw [h2, w7]; simp
    · rw [connectCalls_append, h3]
      simp [connectCalls, List.count_cons]
      omega
    · rw [disconnectCalls_append, h4]
      simp [disconnectCalls, List.count_cons]
    · rw [timeouts_append, h5]
      simp [timeouts, List.count_cons]
      omega
    · rw [waits_append, h6]
      simp [waits, List.countP_cons, Call.isWait]
      omega

/-- C5: when the driver rejects an `esp_wifi_connect` call of
`connectSTA(ssid, password, true, testConnection)` with the code `e`, on the
first attempt or on the retry after `j` waits that timed out, `connectSTA`
returns `e`; the log ends with that connect call followed by the release of the
semaphore alone, so that no connect call, no disconnect call and no wait
follows it, and no disconnect call was issued at all. -/
theorem connectSTA_connect_rejected (fuel j : Nat) (ssid password : Bytes)
    (testConnection : Bool) (s : WiFi) (e : Int) (rcs : List Int)
    (hsem : s.m_connectFinished = true) (hsetup : s.drv.setupAccepted) (he : e ≠ ESP_OK)
    (hrc : s.drv.rc_connect = List.replicate j ESP_OK ++ e :: rcs)
    (hj : testConnection = true → j = 0)
    (hquiet : ∀ w ∈ s.drv.events.take j, ∀ x ∈ w, x.releases = false)
    (hfuel : j ≤ fuel) :
    ∃ s' l, connectSTA fuel ssid password true testConnection s = Res.ret e s' ∧
      s'.log = s.log ++ (l ++ [Call.esp_wifi_connect, Call.give]) ∧
      connectCalls l = j ∧ disconnectCalls l = 0 ∧ timeouts l = j := by
  obtain ⟨s', l, h1, h2, h3, h4, h5, -⟩ := connectLoop_rejected_after e rcs he j
    (connectEntry ssid password testConnection s) fuel rfl (by simpa using hj)
    (by simpa using hrc) (by simpa using hquiet) hfuel
  have hn := entry_noTraffic ssid password s
  refine ⟨s', (initCalls (s.m_wifiMode ||| WIFI_MODE_STA) s ++ setupCalls ssid password s ++
    [Call.take]) ++ l, ?_, ?_, ?_, ?_, ?_⟩
  · rw [connectSTA_wait fuel ssid password testConnection s hsetup hsem]
    exact h1
  · rw [h2]; simp
  · rw [connectCalls_append, connectCalls_append, hn.1, h3]
    simp [connectCalls]
  · rw [disconnectCalls_append, disconnectCalls_append, hn.2.1, h4]
    simp [disconnectCalls]
  · rw [timeouts_append, timeouts_append, hn.2.2.2, h5]
    simp [timeouts]

theorem connectSTA_connect_rejected_witness :
    ∃ s' l, connectSTA 4 [110] [112] true false
        (fresh { rc_connect := [0, 0, 12295], events := [[], []] }) = Res.ret 12295 s' ∧
      s'.log = (fresh { rc_connect := [0, 0, 12295], events := [[], []] }).log ++
        (l ++ [Call.esp_wifi_connect, Call.give]) ∧
      connectCalls l = 2 ∧ disconnectCalls l = 0 ∧ timeouts l = 2 :=
  connectSTA_connect_rejected 4 2 [110] [112] false
    (fresh { rc_connect := [0, 0, 12295], events := [[], []] }) 12295 []
    rfl (by decide) (by decide) rfl (by decide) (by decide) (by decide)

/-- C6: with a driver that accepts every connect call and delivers no event that
releases the wait (in particular no event at all): observed for `k` timed waits,
`connectSTA(ssid, password, true, false)` has not returned, has issued `k + 1`
connect calls and has seen `k` timeouts of 5000 ms; whereas
`connectSTA(ssid, password, true, true)` returns 255, a non-success value, after
one connect call whose wait timed out once, followed by the disconnect. -/
theorem connectSTA_without_event (k fuel : Nat) (ssid password : Bytes) (s : WiFi)
    (hsem : s.m_connectFinished = true) (hsetup : s.drv.setupAccepted)
    (hconn : s.drv.connectAccepted)
    (hquiet : ∀ w ∈ s.drv.events, ∀ e ∈ w, e.releases = false) :
    (∃ s' l, connectSTA k ssid password true false s = Res.blocked s' ∧
      s'.log = s.log ++ l ∧ connectCalls l = k + 1 ∧ timeouts l = k) ∧
    (∃ s' l0 l1, connectSTA (fuel + 2) ssid password true true s = Res.ret 255 s' ∧
      s'.log = s.log ++ (l0 ++ [Call.take, Call.esp_wifi_connect, Call.take_timed 5000 false,
        Call.esp_wifi_disconnect] ++ l1) ∧
      connectCalls l0 = 0 ∧ waits l0 = 0 ∧ connectCalls l1 = 0 ∧ (255 : Int) ≠ ESP_OK) := by
  have hn := entry_noTraffic ssid password s
  constructor
  · obtain ⟨s', l, h1, h2, h3, h4, -⟩ := connectLoop_quiet k (connectEntry ssid password false s)
      rfl rfl (by simpa using hconn) (by simpa using hquiet)
    refine ⟨s', (initCalls (s.m_wifiMode ||| WIFI_MODE_STA) s ++ setupCalls ssid password s ++
      [Call.take]) ++ l, ?_, ?_, ?_, ?_⟩
    · rw [connectSTA_wait k ssid password false s hsetup hsem]
      exact h1
    · rw [h2]; simp
    · rw [connectCalls_append, connectCalls_append, hn.1, h3]
      simp [connectCalls]
    · rw [timeouts_append, timeouts_append, hn.2.2.2, h4]
      simp [timeouts]
  · have hw := take_timed_quiet 5000 (esp_wifi_connect (connectEntry ssid password true s)).2 rfl
      (by simpa using quiet_headD hquiet)
    obtain ⟨-, w2, w3, w4, w5, w6, w7⟩ := hw
    have hd := drain_quiet fuel
      (disconnectDone (take_timed 5000 (esp_wifi_connect (connectEntry ssid password true s)).2).2)
      (by simpa using w2)
      (by rw [disconnectDone_events, w6]; simpa using quiet_headD (quiet_tail hquiet))
    obtain ⟨s', l, h1, -, h3, h4, -⟩ := connectFinish_test_of_drain (fuel + 1)
      (take_timed 5000 (esp_wifi_connect (connectEntry ssid password true s)).2).2 _
      (by rw [w3]; rfl) (by rw [w5]; exact or_sta_and_sta _)
      (by rw [w6]; exact connectEntry_rc_set_mode ssid password true s hsetup.2.2.2.1) hd
    refine ⟨s', initCalls (s.m_wifiMode ||| WIFI_MODE_STA) s ++ setupCalls ssid password s, l,
      ?_, ?_, hn.1, hn.2.2.1, h4, by decide⟩
    · rw [connectSTA_wait (fuel + 2) ssid password true s hsetup hsem,
        connectLoop_test (fuel + 1) (connectEntry ssid password true s) rfl (allOk_headD hconn),
        h1, w4]
      rfl
    · rw [h3, w7]; simp

theorem connectSTA_without_event_witness :
    (∃ s' l, connectSTA 3 [110] [112] true false (fresh {}) = Res.blocked s' ∧
      s'.log = (fresh {}).log ++ l ∧ connectCalls l = 3 + 1 ∧ timeouts l = 3) ∧
    (∃ s' l0 l1, connectSTA (0 + 2) [110] [112] true true (fresh {}) = Res.ret 255 s' ∧
      s'.log = (fresh {}).log ++ (l0 ++ [Call.take, Call.esp_wifi_connect,
        Call.take_timed 5000 false, Call.esp_wifi_disconnect] ++ l1) ∧
      connectCalls l0 = 0 ∧ waits l0 = 0 ∧ connectCalls l1 = 0 ∧ (255 : Int) ≠ ESP_OK) :=
  connectSTA_without_event 3 0 [110] [112] (fresh {}) rfl (by decide) (by decide) (by decide)

/-- C9, counterexample: after `startAP` the stored mode is `WIFI_MODE_AP` and
`stopAP` leaves `WIFI_MODE_NULL`; after `connectSTA` the stored mode is
`WIFI_MODE_STA` and `disconnectSTA` leaves `WIFI_MODE_NULL`. -/
theorem clear_single_flag_counterexample :
    (runOps [Op.startAP [65] [] 0 0 false 4] (fresh {})).map (fun s => s.m_wifiMode)
      = some WIFI_MODE_AP ∧
    (runOps [Op.startAP [65] [] 0 0 false 4, Op.stopAP] (fresh {})).map (fun s => s.m_wifiMode)
      = some WIFI_MODE_NULL ∧
    (runOps [Op.connectSTA 0 [65] [] false false] (fresh {})).map (fun s => s.m_wifiMode)
      = some WIFI_MODE_STA ∧
    (runOps [Op.connectSTA 0 [65] [] false false, Op.disconnectSTA] (fresh {})).map
      (fun s => s.m_wifiMode) = some WIFI_MODE_NULL ∧
    WIFI_MODE_NULL ≠ WIFI_MODE_STA := by
  decide

/-- C9, amended: in a state whose stored mode has exactly one flag set, clearing
that flag leaves the stored mode at `WIFI_MODE_NULL`. `disconnectSTA` issues the
disconnect call and no mode-set call; `stopAP` stops the DHCP server and passes
`WIFI_MODE_STA` to the mode-set call of the driver. -/
theorem clear_single_flag_stores_null (s : WiFi) :
    (s.m_wifiMode = WIFI_MODE_STA →
      ∃ rc s', disconnectSTA s = Res.ret rc s' ∧ s'.m_wifiMode = WIFI_MODE_NULL ∧
        s'.log = s.log ++ [Call.esp_wifi_disconnect]) ∧
    (s.m_wifiMode = WIFI_MODE_AP → s.drv.rc_set_mode.headD 0 = ESP_OK →
      ∃ s', stopAP s = Res.ret () s' ∧ s'.m_wifiMode = WIFI_MODE_NULL ∧
        s'.log = s.log ++ [Call.esp_netif_dhcps_stop, Call.esp_wifi_set_mode WIFI_MODE_STA]) := by
  constructor
  · intro hm
    refine ⟨s.drv.rc_disconnect.headD 0, disconnectDone s, ?_, ?_, ?_⟩
    · unfold disconnectSTA
      simp [hm, WIFI_MODE_STA, WIFI_MODE_NULL, bitNot32, esp_wifi_disconnect, disconnectDone]
    · simp [hm, WIFI_MODE_STA, WIFI_MODE_NULL, bitNot32]
    · simp [hm, WIFI_MODE_STA, WIFI_MODE_NULL, bitNot32]
  · intro hm hrc
    have e : s.drv.rc_set_mode.head?.getD 0 = 0 := by simpa [ESP_OK] using hrc
    refine ⟨{ s with
        m_wifiMode := WIFI_MODE_NULL
        drv := { s.drv with rc_set_mode := s.drv.rc_set_mode.tail }
        log := s.log ++ [Call.esp_netif_dhcps_stop, Call.esp_wifi_set_mode WIFI_MODE_STA] },
      ?_, rfl, rfl⟩
    unfold stopAP
    simp only [hm, WIFI_MODE_AP, WIFI_MODE_NULL, bitNot32, esp_wifi_set_mode, call]
    have h0 : (2 &&& 4294967293 : Nat) = 0 := by decide
    simp [e, ESP_OK, WIFI_MODE_STA, h0]

theorem clear_single_flag_stores_null_witness :
    (∃ rc s', disconnectSTA { m_wifiMode := WIFI_MODE_STA } = Res.ret rc s' ∧
      s'.m_wifiMode = WIFI_MODE_NULL ∧
      s'.log = ({ m_wifiMode := WIFI_MODE_STA } : WiFi).log ++ [Call.esp_wifi_disconnect]) ∧
    (∃ s', stopAP { m_wifiMode := WIFI_MODE_AP } = Res.ret () s' ∧
      s'.m_wifiMode = WIFI_MODE_NULL ∧
      s'.log = ({ m_wifiMode := WIFI_MODE_AP } : WiFi).log ++
        [Call.esp_netif_dhcps_stop, Call.esp_wifi_set_mode WIFI_MODE_STA]) :=
  ⟨(clear_single_flag_stores_null { m_wifiMode := WIFI_MODE_STA }).1 rfl,
   (clear_single_flag_stores_null { m_wifiMode := WIFI_MODE_AP }).2 rfl rfl⟩

theorem modeInv_of_modeSame {s t : WiFi} (h : ModeSame s t) (hi : ModeInv s) : ModeInv t := by
  obtain ⟨h1, h2, h3⟩ := h
  unfold ModeInv at *
  rw [h1, h2, h3]
  exact hi

theorem lastMode_initCalls (l : List Call) (mode : Nat) (s : WiFi) :
    lastMode (l ++ initCalls mode s) = if s.m_initCalled then lastMode l else some mode := by
  unfold initCalls
  split_ifs <;> simp_all [lastMode]

theorem lastMode_setupCalls (l : List Call) (ssid password : Bytes) (s : WiFi) :
    lastMode (l ++ setupCalls ssid password s) = some (s.m_wifiMode ||| WIFI_MODE_STA) := by
  unfold setupCalls
  split_ifs <;> simp [lastMode]

theorem lastMode_connectEntry (ssid password : Bytes) (t : Bool) (s : WiFi) :
    lastMode (connectEntry ssid password t s).log = some (s.m_wifiMode ||| WIFI_MODE_STA) := by
  have h := lastMode_setupCalls (s.log ++ initCalls (s.m_wifiMode ||| WIFI_MODE_STA) s)
    ssid password s
  rw [connectEntry_log]
  simpa [lastMode] using h

theorem lastMode_connectSetupDone (ssid password : Bytes) (s : WiFi) :
    lastMode (connectSetupDone ssid password s).log = some (s.m_wifiMode ||| WIFI_MODE_STA) := by
  have h := lastMode_setupCalls (s.log ++ initCalls (s.m_wifiMode ||| WIFI_MODE_STA) s)
    ssid password s
  rw [connectSetupDone_log]
  simpa [lastMode] using h

theorem connectFinish_frame (fuel : Nat) (s s' : WiFi) (v : Int)
    (h : connectFinish fuel s = Res.ret v s') :
    (s.m_testConnection = false ∧ ModeSame s s') ∨
    (s.m_testConnection = true ∧ s.m_wifiMode &&& WIFI_MODE_STA = 0 ∧ ModeSame s s') ∨
    (s.m_testConnection = true ∧ s.m_wifiMode &&& WIFI_MODE_STA ≠ 0 ∧
      ModeSame (disconnectDone s) s') := by
  rcases ht : s.m_testConnection with _ | _
  · left
    rw [connectFinish_plain fuel s ht] at h
    cases h
    exact ⟨rfl, give_modeSame s⟩
  · right
    unfold connectFinish at h
    simp only [ht, if_true] at h
    split at h
    · cases h
    · cases h
    · rename_i rc s1 h1
      split at h
      · cases h
      · cases h
      · rename_i u s2 h2
        cases h
        obtain ⟨g1, -⟩ := drain_frame fuel _ _ _ h2
        have hfin : ModeSame s2
            { give { s2 with m_testConnection := false } with
              m_apConnectionStatus := UINT8_MAX } := ⟨rfl, rfl, by simp [give, lastMode]⟩
        by_cases hm : s.m_wifiMode &&& WIFI_MODE_STA = 0
        · left
          rw [disconnectSTA_idle s hm] at h1
          cases h1
          exact ⟨rfl, hm, modeSame_trans g1 hfin⟩
        · right
          have e1 := disconnectSTA_ret hm h1
          subst e1
          exact ⟨rfl, hm, modeSame_trans g1 hfin⟩

/-- Whether the tail of a credential test ran: nothing of the mode changed, or
the station was disconnected in between. -/
theorem connectLoop_frame (fuel : Nat) : ∀ (s s' : WiFi) (v : Int),
    connectLoop fuel s = Res.ret v s' →
    ModeSame s s' ∨
    (s.m_testConnection = true ∧ s.m_wifiMode &&& WIFI_MODE_STA ≠ 0 ∧
      ∃ t, ModeSame s t ∧ ModeSame (disconnectDone t) s') := by
  have hfin : ∀ (n : Nat) (s t s' : WiFi) (v : Int), ModeSame s t →
      t.m_testConnection = s.m_testConnection → connectFinish n t = Res.ret v s' →
      ModeSame s s' ∨
      (s.m_testConnection = true ∧ s.m_wifiMode &&& WIFI_MODE_STA ≠ 0 ∧
        ∃ t, ModeSame s t ∧ ModeSame (disconnectDone t) s') := by
    intro n s t s' v hst htt h
    rcases connectFinish_frame n t s' v h with ⟨-, h2⟩ | ⟨-, -, h3⟩ | ⟨h1, h2, h3⟩
    · exact Or.inl (modeSame_trans hst h2)
    · exact Or.inl (modeSame_trans hst h3)
    · exact Or.inr ⟨htt ▸ h1, by rw [← hst.1]; exact h2, t, hst, h3⟩
  induction fuel with
  | zero =>
    intro s s' v h
    by_cases hc : s.drv.rc_connect.headD 0 = ESP_OK
    · rw [connectLoop_zero s hc] at h
      cases h
    · rw [connectLoop_rejected 0 s hc] at h
      cases h
      exact Or.inl (modeSame_trans (esp_wifi_connect_modeSame s)
        ⟨rfl, rfl, by simp [give, lastMode]⟩)
  | succ n ih =>
    intro s s' v h
    by_cases hc : s.drv.rc_connect.headD 0 = ESP_OK
    · have hw : ModeSame s (take_timed 5000 (esp_wifi_connect s).2).2 :=
        modeSame_trans (esp_wifi_connect_modeSame s) (take_timed_modeSame 5000 _)
      obtain ⟨-, -, f3, -⟩ := take_timed_frame 5000 (esp_wifi_connect s).2
      rw [connectLoop_succ n s hc] at h
      split_ifs at h with h1 h2
      · exact hfin n s _ s' v hw f3 h
      · rcases ih _ _ _ h with g | ⟨g1, -⟩
        · exact Or.inl (modeSame_trans hw g)
        · simp [g1] at h2
      · exact hfin n s _ s' v hw f3 h
    · rw [connectLoop_rejected (n + 1) s hc] at h
      cases h
      exact Or.inl (modeSame_trans (esp_wifi_connect_modeSame s)
        ⟨rfl, rfl, by simp [give, lastMode]⟩)

theorem connectSTA_ret_cases {fuel : Nat} {ssid password : Bytes} {w t : Bool} {s s' : WiFi}
    {v : Int} (h : connectSTA fuel ssid password w t s = Res.ret v s') :
    ∃ u : WiFi, u.m_wifiMode = s.m_wifiMode ||| WIFI_MODE_STA ∧ u.m_initCalled = true ∧
      lastMode u.log = some (s.m_wifiMode ||| WIFI_MODE_STA) ∧
      (ModeSame u s' ∨ (t = true ∧ ModeSame (disconnectDone u) s')) := by
  cases w
  · have e := connectSTA_no_wait_ret h
    subst e
    exact ⟨connectSetupDone ssid password s, rfl, rfl, lastMode_connectSetupDone ssid password s,
      Or.inl (esp_wifi_connect_modeSame _)⟩
  · have hl := connectSTA_wait_ret h
    rcases connectLoop_frame fuel _ _ _ hl with g | ⟨g1, -, u, g3, g4⟩
    · exact ⟨connectEntry ssid password t s, rfl, rfl, lastMode_connectEntry ssid password t s,
        Or.inl g⟩
    · refine ⟨u, ?_, ?_, ?_, Or.inr ⟨by simpa using g1, g4⟩⟩
      · rw [g3.1]; rfl
      · rw [g3.2.1]; rfl
      · rw [g3.2.2]; exact lastMode_connectEntry ssid password t s

theorem stopAP_ret {s s' : WiFi} {u : Unit} (h : stopAP s = Res.ret u s') :
    (s.m_wifiMode &&& WIFI_MODE_AP = 0 ∧ s' = s) ∨
    (s.m_wifiMode &&& WIFI_MODE_AP ≠ 0 ∧
      s'.m_wifiMode = s.m_wifiMode &&& bitNot32 WIFI_MODE_AP ∧
      s'.m_initCalled = s.m_initCalled ∧
      lastMode s'.log = some (if s.m_wifiMode &&& bitNot32 WIFI_MODE_AP ≠ WIFI_MODE_NULL then
        s.m_wifiMode &&& bitNot32 WIFI_MODE_AP else WIFI_MODE_STA)) := by
  unfold stopAP at h
  by_cases hm : s.m_wifiMode &&& WIFI_MODE_AP = 0
  · rw [if_pos hm] at h
    cases h
    exact Or.inl ⟨hm, rfl⟩
  · right
    rw [if_neg hm] at h
    simp only [esp_wifi_set_mode, call] at h
    split_ifs at h with h1 h2 h3 <;> cases h <;> simp [hm, h1, lastMode]

theorem startAP_ret {ssid password : Bytes} {auth channel maxc : Nat} {hidden : Bool}
    {s s' : WiFi} {u : Unit} (h : startAP ssid password auth channel hidden maxc s = Res.ret u s') :
    s'.m_initCalled = true ∧ lastMode s'.log = some s'.m_wifiMode ∧
    s'.m_wifiMode =
      (if s.m_wifiMode &&& WIFI_MODE_AP = 0 then s.m_wifiMode
       else s.m_wifiMode &&& bitNot32 WIFI_MODE_AP) ||| WIFI_MODE_AP := by
  unfold startAP at h
  split at h
  · cases h
  · cases h
  · rename_i u0 s0 h0
    have e0 := init_ret h0
    subst e0
    split at h
    · cases h
    · cases h
    · rename_i u1 s1 h1
      have hs1 : s1.m_initCalled = true ∧ s1.m_wifiMode =
          (if s.m_wifiMode &&& WIFI_MODE_AP = 0 then s.m_wifiMode
           else s.m_wifiMode &&& bitNot32 WIFI_MODE_AP) := by
        split_ifs at h1 with hm
        · rcases stopAP_ret h1 with ⟨g1, -⟩ | ⟨-, g2, g3, -⟩
          · exact absurd g1 hm
          · simp only [initDone_wifiMode] at hm
            rw [if_neg hm]
            exact ⟨by rw [g3]; rfl, by rw [g2]; rfl⟩
        · cases h1
          simp only [initDone_wifiMode, ne_eq, not_not] at hm
          rw [if_pos hm]
          exact ⟨rfl, rfl⟩
      simp only [esp_wifi_set_mode, esp_wifi_set_config_ap] at h
      split_ifs at h <;>
        (cases h; exact ⟨hs1.1, by simp [lastMode], by simp [hs1.2]⟩)

theorem scan_ret {s s' : WiFi} {v : List WiFiAPRecord} (h : scan s = Res.ret v s') :
    s'.m_initCalled = true ∧ s'.m_wifiMode = s.m_wifiMode ∧
    lastMode s'.log = some s.m_wifiMode := by
  unfold scan at h
  split at h
  · cases h
  · cases h
  · rename_i u0 s0 h0
    have e0 := init_ret h0
    subst e0
    simp only [esp_wifi_set_mode, esp_wifi_scan_start, esp_wifi_scan_get_ap_num, malloc,
      esp_wifi_scan_get_ap_records] at h
    split_ifs at h <;> cases h <;> simp [lastMode]

theorem addDNSServer_ret {ip : Nat} {s s' : WiFi} {u : Unit}
    (h : addDNSServer ip s = Res.ret u s') :
    s'.m_initCalled = true ∧ s'.m_wifiMode = s.m_wifiMode ∧
    lastMode s'.log = if s.m_initCalled then lastMode s.log else some WIFI_MODE_STA := by
  unfold addDNSServer at h
  split at h
  · cases h
  · cases h
  · rename_i u0 s0 h0
    have e0 := init_ret h0
    subst e0
    cases h
    have hl := lastMode_initCalls s.log WIFI_MODE_STA s
    refine ⟨rfl, rfl, ?_⟩
    rw [← hl]
    simp [call, lastMode]

theorem setDNSServer_ret {n : Int} {ip : Nat} {s s' : WiFi} {u : Unit}
    (h : setDNSServer n ip s = Res.ret u s') :
    s'.m_initCalled = true ∧ s'.m_wifiMode = s.m_wifiMode ∧
    lastMode s'.log = if s.m_initCalled then lastMode s.log else some WIFI_MODE_STA := by
  unfold setDNSServer at h
  split at h
  · cases h
  · cases h
  · rename_i u0 s0 h0
    have e0 := init_ret h0
    subst e0
    cases h
    have hl := lastMode_initCalls s.log WIFI_MODE_STA s
    refine ⟨rfl, rfl, ?_⟩
    rw [← hl]
    simp [call, lastMode]

theorem setIPInfo_ret {ip gw nm : Nat} {s s' : WiFi} {u : Unit}
    (h : setIPInfo ip gw nm s = Res.ret u s') :
    s'.m_initCalled = true ∧ s'.m_wifiMode = s.m_wifiMode ∧
    lastMode s'.log =
      if s.m_initCalled then lastMode s.log else some (s.m_wifiMode ||| WIFI_MODE_STA) := by
  unfold setIPInfo at h
  split at h
  · cases h
  · cases h
  · rename_i u0 s0 h0
    have e0 := init_ret h0
    subst e0
    have hl := lastMode_initCalls s.log (s.m_wifiMode ||| WIFI_MODE_STA) s
    rw [← hl]
    dsimp only at h
    split_ifs at h <;> cases h <;> exact ⟨rfl, rfl, by simp [call, lastMode]⟩

theorem mode_bits {m : Nat} (h : m < 4) :
    m ||| WIFI_MODE_STA < 4 ∧ m ||| WIFI_MODE_AP < 4 ∧
    m &&& bitNot32 WIFI_MODE_STA < 4 ∧ m &&& bitNot32 WIFI_MODE_AP < 4 ∧
    m ||| WIFI_MODE_STA ≠ 0 ∧ m ||| WIFI_MODE_AP ≠ 0 ∧
    (m &&& WIFI_MODE_STA = 0 → m &&& bitNot32 WIFI_MODE_STA = m) ∧
    (m &&& WIFI_MODE_AP = 0 → m &&& bitNot32 WIFI_MODE_AP = m) ∧
    (m &&& WIFI_MODE_AP ≠ 0 → (m &&& bitNot32 WIFI_MODE_AP) ||| WIFI_MODE_AP = m ||| WIFI_MODE_AP) ∧
    (m &&& WIFI_MODE_STA ≠ 0 → m &&& bitNot32 WIFI_MODE_STA = 0 → m = WIFI_MODE_STA) ∧
    (m = 0 → m &&& WIFI_MODE_STA = 0 ∧ m &&& WIFI_MODE_AP = 0) := by
  interval_cases m <;> decide

theorem modeInv_fresh (d : Driver) : ModeInv (fresh d) :=
  ⟨by show (0 : Nat) < 4; decide, fun _ => rfl, fun h => absurd rfl h, fun _ => Or.inl rfl⟩

theorem modeInv_disconnectDone {u : WiFi} (hi : ModeInv u)
    (hm : u.m_wifiMode &&& WIFI_MODE_STA ≠ 0) : ModeInv (disconnectDone u) := by
  obtain ⟨i1, i2, i3, i4⟩ := hi
  obtain ⟨-, -, b3, -, -, -, -, -, -, b10, b11⟩ := mode_bits i1
  have hne : u.m_wifiMode ≠ WIFI_MODE_NULL := fun h0 => hm (b11 h0).1
  refine ⟨b3, ?_, ?_, ?_⟩
  · intro hc
    exact absurd (i2 hc) hne
  · intro h
    simp only [disconnectDone_wifiMode] at h
    simp [h, lastMode]
  · intro h
    simp only [disconnectDone_wifiMode] at h
    have h1 : u.m_wifiMode = WIFI_MODE_STA := b10 hm h
    right; right
    have h3 := i3 hne
    rw [h1] at h3
    simpa [h, lastMode] using h3

theorem modeInv_connectSTA {fuel : Nat} {ssid password : Bytes} {w t : Bool} {s s' : WiFi}
    {v : Int} (hi : ModeInv s) (h : connectSTA fuel ssid password w t s = Res.ret v s') :
    ModeInv s' := by
  obtain ⟨u, u1, u2, u3, hu⟩ := connectSTA_ret_cases h
  obtain ⟨b1, -, -, -, b5, -⟩ := mode_bits hi.1
  have hiu : ModeInv u := by
    refine ⟨by rw [u1]; exact b1, fun hc => ?_, fun _ => by rw [u3, u1], fun h0 => ?_⟩
    · rw [u2] at hc; cases hc
    · rw [u1] at h0; exact absurd h0 b5
  rcases hu with g | ⟨-, g⟩
  · exact modeInv_of_modeSame g hiu
  · exact modeInv_of_modeSame g (modeInv_disconnectDone hiu (by rw [u1]; exact or_sta_and_sta _))

theorem modeInv_step (op : Op) (s s' : WiFi) (hi : ModeInv s) (h : op.run s = some s') :
    ModeInv s' := by
  have hi0 := hi
  obtain ⟨i1, i2, i3, i4⟩ := hi
  obtain ⟨b1, b2, b3, b4, b5, b6, b7, b8, b9, b10, b11⟩ := mode_bits i1
  cases op with
  | connectSTA fuel ssid password w t =>
    simp only [Op.run] at h
    cases hr : connectSTA fuel ssid password w t s with
    | ret v s1 =>
      rw [hr] at h
      cases h
      exact modeInv_connectSTA hi0 hr
    | abort s1 => rw [hr] at h; cases h
    | blocked s1 => rw [hr] at h; cases h
  | disconnectSTA =>
    simp only [Op.run] at h
    cases hr : disconnectSTA s with
    | ret v s1 =>
      rw [hr] at h
      cases h
      by_cases hm : s.m_wifiMode &&& WIFI_MODE_STA = 0
      · rw [disconnectSTA_idle s hm] at hr
        cases hr
        exact hi0
      · rw [disconnectSTA_ret hm hr]
        exact modeInv_disconnectDone hi0 hm
    | abort s1 => rw [hr] at h; cases h
    | blocked s1 => rw [hr] at h; cases h
  | startAP ssid password auth channel hidden maxc =>
    simp only [Op.run] at h
    cases hr : startAP ssid password auth channel hidden maxc s with
    | ret v s1 =>
      rw [hr] at h
      cases h
      obtain ⟨g1, g2, g3⟩ := startAP_ret hr
      have hlt : s'.m_wifiMode < 4 ∧ s'.m_wifiMode ≠ 0 := by
        rw [g3]
        split_ifs
        · exact ⟨b2, b6⟩
        · exact ⟨(mode_bits b4).2.1, (mode_bits b4).2.2.2.2.2.1⟩
      refine ⟨hlt.1, fun hc => ?_, fun _ => g2, fun h0 => absurd h0 hlt.2⟩
      rw [g1] at hc; cases hc
    | abort s1 => rw [hr] at h; cases h
    | blocked s1 => rw [hr] at h; cases h
  | stopAP =>
    simp only [Op.run] at h
    cases hr : stopAP s with
    | ret v s1 =>
      rw [hr] at h
      cases h
      rcases stopAP_ret hr with ⟨-, g⟩ | ⟨g0, g1, g2, g3⟩
      · rw [g]; exact hi0
      · refine ⟨by rw [g1]; exact b4, fun hc => ?_, fun hne => ?_, fun h0 => ?_⟩
        · rw [g2] at hc
          exact absurd (b11 (i2 hc)).2 g0
        · rw [g1] at hne
          rw [g3, if_pos hne, g1]
        · rw [g1] at h0
          rw [g3, if_neg (by simpa using h0)]
          exact Or.inr (Or.inr rfl)
    | abort s1 => rw [hr] at h; cases h
    | blocked s1 => rw [hr] at h; cases h
  | scan =>
    simp only [Op.run] at h
    cases hr : scan s with
    | ret v s1 =>
      rw [hr] at h
      cases h
      obtain ⟨g1, g2, g3⟩ := scan_ret hr
      refine ⟨by rw [g2]; exact i1, fun hc => ?_, fun _ => by rw [g3, g2], fun h0 => ?_⟩
      · rw [g1] at hc; cases hc
      · rw [g2] at h0
        rw [g3, h0]
        exact Or.inr (Or.inl rfl)
    | abort s1 => rw [hr] at h; cases h
    | blocked s1 => rw [hr] at h; cases h
  | addDNSServer ip =>
    simp only [Op.run] at h
    cases hr : addDNSServer ip s with
    | ret v s1 =>
      rw [hr] at h
      cases h
      obtain ⟨g1, g2, g3⟩ := addDNSServer_ret hr
      cases hc : s.m_initCalled
      · have hm0 := i2 hc
        rw [hc] at g3
        refine ⟨by rw [g2]; exact i1, fun hc1 => ?_, fun hne => ?_, fun _ => ?_⟩
        · rw [g1] at hc1; cases hc1
        · rw [g2] at hne; exact absurd hm0 hne
        · rw [g3]; exact Or.inr (Or.inr rfl)
      · rw [hc] at g3
        refine ⟨by rw [g2]; exact i1, fun hc1 => ?_, fun hne => ?_, fun h0 => ?_⟩
        · rw [g1] at hc1; cases hc1
        · rw [g2] at hne ⊢; rw [g3]; exact i3 hne
        · rw [g2] at h0; rw [g3]; exact i4 h0
    | abort s1 => rw [hr] at h; cases h
    | blocked s1 => rw [hr] at h; cases h
  | setDNSServer n ip =>
    simp only [Op.run] at h
    cases hr : setDNSServer n ip s with
    | ret v s1 =>
      rw [hr] at h
      cases h
      obtain ⟨g1, g2, g3⟩ := setDNSServer_ret hr
      cases hc : s.m_initCalled
      · have hm0 := i2 hc
        rw [hc] at g3
        refine ⟨by rw [g2]; exact i1, fun hc1 => ?_, fun hne => ?_, fun _ => ?_⟩
        · rw [g1] at hc1; cases hc1
        · rw [g2] at hne; exact absurd hm0 hne
        · rw [g3]; exact Or.inr (Or.inr rfl)
      · rw [hc] at g3
        refine ⟨by rw [g2]; exact i1, fun hc1 => ?_, fun hne => ?_, fun h0 => ?_⟩
        · rw [g1] at hc1; cases hc1
        · rw [g2] at hne ⊢; rw [g3]; exact i3 hne
        · rw [g2] at h0; rw [g3]; exact i4 h0
    | abort s1 => rw [hr] at h; cases h
    | blocked s1 => rw [hr] at h; cases h
  | setIPInfo ip gw nm =>
    simp only [Op.run] at h
    cases hr : setIPInfo ip gw nm s with
    | ret v s1 =>
      rw [hr] at h
      cases h
      obtain ⟨g1, g2, g3⟩ := setIPInfo_ret hr
      cases hc : s.m_initCalled
      · have hm0 := i2 hc
        rw [hc, hm0] at g3
        refine ⟨by rw [g2]; exact i1, fun hc1 => ?_, fun hne => ?_, fun _ => ?_⟩
        · rw [g1] at hc1; cases hc1
        · rw [g2] at hne; exact absurd hm0 hne
        · rw [g3]; exact Or.inr (Or.inr rfl)
      · rw [hc] at g3
        refine ⟨by rw [g2]; exact i1, fun hc1 => ?_, fun hne => ?_, fun h0 => ?_⟩
        · rw [g1] at hc1; cases hc1
        · rw [g2] at hne ⊢; rw [g3]; exact i3 hne
        · rw [g2] at h0; rw [g3]; exact i4 h0
    | abort s1 => rw [hr] at h; cases h
    | blocked s1 => rw [hr] at h; cases h

theorem modeInv_runOps (ops : List Op) : ∀ s s' : WiFi, ModeInv s → runOps ops s = some s' →
    ModeInv s' := by
  induction ops with
  | nil => intro s s' hi h; cases h; exact hi
  | cons op ops ih =>
    intro s s' hi h
    simp only [runOps] at h
    cases hr : op.run s with
    | none => rw [hr] at h; cases h
    | some s1 =>
      rw [hr] at h
      exact ih s1 s' (modeInv_step op s s1 hi hr) h

theorem modeStep_of_run (op : Op) (s s' : WiFi) (hop : op.isModeOp = true)
    (hm : s.m_wifiMode < 4) (h : op.run s = some s') :
    s'.m_wifiMode = modeStep s.m_wifiMode op ∧ s'.m_wifiMode < 4 := by
  obtain ⟨b1, b2, b3, b4, -, -, b7, b8, b9, -, -⟩ := mode_bits hm
  cases op with
  | connectSTA fuel ssid password w t =>
    simp only [Op.isModeOp, Bool.not_eq_true'] at hop
    subst hop
    simp only [Op.run] at h
    cases hr : connectSTA fuel ssid password w false s with
    | ret v s1 =>
      rw [hr] at h
      cases h
      obtain ⟨u, u1, -, -, hu⟩ := connectSTA_ret_cases hr
      rcases hu with g | ⟨g, -⟩
      · have e : s'.m_wifiMode = s.m_wifiMode ||| WIFI_MODE_STA := by rw [g.1, u1]
        exact ⟨e, by rw [e]; exact b1⟩
      · cases g
    | abort s1 => rw [hr] at h; cases h
    | blocked s1 => rw [hr] at h; cases h
  | disconnectSTA =>
    simp only [Op.run] at h
    cases hr : disconnectSTA s with
    | ret v s1 =>
      rw [hr] at h
      cases h
      by_cases h0 : s.m_wifiMode &&& WIFI_MODE_STA = 0
      · rw [disconnectSTA_idle s h0] at hr
        cases hr
        exact ⟨(b7 h0).symm, hm⟩
      · rw [disconnectSTA_ret h0 hr]
        exact ⟨rfl, b3⟩
    | abort s1 => rw [hr] at h; cases h
    | blocked s1 => rw [hr] at h; cases h
  | startAP ssid password auth channel hidden maxc =>
    simp only [Op.run] at h
    cases hr : startAP ssid password auth channel hidden maxc s with
    | ret v s1 =>
      rw [hr] at h
      cases h
      obtain ⟨-, -, g3⟩ := startAP_ret hr
      have e : s'.m_wifiMode = s.m_wifiMode ||| WIFI_MODE_AP := by
        rw [g3]
        split_ifs with h0
        · rfl
        · exact b9 h0
      exact ⟨e, by rw [e]; exact b2⟩
    | abort s1 => rw [hr] at h; cases h
    | blocked s1 => rw [hr] at h; cases h
  | stopAP =>
    simp only [Op.run] at h
    cases hr : stopAP s with
    | ret v s1 =>
      rw [hr] at h
      cases h
      rcases stopAP_ret hr with ⟨g0, g⟩ | ⟨-, g1, -, -⟩
      · rw [g]; exact ⟨(b8 g0).symm, hm⟩
      · exact ⟨g1, by rw [g1]; exact b4⟩
    | abort s1 => rw [hr] at h; cases h
    | blocked s1 => rw [hr] at h; cases h
  | scan => cases hop
  | addDNSServer ip => cases hop
  | setDNSServer n ip => cases hop
  | setIPInfo ip gw nm => cases hop

theorem modeFold_of_runOps (ops : List Op) : ∀ s s' : WiFi,
    (∀ op ∈ ops, op.isModeOp = true) → s.m_wifiMode < 4 → runOps ops s = some s' →
    s'.m_wifiMode = ops.foldl modeStep s.m_wifiMode := by
  induction ops with
  | nil => intro s s' _ _ h; cases h; rfl
  | cons op ops ih =>
    intro s s' hops hm h
    simp only [runOps] at h
    cases hr : op.run s with
    | none => rw [hr] at h; cases h
    | some s1 =>
      rw [hr] at h
      obtain ⟨e1, e2⟩ := modeStep_of_run op s s1 (hops op (List.mem_cons_self _ _)) hm hr
      have := ih s1 s' (fun o ho => hops o (List.mem_cons_of_mem _ ho)) e2 h
      rw [this, e1]
      rfl

/-- C8: on a fresh object, after any sequence of `connectSTA` without credential
test, `startAP`, `disconnectSTA` and `stopAP` in which every operation returned,
the stored `m_wifiMode` is the left-to-right fold from `WIFI_MODE_NULL` of
bitwise OR of the flag for each set and AND-NOT of the flag for each clear. -/
theorem stored_mode_is_fold (d : Driver) (ops : List Op) (s' : WiFi)
    (hops : ∀ op ∈ ops, op.isModeOp = true) (hrun : runOps ops (fresh d) = some s') :
    s'.m_wifiMode = modeFold ops :=
  modeFold_of_runOps ops (fresh d) s' hops (by show (0 : Nat) < 4; decide) hrun

theorem stored_mode_is_fold_witness :
    ∃ s', runOps [Op.connectSTA 1 [110] [112] true false, Op.startAP [65] [] 0 0 false 4,
        Op.disconnectSTA, Op.startAP [66] [] 0 1 false 4, Op.stopAP,
        Op.connectSTA 0 [110] [112] false false]
        (fresh { events := [[⟨EventBase.IP_EVENT, IP_EVENT_STA_GOT_IP, 0⟩]] }) = some s' ∧
      s'.m_wifiMode = modeFold [Op.connectSTA 1 [110] [112] true false,
        Op.startAP [65] [] 0 0 false 4, Op.disconnectSTA, Op.startAP [66] [] 0 1 false 4,
        Op.stopAP, Op.connectSTA 0 [110] [112] false false] := by
  have h : (runOps [Op.connectSTA 1 [110] [112] true false, Op.startAP [65] [] 0 0 false 4,
        Op.disconnectSTA, Op.startAP [66] [] 0 1 false 4, Op.stopAP,
        Op.connectSTA 0 [110] [112] false false]
        (fresh { events := [[⟨EventBase.IP_EVENT, IP_EVENT_STA_GOT_IP, 0⟩]] })).isSome = true := by
    decide
  obtain ⟨s', hs⟩ := Option.isSome_iff_exists.mp h
  exact ⟨s', hs, stored_mode_is_fold _ _ s' (by decide) hs⟩

/-- C10, counterexample: after `addDNSServer` on a fresh object, and after
`startAP` followed by `stopAP`, the stored mode is `WIFI_MODE_NULL` while the
mode last passed to `esp_wifi_set_mode` is `WIFI_MODE_STA`. -/
theorem driver_mode_diverges_counterexample :
    (runOps [Op.addDNSServer 134744072] (fresh {})).map (fun s => (s.m_wifiMode, lastMode s.log))
      = some (WIFI_MODE_NULL, some WIFI_MODE_STA) ∧
    (runOps [Op.startAP [65] [] 0 0 false 4, Op.stopAP] (fresh {})).map
      (fun s => (s.m_wifiMode, lastMode s.log)) = some (WIFI_MODE_NULL, some WIFI_MODE_STA) ∧
    WIFI_MODE_NULL ≠ WIFI_MODE_STA := by
  decide

/-- C10, amended: on a fresh object, after any sequence of public operations in
which every operation returned (and so after each operation of such a
sequence), a stored `m_wifiMode` other than `WIFI_MODE_NULL` is the mode last
passed to `esp_wifi_set_mode`; when `WIFI_MODE_NULL` is stored, the driver
received no mode yet or the last one was `WIFI_MODE_NULL` or `WIFI_MODE_STA`. -/
theorem driver_mode_follows_stored_mode (d : Driver) (ops : List Op) (s' : WiFi)
    (hrun : runOps ops (fresh d) = some s') :
    (s'.m_wifiMode ≠ WIFI_MODE_NULL → lastMode s'.log = some s'.m_wifiMode) ∧
    (s'.m_wifiMode = WIFI_MODE_NULL →
      lastMode s'.log = none ∨ lastMode s'.log = some WIFI_MODE_NULL ∨
        lastMode s'.log = some WIFI_MODE_STA) :=
  (modeInv_runOps ops (fresh d) s' (modeInv_fresh d) hrun).2.2

theorem driver_mode_follows_stored_mode_witness :
    ∃ s', runOps [Op.setIPInfo 3232235876 3232235777 4294967040, Op.scan,
        Op.connectSTA 4 [110] [112] true true, Op.startAP [65] [] 0 0 false 4,
        Op.connectSTA 1 [110] [112] true false, Op.addDNSServer 134744072,
        Op.setDNSServer 1 134743044, Op.disconnectSTA, Op.stopAP]
        (fresh { events := [[⟨EventBase.WIFI_EVENT, WIFI_EVENT_STA_DISCONNECTED, 15⟩], [],
          [⟨EventBase.IP_EVENT, IP_EVENT_STA_GOT_IP, 0⟩]] }) = some s' ∧
      (s'.m_wifiMode ≠ WIFI_MODE_NULL → lastMode s'.log = some s'.m_wifiMode) ∧
      (s'.m_wifiMode = WIFI_MODE_NULL →
        lastMode s'.log = none ∨ lastMode s'.log = some WIFI_MODE_NULL ∨
          lastMode s'.log = some WIFI_MODE_STA) := by
  have h : (runOps [Op.setIPInfo 3232235876 3232235777 4294967040, Op.scan,
        Op.connectSTA 4 [110] [112] true true, Op.startAP [65] [] 0 0 false 4,
        Op.connectSTA 1 [110] [112] true false, Op.addDNSServer 134744072,
        Op.setDNSServer 1 134743044, Op.disconnectSTA, Op.stopAP]
        (fresh { events := [[⟨EventBase.WIFI_EVENT, WIFI_EVENT_STA_DISCONNECTED, 15⟩], [],
          [⟨EventBase.IP_EVENT, IP_EVENT_STA_GOT_IP, 0⟩]] })).isSome = true := by
    decide
  obtain ⟨s', hs⟩ := Option.isSome_iff_exists.mp h
  exact ⟨s', hs, driver_mode_follows_stored_mode _ _ s' hs⟩

theorem sameBoot_refl (s : WiFi) : SameBoot s s := ⟨rfl, rfl, rfl, rfl⟩

theorem sameBoot_trans {s t u : WiFi} (h1 : SameBoot s t) (h2 : SameBoot t u) : SameBoot s u :=
  ⟨h2.1.trans h1.1, h2.2.1.trans h1.2.1, h2.2.2.1.trans h1.2.2.1, h2.2.2.2.trans h1.2.2.2⟩

theorem bootInv_of_sameBoot {s t : WiFi} (h : SameBoot s t) (hi : BootInv s) : BootInv t := by
  obtain ⟨h1, h2, h3, h4⟩ := h
  unfold BootInv at *
  rw [h1, h2, h3, h4]
  exact hi

@[simp] theorem park_eventLoopStarted (s : WiFi) :
    (park s).m_eventLoopStarted = s.m_eventLoopStarted := by
  rw [park, deliver_frame]
@[simp] theorem park_stationHostname (s : WiFi) :
    (park s).m_stationHostname = s.m_stationHostname := by
  rw [park, deliver_frame]

theorem esp_wifi_connect_boot (s : WiFi) : SameBoot s (esp_wifi_connect s).2 :=
  ⟨rfl, rfl, rfl, by simp [List.filter_append, Call.isBringUp]⟩

theorem give_boot (s : WiFi) : SameBoot s (give s) :=
  ⟨rfl, rfl, rfl, by simp [give, List.filter_append, Call.isBringUp]⟩

theorem take_timed_boot (t : Nat) (s : WiFi) : SameBoot s (take_timed t s).2 := by
  unfold take_timed
  dsimp only
  split_ifs <;>
    exact ⟨by simp, by simp, by simp, by simp [List.filter_append, Call.isBringUp]⟩

theorem disconnectDone_boot (s : WiFi) : SameBoot s (disconnectDone s) := by
  refine ⟨rfl, rfl, rfl, ?_⟩
  rw [disconnectDone_log]
  split_ifs <;> simp [List.filter_append, List.filter_cons, Call.isBringUp]

theorem disconnectSTA_boot {s s' : WiFi} {rc : Int} (h : disconnectSTA s = Res.ret rc s') :
    SameBoot s s' := by
  by_cases hm : s.m_wifiMode &&& WIFI_MODE_STA = 0
  · rw [disconnectSTA_idle s hm] at h
    cases h
    exact sameBoot_refl s
  · rw [disconnectSTA_ret hm h]
    exact disconnectDone_boot s

theorem drain_boot (fuel : Nat) : ∀ (s s' : WiFi) (u : Unit), drain fuel s = Res.ret u s' →
    SameBoot s s' := by
  induction fuel with
  | zero => intro s s' u h; simp [drain] at h
  | succ n ih =>
    intro s s' u h
    rw [drain] at h
    rcases hb : (take_timed 5000 s).1 with _ | _
    · simp only [hb, Bool.false_eq_true, if_false] at h
      cases h
      exact take_timed_boot 5000 s
    · simp only [hb, if_true] at h
      exact sameBoot_trans (take_timed_boot 5000 s) (ih _ _ _ h)

theorem connectFinish_boot (fuel : Nat) (s s' : WiFi) (v : Int)
    (h : connectFinish fuel s = Res.ret v s') : SameBoot s s' := by
  rcases ht : s.m_testConnection with _ | _
  · rw [connectFinish_plain fuel s ht] at h
    cases h
    exact give_boot s
  · unfold connectFinish at h
    simp only [ht, if_true] at h
    split at h
    · cases h
    · cases h
    · rename_i rc s1 h1
      split at h
      · cases h
      · cases h
      · rename_i u s2 h2
        cases h
        have hfin : SameBoot s2
            { give { s2 with m_testConnection := false } with
              m_apConnectionStatus := UINT8_MAX } :=
          ⟨rfl, rfl, rfl, by simp [give, List.filter_append, Call.isBringUp]⟩
        exact sameBoot_trans (disconnectSTA_boot h1)
          (sameBoot_trans (drain_boot fuel _ _ _ h2) hfin)

theorem connectLoop_boot (fuel : Nat) : ∀ (s s' : WiFi) (v : Int),
    connectLoop fuel s = Res.ret v s' → SameBoot s s' := by
  have hrej : ∀ s : WiFi, SameBoot s { give (esp_wifi_connect s).2 with m_testConnection := false } :=
    fun s => sameBoot_trans (esp_wifi_connect_boot s)
      ⟨rfl, rfl, rfl, by simp [give, List.filter_append, Call.isBringUp]⟩
  induction fuel with
  | zero =>
    intro s s' v h
    by_cases hc : s.drv.rc_connect.headD 0 = ESP_OK
    · rw [connectLoop_zero s hc] at h
      cases h
    · rw [connectLoop_rejected 0 s hc] at h
      cases h
      exact hrej s
  | succ n ih =>
    intro s s' v h
    by_cases hc : s.drv.rc_connect.headD 0 = ESP_OK
    · have hw : SameBoot s (take_timed 5000 (esp_wifi_connect s).2).2 :=
        sameBoot_trans (esp_wifi_connect_boot s) (take_timed_boot 5000 _)
      rw [connectLoop_succ n s hc] at h
      split_ifs at h
      · exact sameBoot_trans hw (connectFinish_boot n _ _ _ h)
      · exact sameBoot_trans hw (ih _ _ _ h)
      · exact sameBoot_trans hw (connectFinish_boot n _ _ _ h)
    · rw [connectLoop_rejected (n + 1) s hc] at h
      cases h
      exact hrej s

theorem setupCalls_filter (ssid password : Bytes) (s : WiFi) :
    (setupCalls ssid password s).filter Call.isBringUp = [] := by
  unfold setupCalls
  split_ifs <;> simp [List.filter_cons, Call.isBringUp]

theorem connectSTA_boot {fuel : Nat} {ssid password : Bytes} {w t : Bool} {s s' : WiFi}
    {v : Int} (h : connectSTA fuel ssid password w t s = Res.ret v s') :
    SameBoot (initDone (s.m_wifiMode ||| WIFI_MODE_STA) s) s' := by
  have h0 : SameBoot (initDone (s.m_wifiMode ||| WIFI_MODE_STA) s)
      (connectSetupDone ssid password s) :=
    ⟨rfl, rfl, rfl, by
      simp [connectSetupDone, List.filter_append, setupCalls_filter]⟩
  cases w
  · have e := connectSTA_no_wait_ret h
    subst e
    exact sameBoot_trans h0 (esp_wifi_connect_boot _)
  · have hl := connectSTA_wait_ret h
    have h1 : SameBoot (connectSetupDone ssid password s) (connectEntry ssid password t s) :=
      ⟨rfl, rfl, rfl, by
        simp [connectEntry, List.filter_append, Call.isBringUp]⟩
    exact sameBoot_trans h0 (sameBoot_trans h1 (connectLoop_boot fuel _ _ _ hl))

theorem stopAP_boot {s s' : WiFi} {u : Unit} (h : stopAP s = Res.ret u s') : SameBoot s s' := by
  unfold stopAP at h
  by_cases hm : s.m_wifiMode &&& WIFI_MODE_AP = 0
  · rw [if_pos hm] at h
    cases h
    exact sameBoot_refl s
  · rw [if_neg hm] at h
    simp only [esp_wifi_set_mode, call] at h
    split_ifs at h <;> cases h <;>
      exact ⟨rfl, rfl, rfl, by simp [List.filter_append, Call.isBringUp]⟩

theorem startAP_boot {ssid password : Bytes} {auth channel maxc : Nat} {hidden : Bool}
    {s s' : WiFi} {u : Unit} (h : startAP ssid password auth channel hidden maxc s = Res.ret u s') :
    SameBoot (initDone (s.m_wifiMode ||| WIFI_MODE_AP) s) s' := by
  unfold startAP at h
  split at h
  · cases h
  · cases h
  · rename_i u0 s0 h0
    have e0 := init_ret h0
    subst e0
    split at h
    · cases h
    · cases h
    · rename_i u1 s1 h1
      have hs1 : SameBoot (initDone (s.m_wifiMode ||| WIFI_MODE_AP) s) s1 := by
        split_ifs at h1
        · exact stopAP_boot h1
        · cases h1
          exact sameBoot_refl _
      simp only [esp_wifi_set_mode, esp_wifi_set_config_ap] at h
      split_ifs at h <;>
        (cases h
         exact sameBoot_trans hs1
           ⟨rfl, rfl, rfl, by simp [List.filter_append, Call.isBringUp]⟩)

theorem scan_boot {s s' : WiFi} {v : List WiFiAPRecord} (h : scan s = Res.ret v s') :
    SameBoot (initDone (s.m_wifiMode ||| WIFI_MODE_STA) s) s' := by
  unfold scan at h
  split at h
  · cases h
  · cases h
  · rename_i u0 s0 h0
    have e0 := init_ret h0
    subst e0
    simp only [esp_wifi_set_mode, esp_wifi_scan_start, esp_wifi_scan_get_ap_num, malloc,
      esp_wifi_scan_get_ap_records] at h
    split_ifs at h <;> cases h <;>
      exact ⟨rfl, rfl, rfl, by simp [List.filter_append, Call.isBringUp]⟩

theorem addDNSServer_boot {ip : Nat} {s s' : WiFi} {u : Unit}
    (h : addDNSServer ip s = Res.ret u s') : SameBoot (initDone WIFI_MODE_STA s) s' := by
  unfold addDNSServer at h
  split at h
  · cases h
  · cases h
  · rename_i u0 s0 h0
    have e0 := init_ret h0
    subst e0
    cases h
    exact ⟨rfl, rfl, rfl, by simp [call, List.filter_append, Call.isBringUp]⟩

theorem setDNSServer_boot {n : Int} {ip : Nat} {s s' : WiFi} {u : Unit}
    (h : setDNSServer n ip s = Res.ret u s') : SameBoot (initDone WIFI_MODE_STA s) s' := by
  unfold setDNSServer at h
  split at h
  · cases h
  · cases h
  · rename_i u0 s0 h0
    have e0 := init_ret h0
    subst e0
    cases h
    exact ⟨rfl, rfl, rfl, by simp [call, List.filter_append, Call.isBringUp]⟩

theorem setIPInfo_boot {ip gw nm : Nat} {s s' : WiFi} {u : Unit}
    (h : setIPInfo ip gw nm s = Res.ret u s') :
    SameBoot (initDone (s.m_wifiMode ||| WIFI_MODE_STA) s) s' := by
  unfold setIPInfo at h
  split at h
  · cases h
  · cases h
  · rename_i u0 s0 h0
    have e0 := init_ret h0
    subst e0
    dsimp only at h
    split_ifs at h <;> cases h <;>
      exact ⟨rfl, rfl, rfl, by simp [call, List.filter_append, Call.isBringUp]⟩

theorem bootInv_initDone (mode : Nat) {s : WiFi} (hi : BootInv s) :
    BootInv (initDone mode s) ∧ (initDone mode s).m_initCalled = true := by
  obtain ⟨h0, h | h⟩ := hi
  · obtain ⟨h1, h2, h3⟩ := h
    refine ⟨⟨h0, Or.inr ⟨rfl, rfl, ?_⟩⟩, rfl⟩
    simp [initCalls, h0, h1, h2, h3, List.filter_append, List.filter_cons, Call.isBringUp,
      bringUpOnce]
  · obtain ⟨h1, h2, h3⟩ := h
    refine ⟨⟨h0, Or.inr ⟨rfl, rfl, ?_⟩⟩, rfl⟩
    simp [initCalls, h1, h2, h3]

theorem bootInv_fresh (d : Driver) : BootInv (fresh d) :=
  ⟨rfl, Or.inl ⟨rfl, rfl, rfl⟩⟩

theorem bootInv_step (op : Op) (s s' : WiFi) (hi : BootInv s) (h : op.run s = some s') :
    BootInv s' ∧ (op.callsInit = true → s'.m_initCalled = true) := by
  have key : ∀ mode, SameBoot (initDone mode s) s' → BootInv s' ∧ s'.m_initCalled = true :=
    fun mode hb => ⟨bootInv_of_sameBoot hb (bootInv_initDone mode hi).1,
      hb.1.trans (bootInv_initDone mode hi).2⟩
  cases op with
  | connectSTA fuel ssid password w t =>
    simp only [Op.run] at h
    cases hr : connectSTA fuel ssid password w t s with
    | ret v s1 =>
      rw [hr] at h
      cases h
      exact ⟨(key _ (connectSTA_boot hr)).1, fun _ => (key _ (connectSTA_boot hr)).2⟩
    | abort s1 => rw [hr] at h; cases h
    | blocked s1 => rw [hr] at h; cases h
  | disconnectSTA =>
    simp only [Op.run] at h
    cases hr : disconnectSTA s with
    | ret v s1 =>
      rw [hr] at h
      cases h
      exact ⟨bootInv_of_sameBoot (disconnectSTA_boot hr) hi, fun hc => by cases hc⟩
    | abort s1 => rw [hr] at h; cases h
    | blocked s1 => rw [hr] at h; cases h
  | startAP ssid password auth channel hidden maxc =>
    simp only [Op.run] at h
    cases hr : startAP ssid password auth channel hidden maxc s with
    | ret v s1 =>
      rw [hr] at h
      cases h
      exact ⟨(key _ (startAP_boot hr)).1, fun _ => (key _ (startAP_boot hr)).2⟩
    | abort s1 => rw [hr] at h; cases h
    | blocked s1 => rw [hr] at h; cases h
  | stopAP =>
    simp only [Op.run] at h
    cases hr : stopAP s with
    | ret v s1 =>
      rw [hr] at h
      cases h
      exact ⟨bootInv_of_sameBoot (stopAP_boot hr) hi, fun hc => by cases hc⟩
    | abort s1 => rw [hr] at h; cases h
    | blocked s1 => rw [hr] at h; cases h
  | scan =>
    simp only [Op.run] at h
    cases hr : scan s with
    | ret v s1 =>
      rw [hr] at h
      cases h
      exact ⟨(key _ (scan_boot hr)).1, fun _ => (key _ (scan_boot hr)).2⟩
    | abort s1 => rw [hr] at h; cases h
    | blocked s1 => rw [hr] at h; cases h
  | addDNSServer ip =>
    simp only [Op.run] at h
    cases hr : addDNSServer ip s with
    | ret v s1 =>
      rw [hr] at h
      cases h
      exact ⟨(key _ (addDNSServer_boot hr)).1, fun _ => (key _ (addDNSServer_boot hr)).2⟩
    | abort s1 => rw [hr] at h; cases h
    | blocked s1 => rw [hr] at h; cases h
  | setDNSServer n ip =>
    simp only [Op.run] at h
    cases hr : setDNSServer n ip s with
    | ret v s1 =>
      rw [hr] at h
      cases h
      exact ⟨(key _ (setDNSServer_boot hr)).1, fun _ => (key _ (setDNSServer_boot hr)).2⟩
    | abort s1 => rw [hr] at h; cases h
    | blocked s1 => rw [hr] at h; cases h
  | setIPInfo ip gw nm =>
    simp only [Op.run] at h
    cases hr : setIPInfo ip gw nm s with
    | ret v s1 =>
      rw [hr] at h
      cases h
      exact ⟨(key _ (setIPInfo_boot hr)).1, fun _ => (key _ (setIPInfo_boot hr)).2⟩
    | abort s1 => rw [hr] at h; cases h
    | blocked s1 => rw [hr] at h; cases h

theorem bootInv_runOps (ops : List Op) : ∀ s s' : WiFi, BootInv s → runOps ops s = some s' →
    BootInv s' ∧
    (s'.m_initCalled = true ↔ (s.m_initCalled = true ∨ ops.any Op.callsInit = true)) := by
  induction ops with
  | nil =>
    intro s s' hi h
    cases h
    exact ⟨hi, by simp⟩
  | cons op ops ih =>
    intro s s' hi h
    simp only [runOps] at h
    cases hr : op.run s with
    | none => rw [hr] at h; cases h
    | some s1 =>
      rw [hr] at h
      obtain ⟨i1, i2⟩ := bootInv_step op s s1 hi hr
      obtain ⟨j1, j2⟩ := ih s1 s' i1 h
      refine ⟨j1, ?_⟩
      rw [j2, List.any_cons, Bool.or_eq_true]
      constructor
      · rintro (h1 | h1)
        · cases hc : op.callsInit
          · left
            cases op <;> simp [Op.callsInit] at hc
            · have hd : disconnectSTA s = Res.ret ESP_OK s ∨ ∃ rc, disconnectSTA s = Res.ret rc s1 := by
                simp only [Op.run] at hr
                cases hq : disconnectSTA s with
                | ret v t => rw [hq] at hr; cases hr; exact Or.inr ⟨v, rfl⟩
                | abort t => rw [hq] at hr; cases hr
                | blocked t => rw [hq] at hr; cases hr
              rcases hd with hd | ⟨rc, hd⟩
              · simp only [Op.run, hd] at hr
                cases hr
                exact h1
              · rw [← (disconnectSTA_boot hd).1]; exact h1
            · simp only [Op.run] at hr
              cases hq : stopAP s with
              | ret v t =>
                rw [hq] at hr
                cases hr
                rw [← (stopAP_boot hq).1]; exact h1
              | abort t => rw [hq] at hr; cases hr
              | blocked t => rw [hq] at hr; cases hr
          · exact Or.inr (Or.inl rfl)
        · exact Or.inr (Or.inr h1)
      · rintro (h1 | h1 | h1)
        · left
          cases hc : op.callsInit
          · cases op <;> simp [Op.callsInit] at hc
            · simp only [Op.run] at hr
              cases hq : disconnectSTA s with
              | ret v t =>
                rw [hq] at hr
                cases hr
                rw [(disconnectSTA_boot hq).1]; exact h1
              | abort t => rw [hq] at hr; cases hr
              | blocked t => rw [hq] at hr; cases hr
            · simp only [Op.run] at hr
              cases hq : stopAP s with
              | ret v t =>
                rw [hq] at hr
                cases hr
                rw [(stopAP_boot hq).1]; exact h1
              | abort t => rw [hq] at hr; cases hr
              | blocked t => rw [hq] at hr; cases hr
          · exact i2 hc
        · exact Or.inl (i2 h1)
        · exact Or.inr h1

theorem init_done_noop (mode : Nat) (s : WiFi) (h1 : s.m_initCalled = true)
    (h2 : s.m_eventLoopStarted = true) : init mode s = Res.ret () s := by
  unfold init
  simp [h1, h2]

/-- C11: on a fresh object, after any sequence of public operations in which
every operation returned, the bring-up calls of the log, in order, are exactly
the calls of one bring-up if some operation of the sequence calls `init`, and
none otherwise; so each bring-up call was issued at most once, and exactly once
in the first case. From then on `init` returns in the state it was called in:
it issues no call at all. -/
theorem bring_up_once (d : Driver) (ops : List Op) (s' : WiFi)
    (hrun : runOps ops (fresh d) = some s') :
    s'.log.filter Call.isBringUp = (if ops.any Op.callsInit then bringUpOnce else []) ∧
    (∀ c, c.isBringUp = true → s'.log.count c ≤ 1) ∧
    (ops.any Op.callsInit = true →
      (∀ c ∈ bringUpOnce, s'.log.count c = 1) ∧ ∀ mode, init mode s' = Res.ret () s') := by
  obtain ⟨⟨-, hi⟩, hiff⟩ := bootInv_runOps ops (fresh d) s' (bootInv_fresh d) hrun
  have hf : s'.log.filter Call.isBringUp = (if ops.any Op.callsInit then bringUpOnce else []) := by
    rcases hi with ⟨h1, -, h3⟩ | ⟨h1, -, h3⟩
    · have : ¬ (ops.any Op.callsInit = true) := by
        intro hc
        have := hiff.mpr (Or.inr hc)
        rw [h1] at this
        cases this
      rw [if_neg this, h3]
    · have : ops.any Op.callsInit = true := by
        rcases hiff.mp h1 with h | h
        · cases h
        · exact h
      rw [if_pos this, h3]
  have hcount : ∀ c, c.isBringUp = true →
      s'.log.count c = (if ops.any Op.callsInit then bringUpOnce else []).count c := by
    intro c hc
    rw [← hf, List.count_filter hc]
  have hnodup : bringUpOnce.Nodup := by decide
  refine ⟨hf, fun c hc => ?_, fun hany => ⟨fun c hc => ?_, fun mode => ?_⟩⟩
  · rw [hcount c hc]
    split_ifs
    · exact List.nodup_iff_count_le_one.mp hnodup c
    · simp
  · have hb : c.isBringUp = true := by
      revert c
      decide
    rw [hcount c hb, if_pos hany]
    exact List.count_eq_one_of_mem hnodup hc
  · rcases hi with ⟨h1, -, -⟩ | ⟨h1, h2, -⟩
    · have := hiff.mpr (Or.inr hany)
      rw [h1] at this
      cases this
    · exact init_done_noop mode s' h1 h2

theorem bring_up_once_witness :
    ∃ s', runOps [Op.stopAP, Op.addDNSServer 134744072, Op.scan,
        Op.connectSTA 1 [110] [112] true false, Op.startAP [65] [] 0 0 false 4,
        Op.setIPInfo 0 0 0, Op.disconnectSTA]
        (fresh { events := [[⟨EventBase.IP_EVENT, IP_EVENT_STA_GOT_IP, 0⟩]] }) = some s' ∧
      s'.log.filter Call.isBringUp = bringUpOnce ∧
      (∀ c, c.isBringUp = true → s'.log.count c ≤ 1) ∧
      (∀ c ∈ bringUpOnce, s'.log.count c = 1) ∧ ∀ mode, init mode s' = Res.ret () s' := by
  have h : (runOps [Op.stopAP, Op.addDNSServer 134744072, Op.scan,
        Op.connectSTA 1 [110] [112] true false, Op.startAP [65] [] 0 0 false 4,
        Op.setIPInfo 0 0 0, Op.disconnectSTA]
        (fresh { events := [[⟨EventBase.IP_EVENT, IP_EVENT_STA_GOT_IP, 0⟩]] })).isSome = true := by
    decide
  obtain ⟨s', hs⟩ := Option.isSome_iff_exists.mp h
  have ht := bring_up_once _ _ s' hs
  exact ⟨s', hs, ht.1, ht.2.1, ht.2.2 (by decide)⟩

/-- C12: `WiFi::eventHandler` on any event and state. For
`(WIFI_EVENT, WIFI_EVENT_STA_DISCONNECTED)` the stored outcome becomes the reason
byte of the event and the semaphore is released; for
`(IP_EVENT, IP_EVENT_STA_GOT_IP)` the stored outcome becomes 0 and the semaphore
is released; for every other pair, a `WIFI_EVENT` with the identifier value of
`IP_EVENT_STA_GOT_IP` among them, the stored outcome and the state of the
semaphore are unchanged. -/
theorem eventHandler_outcome_and_signal (e : Event) (s : WiFi) :
    (e.base = EventBase.WIFI_EVENT → e.event_id = WIFI_EVENT_STA_DISCONNECTED →
      (eventHandler e s).m_apConnectionStatus = e.reason % 256 ∧
      (e.reason < 256 → (eventHandler e s).m_apConnectionStatus = e.reason) ∧
      (eventHandler e s).m_connectFinished = true) ∧
    (e.base = EventBase.IP_EVENT → e.event_id = IP_EVENT_STA_GOT_IP →
      (eventHandler e s).m_apConnectionStatus = 0 ∧
      (eventHandler e s).m_connectFinished = true) ∧
    (¬ (e.base = EventBase.WIFI_EVENT ∧ e.event_id = WIFI_EVENT_STA_DISCONNECTED) →
      ¬ (e.base = EventBase.IP_EVENT ∧ e.event_id = IP_EVENT_STA_GOT_IP) →
      (eventHandler e s).m_apConnectionStatus = s.m_apConnectionStatus ∧
      (eventHandler e s).m_connectFinished = s.m_connectFinished) ∧
    ((eventHandler ⟨EventBase.WIFI_EVENT, IP_EVENT_STA_GOT_IP, e.reason⟩ s).m_apConnectionStatus
        = s.m_apConnectionStatus ∧
      (eventHandler ⟨EventBase.WIFI_EVENT, IP_EVENT_STA_GOT_IP, e.reason⟩ s).m_connectFinished
        = s.m_connectFinished) := by
  refine ⟨fun h1 h2 => ?_, fun h1 h2 => ?_, fun h1 h2 => ?_, ?_⟩
  · have hs : (eventHandler e s).m_apConnectionStatus = e.reason % 256 := by
      unfold eventHandler
      dsimp only
      split_ifs <;> simp_all
    refine ⟨hs, fun hr => by rw [hs, Nat.mod_eq_of_lt hr], ?_⟩
    unfold eventHandler
    dsimp only
    split_ifs <;> simp_all
  · constructor <;>
    · unfold eventHandler
      dsimp only
      split_ifs <;> simp_all
  · constructor <;>
    · unfold eventHandler
      dsimp only
      split_ifs <;> simp_all
  · constructor <;>
    · unfold eventHandler
      dsimp only
      split_ifs <;> simp_all [IP_EVENT_STA_GOT_IP, WIFI_EVENT_STA_DISCONNECTED]

theorem eventHandler_outcome_and_signal_witness :
    ((eventHandler ⟨EventBase.WIFI_EVENT, WIFI_EVENT_STA_DISCONNECTED, 201⟩
        { m_connectFinished := false }).m_apConnectionStatus = 201 ∧
      (eventHandler ⟨EventBase.WIFI_EVENT, WIFI_EVENT_STA_DISCONNECTED, 201⟩
        { m_connectFinished := false }).m_connectFinished = true) ∧
    ((eventHandler ⟨EventBase.IP_EVENT, IP_EVENT_STA_GOT_IP, 7⟩
        { m_connectFinished := false }).m_apConnectionStatus = 0 ∧
      (eventHandler ⟨EventBase.IP_EVENT, IP_EVENT_STA_GOT_IP, 7⟩
        { m_connectFinished := false }).m_connectFinished = true) ∧
    ((eventHandler ⟨EventBase.WIFI_EVENT, WIFI_EVENT_STA_CONNECTED, 7⟩
        { m_connectFinished := false }).m_apConnectionStatus = 255 ∧
      (eventHandler ⟨EventBase.WIFI_EVENT, WIFI_EVENT_STA_CONNECTED, 7⟩
        { m_connectFinished := false }).m_connectFinished = false) :=
  ⟨⟨((eventHandler_outcome_and_signal
        ⟨EventBase.WIFI_EVENT, WIFI_EVENT_STA_DISCONNECTED, 201⟩
        { m_connectFinished := false }).1 rfl rfl).2.1 (by decide),
      ((eventHandler_outcome_and_signal
        ⟨EventBase.WIFI_EVENT, WIFI_EVENT_STA_DISCONNECTED, 201⟩
        { m_connectFinished := false }).1 rfl rfl).2.2⟩,
    (eventHandler_outcome_and_signal ⟨EventBase.IP_EVENT, IP_EVENT_STA_GOT_IP, 7⟩
        { m_connectFinished := false }).2.1 rfl rfl,
    (eventHandler_outcome_and_signal ⟨EventBase.WIFI_EVENT, WIFI_EVENT_STA_CONNECTED, 7⟩
        { m_connectFinished := false }).2.2.1 (by decide) (by decide)⟩

theorem eventHandlerAt_isChain (next : Nat → Nat) (base : EventBase) (event_id : Int)
    (chain : List Nat) : ∀ (head fuel : Nat), IsChain next head chain → chain ≠ [] →
    chain.length ≤ fuel →
    WiFiEventHandler.eventHandlerAt next base event_id fuel head =
      some (WiFiEventHandler.eventHandler base event_id chain) := by
  induction chain with
  | nil => intro head fuel _ hne; exact absurd rfl hne
  | cons h rest ih =>
    intro head fuel hc _ hfuel
    obtain ⟨rfl, hh, hrest⟩ := hc
    obtain ⟨n, rfl⟩ : ∃ n, fuel = n + 1 := ⟨fuel - 1, by simp at hfuel; omega⟩
    cases rest with
    | nil =>
      have hn : next head = 0 := hrest
      simp [WiFiEventHandler.eventHandlerAt, WiFiEventHandler.eventHandler, hh, hn]
    | cons h2 rest2 =>
      have hn : next head ≠ 0 := by
        obtain ⟨e1, e2, -⟩ := hrest
        rw [e1]; exact e2
      have := ih (next head) n hrest (by simp) (by simp at hfuel ⊢; omega)
      rw [WiFiEventHandler.eventHandlerAt]
      simp only [hh, if_false, hn, ne_eq, not_false_eq_true, if_true, this, Option.map_some']
      rfl

theorem eventHandler_list (base : EventBase) (event_id : Int) (chain : List Nat) :
    WiFiEventHandler.eventHandler base event_id chain =
      match callbackOf base event_id with
      | some cb => chain.map (fun h => (h, cb))
      | none => [] := by
  induction chain with
  | nil => cases callbackOf base event_id <;> rfl
  | cons h rest ih =>
    rw [WiFiEventHandler.eventHandler, ih]
    cases callbackOf base event_id <;> rfl

theorem lookup_cons_ite (k a : EventBase × Int) (v : Callback)
    (rest : List ((EventBase × Int) × Callback)) :
    List.lookup k ((a, v) :: rest) = if k = a then some v else List.lookup k rest := by
  by_cases h : k = a
  · simp [List.lookup, h]
  · have hb : (k == a) = false := by simpa using h
    simp [List.lookup, h, hb]

/-- The switch of `WiFiEventHandler::eventHandler` selects, for each event, the
callback named after it, and none for any other event. -/
theorem callbackOf_table (base : EventBase) (event_id : Int) :
    callbackOf base event_id =
      List.lookup (base, event_id)
        [((EventBase.WIFI_EVENT, WIFI_EVENT_AP_START), Callback.apStart),
         ((EventBase.WIFI_EVENT, WIFI_EVENT_AP_STOP), Callback.apStop),
         ((EventBase.WIFI_EVENT, WIFI_EVENT_AP_STACONNECTED), Callback.apStaConnected),
         ((EventBase.WIFI_EVENT, WIFI_EVENT_AP_STADISCONNECTED), Callback.apStaDisconnected),
         ((EventBase.WIFI_EVENT, WIFI_EVENT_SCAN_DONE), Callback.staScanDone),
         ((EventBase.WIFI_EVENT, WIFI_EVENT_STA_AUTHMODE_CHANGE), Callback.staAuthChange),
         ((EventBase.WIFI_EVENT, WIFI_EVENT_STA_CONNECTED), Callback.staConnected),
         ((EventBase.WIFI_EVENT, WIFI_EVENT_STA_DISCONNECTED), Callback.staDisconnected),
         ((EventBase.WIFI_EVENT, WIFI_EVENT_WIFI_READY), Callback.wifiReady),
         ((EventBase.WIFI_EVENT, WIFI_EVENT_STA_START), Callback.staStart),
         ((EventBase.WIFI_EVENT, WIFI_EVENT_STA_STOP), Callback.staStop),
         ((EventBase.IP_EVENT, IP_EVENT_STA_GOT_IP), Callback.staGotIp)] := by
  cases base with
  | WIFI_EVENT => simp [callbackOf, lookup_cons_ite]
  | IP_EVENT => simp [callbackOf, lookup_cons_ite]
  | other n => simp [callbackOf, lookup_cons_ite]

/-- C13: for an acyclic chain of `n >= 1` handlers linked through
`m_nextHandler` and any event, `WiFiEventHandler::eventHandler` called on the
head ends (a recursion depth of `n` is enough) and has invoked, for each handler
of the chain in chain order, exactly the callback that corresponds to the
event, once: the callback named after the event for the eleven `WIFI_EVENT`
ids and the one `IP_EVENT` id of the table below. For every other event it has
invoked no callback, and it went through the whole chain all the same. -/
theorem eventHandler_dispatches_along_chain (next : Nat → Nat) (base : EventBase)
    (event_id : Int) (chain : List Nat) (head fuel : Nat)
    (hchain : IsChain next head chain) (hne : chain ≠ []) (hfuel : chain.length ≤ fuel) :
    ∃ invoked : List (Nat × Callback),
      WiFiEventHandler.eventHandlerAt next base event_id fuel head = some invoked ∧
      WiFiEventHandler.eventHandler base event_id chain = invoked ∧
      invoked =
        match List.lookup (base, event_id)
          [((EventBase.WIFI_EVENT, WIFI_EVENT_AP_START), Callback.apStart),
           ((EventBase.WIFI_EVENT, WIFI_EVENT_AP_STOP), Callback.apStop),
           ((EventBase.WIFI_EVENT, WIFI_EVENT_AP_STACONNECTED), Callback.apStaConnected),
           ((EventBase.WIFI_EVENT, WIFI_EVENT_AP_STADISCONNECTED), Callback.apStaDisconnected),
           ((EventBase.WIFI_EVENT, WIFI_EVENT_SCAN_DONE), Callback.staScanDone),
           ((EventBase.WIFI_EVENT, WIFI_EVENT_STA_AUTHMODE_CHANGE), Callback.staAuthChange),
           ((EventBase.WIFI_EVENT, WIFI_EVENT_STA_CONNECTED), Callback.staConnected),
           ((EventBase.WIFI_EVENT, WIFI_EVENT_STA_DISCONNECTED), Callback.staDisconnected),
           ((EventBase.WIFI_EVENT, WIFI_EVENT_WIFI_READY), Callback.wifiReady),
           ((EventBase.WIFI_EVENT, WIFI_EVENT_STA_START), Callback.staStart),
           ((EventBase.WIFI_EVENT, WIFI_EVENT_STA_STOP), Callback.staStop),
           ((EventBase.IP_EVENT, IP_EVENT_STA_GOT_IP), Callback.staGotIp)] with
        | some cb => chain.map (fun h => (h, cb))
        | none => [] := by
  refine ⟨WiFiEventHandler.eventHandler base event_id chain,
    eventHandlerAt_isChain next base event_id chain head fuel hchain hne hfuel, rfl, ?_⟩
  rw [eventHandler_list, callbackOf_table]

theorem eventHandler_dispatches_along_chain_witness :
    (WiFiEventHandler.eventHandlerAt (fun h => if h = 7 then 3 else if h = 3 then 9 else 0)
        EventBase.WIFI_EVENT WIFI_EVENT_STA_CONNECTED 3 7 =
      some [(7, Callback.staConnected), (3, Callback.staConnected), (9, Callback.staConnected)] ∧
    WiFiEventHandler.eventHandler EventBase.WIFI_EVENT WIFI_EVENT_STA_CONNECTED [7, 3, 9] =
      [(7, Callback.staConnected), (3, Callback.staConnected), (9, Callback.staConnected)]) ∧
    (WiFiEventHandler.eventHandlerAt (fun h => if h = 7 then 3 else 0)
        EventBase.IP_EVENT IP_EVENT_STA_GOT_IP 2 7 =
      some [(7, Callback.staGotIp), (3, Callback.staGotIp)]) ∧
    (WiFiEventHandler.eventHandlerAt (fun h => if h = 7 then 3 else 0)
        EventBase.WIFI_EVENT 7 2 7 = some []) := by
  refine ⟨?_, ?_, ?_⟩
  · obtain ⟨invoked, h1, h2, h3⟩ :=
      eventHandler_dispatches_along_chain (fun h => if h = 7 then 3 else if h = 3 then 9 else 0)
        EventBase.WIFI_EVENT WIFI_EVENT_STA_CONNECTED [7, 3, 9] 7 3 (by simp [IsChain])
        (by decide) (by decide)
    have e : invoked =
        [(7, Callback.staConnected), (3, Callback.staConnected), (9, Callback.staConnected)] := by
      rw [h3]
      decide
    rw [e] at h1 h2
    exact ⟨h1, h2⟩
  · obtain ⟨invoked, h1, _, h3⟩ :=
      eventHandler_dispatches_along_chain (fun h => if h = 7 then 3 else 0)
        EventBase.IP_EVENT IP_EVENT_STA_GOT_IP [7, 3] 7 2 (by simp [IsChain])
        (by decide) (by decide)
    have e : invoked = [(7, Callback.staGotIp), (3, Callback.staGotIp)] := by
      rw [h3]
      decide
    rw [e] at h1
    exact h1
  · obtain ⟨invoked, h1, _, h3⟩ :=
      eventHandler_dispatches_along_chain (fun h => if h = 7 then 3 else 0)
        EventBase.WIFI_EVENT 7 [7, 3] 7 2 (by simp [IsChain]) (by decide) (by decide)
    have e : invoked = [] := by
      rw [h3]
      decide
    rw [e] at h1
    exact h1

@[simp] theorem initDone_rc_scan_start (mode : Nat) (s : WiFi) :
    (initDone mode s).drv.rc_scan_start = s.drv.rc_scan_start := rfl
@[simp] theorem initDone_rc_scan_get_ap_num (mode : Nat) (s : WiFi) :
    (initDone mode s).drv.rc_scan_get_ap_num = s.drv.rc_scan_get_ap_num := rfl
@[simp] theorem initDone_rc_scan_get_ap_records (mode : Nat) (s : WiFi) :
    (initDone mode s).drv.rc_scan_get_ap_records = s.drv.rc_scan_get_ap_records := rfl
@[simp] theorem initDone_malloc_fails (mode : Nat) (s : WiFi) :
    (initDone mode s).drv.malloc_fails = s.drv.malloc_fails := rfl

/-- The state after `init` and the first mode-set of `scan`. -/
theorem scan_after_mode_set (s : WiFi) (hsetup : s.drv.setupAccepted) :
    scan s =
      (let r1 := esp_wifi_set_mode (s.m_wifiMode ||| WIFI_MODE_STA)
          (initDone (s.m_wifiMode ||| WIFI_MODE_STA) s)
       let r2 := esp_wifi_scan_start r1.2
       if r2.1 ≠ ESP_OK then
         Res.ret [] (esp_wifi_set_mode r2.2.m_wifiMode r2.2).2
       else
         let r3 := esp_wifi_scan_get_ap_num r2.2
         if r3.1.1 ≠ ESP_OK then
           Res.ret [] (esp_wifi_set_mode r3.2.m_wifiMode r3.2).2
         else if r3.1.2 = 0 then
           Res.ret [] (esp_wifi_set_mode r3.2.m_wifiMode r3.2).2
         else
           let r4 := malloc r3.2
           if !r4.1 then
             Res.ret [] (esp_wifi_set_mode r4.2.m_wifiMode r4.2).2
           else
             let r5 := esp_wifi_scan_get_ap_records r3.1.2 r4.2
             if r5.1.1 ≠ ESP_OK then Res.abort r5.2
             else
               Res.ret ((toAPRecords r5.1.2).insertionSort
                 (fun lhs rhs => rhs.m_rssi ≤ lhs.m_rssi))
                 (esp_wifi_set_mode r5.2.m_wifiMode r5.2).2) := by
  have h4 := (initDone_accepted (s.m_wifiMode ||| WIFI_MODE_STA) hsetup).2.2.2.1
  have e4 : (esp_wifi_set_mode (s.m_wifiMode ||| WIFI_MODE_STA)
      (initDone (s.m_wifiMode ||| WIFI_MODE_STA) s)).1 = ESP_OK := allOk_headD h4
  unfold scan
  rw [init_accepted _ _ hsetup]
  simp only [initDone_wifiMode, e4, ne_eq, not_true_eq_false, if_false]

theorem c_str_of_no_zero {b : Bytes} (h : 0 ∉ b) : c_str b = b := by
  unfold c_str
  rw [List.takeWhile_eq_self_iff]
  intro x hx
  have : x ≠ 0 := fun h0 => h (h0 ▸ hx)
  simpa using this

theorem toAPRecords_of_no_zero {recs : List wifi_ap_record_t} (h : ∀ r ∈ recs, 0 ∉ r.ssid) :
    toAPRecords recs =
      recs.map (fun r =>
        ({ m_bssid := r.bssid, m_rssi := r.rssi, m_ssid := r.ssid,
           m_authMode := r.authmode } : WiFiAPRecord)) := by
  unfold toAPRecords
  apply List.map_congr_left
  intro r hr
  rw [c_str_of_no_zero (h r hr)]

theorem toAPRecords_rssi (recs : List wifi_ap_record_t) :
    (toAPRecords recs).map (fun a => a.m_rssi) = recs.map (fun r => r.rssi) := by
  simp [toAPRecords, List.map_map, Function.comp_def]

/-- The value `scan` returns when every call is accepted and records are found. -/
theorem scan_found (s : WiFi) (cnt : Nat) (recs : List wifi_ap_record_t)
    (hsetup : s.drv.setupAccepted) (hstart : s.drv.rc_scan_start.headD 0 = ESP_OK)
    (hnum : s.drv.rc_scan_get_ap_num.headD (0, 0) = (ESP_OK, cnt)) (hcnt : cnt < 65536)
    (hpos : cnt ≠ 0) (hmalloc : s.drv.malloc_fails.headD false = false)
    (hrecs : s.drv.rc_scan_get_ap_records.headD (0, []) = (ESP_OK, recs))
    (hlen : recs.length ≤ cnt) :
    ∃ s', scan s = Res.ret ((toAPRecords recs).insertionSort
      (fun lhs rhs => rhs.m_rssi ≤ lhs.m_rssi)) s' := by
  rw [scan_after_mode_set s hsetup]
  have e5 : cnt % 65536 = cnt := Nat.mod_eq_of_lt hcnt
  simp only [esp_wifi_set_mode, esp_wifi_scan_start, esp_wifi_scan_get_ap_num, malloc,
    esp_wifi_scan_get_ap_records, initDone_rc_scan_start, initDone_rc_scan_get_ap_num,
    initDone_rc_scan_get_ap_records, initDone_malloc_fails, hstart, hnum, hmalloc, hrecs, e5,
    List.take_of_length_le hlen]
  simp [hpos]

/-- The value `scan` returns when the driver reports no access point. -/
theorem scan_none_found (s : WiFi) (hsetup : s.drv.setupAccepted)
    (hstart : s.drv.rc_scan_start.headD 0 = ESP_OK)
    (hnum : s.drv.rc_scan_get_ap_num.headD (0, 0) = (ESP_OK, 0)) :
    ∃ s', scan s = Res.ret [] s' := by
  rw [scan_after_mode_set s hsetup]
  simp only [esp_wifi_set_mode, esp_wifi_scan_start, esp_wifi_scan_get_ap_num,
    initDone_rc_scan_start, initDone_rc_scan_get_ap_num, hstart, hnum]
  simp

/-- C14: with every driver call of `scan` accepted and the buffer allocated, for
the `n >= 1` records that the bulk fetch returns, `scan` returns `n` records that
are a permutation of the driver records mapped field for field (the ssid read
as the C string it is, which is the whole field when it holds no zero byte), in
non-increasing order of rssi, and in strictly decreasing order when the signal
strengths are pairwise distinct; when the bulk fetch returns no record, `scan`
returns the empty sequence. -/
theorem scan_sorted_permutation (s : WiFi) (cnt : Nat) (recs : List wifi_ap_record_t)
    (hsetup : s.drv.setupAccepted) (hstart : s.drv.rc_scan_start.headD 0 = ESP_OK)
    (hnum : s.drv.rc_scan_get_ap_num.headD (0, 0) = (ESP_OK, cnt)) (hcnt : cnt < 65536)
    (hmalloc : s.drv.malloc_fails.headD false = false)
    (hrecs : s.drv.rc_scan_get_ap_records.headD (0, []) = (ESP_OK, recs))
    (hlen : recs.length ≤ cnt) :
    (1 ≤ recs.length →
      ∃ s' out, scan s = Res.ret out s' ∧ out.length = recs.length ∧
        out.Perm (recs.map (fun r =>
          ({ m_bssid := r.bssid, m_rssi := r.rssi, m_ssid := c_str r.ssid,
             m_authMode := r.authmode } : WiFiAPRecord))) ∧
        ((∀ r ∈ recs, 0 ∉ r.ssid) → out.Perm (recs.map (fun r =>
          ({ m_bssid := r.bssid, m_rssi := r.rssi, m_ssid := r.ssid,
             m_authMode := r.authmode } : WiFiAPRecord)))) ∧
        out.Pairwise (fun a b => b.m_rssi ≤ a.m_rssi) ∧
        ((recs.map (fun r => r.rssi)).Nodup → out.Pairwise (fun a b => b.m_rssi < a.m_rssi))) ∧
    (recs = [] → ∃ s', scan s = Res.ret [] s') := by
  haveI : IsTotal WiFiAPRecord (fun lhs rhs => rhs.m_rssi ≤ lhs.m_rssi) :=
    ⟨fun a b => le_total b.m_rssi a.m_rssi⟩
  haveI : IsTrans WiFiAPRecord (fun lhs rhs => rhs.m_rssi ≤ lhs.m_rssi) :=
    ⟨fun a b c hab hbc => le_trans hbc hab⟩
  constructor
  · intro hn
    have hpos : cnt ≠ 0 := by omega
    obtain ⟨s', hs⟩ := scan_found s cnt recs hsetup hstart hnum hcnt hpos hmalloc hrecs hlen
    have hperm := List.perm_insertionSort (fun lhs rhs : WiFiAPRecord => rhs.m_rssi ≤ lhs.m_rssi)
      (toAPRecords recs)
    have hsorted := List.sorted_insertionSort
      (fun lhs rhs : WiFiAPRecord => rhs.m_rssi ≤ lhs.m_rssi) (toAPRecords recs)
    refine ⟨s', _, hs, ?_, ?_, fun hssid => ?_, hsorted, fun hnd => ?_⟩
    · rw [List.length_insertionSort]
      simp [toAPRecords]
    · exact hperm
    · rw [← toAPRecords_of_no_zero hssid]
      exact hperm
    · have h1 : List.Perm (((toAPRecords recs).insertionSort
          (fun lhs rhs => rhs.m_rssi ≤ lhs.m_rssi)).map (fun a => a.m_rssi))
          (recs.map (fun r => r.rssi)) := by
        rw [← toAPRecords_rssi]
        exact hperm.map _
      have h2 := (List.Perm.nodup_iff h1).mpr hnd
      have h3 := List.pairwise_map.mp h2
      exact (hsorted.and h3).imp (fun ⟨hle, hne⟩ => lt_of_le_of_ne hle (fun h => hne h.symm))
  · intro hnil
    subst hnil
    by_cases hpos : cnt = 0
    · subst hpos
      exact scan_none_found s hsetup hstart hnum
    · obtain ⟨s', hs⟩ := scan_found s cnt [] hsetup hstart hnum hcnt hpos hmalloc hrecs hlen
      exact ⟨s', hs⟩

theorem scan_sorted_permutation_witness :
    (scan (fresh { rc_scan_get_ap_num := [(0, 3)], rc_scan_get_ap_records := [(0,
        [⟨[1], [97], 3, -70⟩, ⟨[2], [98], 0, -40⟩, ⟨[3], [99], 4, -55⟩])] })).value =
      some [⟨[2], -40, [98], 0⟩, ⟨[3], -55, [99], 4⟩, ⟨[1], -70, [97], 3⟩] ∧
    ∃ s' out, scan (fresh { rc_scan_get_ap_num := [(0, 3)], rc_scan_get_ap_records := [(0,
        [⟨[1], [97], 3, -70⟩, ⟨[2], [98], 0, -40⟩, ⟨[3], [99], 4, -55⟩])] }) = Res.ret out s' ∧
      out.length = 3 ∧
      out.Perm [⟨[1], -70, [97], 3⟩, ⟨[2], -40, [98], 0⟩, ⟨[3], -55, [99], 4⟩] ∧
      out.Pairwise (fun a b => b.m_rssi ≤ a.m_rssi) ∧
      out.Pairwise (fun a b => b.m_rssi < a.m_rssi) := by
  refine ⟨by decide, ?_⟩
  obtain ⟨s', out, h1, h2, _, h3, h4, h5⟩ :=
    (scan_sorted_permutation
      (fresh { rc_scan_get_ap_num := [(0, 3)], rc_scan_get_ap_records := [(0,
        [⟨[1], [97], 3, -70⟩, ⟨[2], [98], 0, -40⟩, ⟨[3], [99], 4, -55⟩])] }) 3
      [⟨[1], [97], 3, -70⟩, ⟨[2], [98], 0, -40⟩, ⟨[3], [99], 4, -55⟩]
      (by decide) (by decide) (by decide) (by decide) (by decide) (by decide) (by decide)).1
      (by decide)
  exact ⟨s', out, h1, h2, h3 (by decide), h4, h5 (by decide)⟩

/-- The bulk fetch of `scan` rejected: the source calls `abort()`. -/
theorem scan_fetch_rejected (s : WiFi) (cnt : Nat) (hsetup : s.drv.setupAccepted)
    (hstart : s.drv.rc_scan_start.headD 0 = ESP_OK)
    (hnum : s.drv.rc_scan_get_ap_num.headD (0, 0) = (ESP_OK, cnt)) (hcnt : cnt % 65536 ≠ 0)
    (hmalloc : s.drv.malloc_fails.headD false = false)
    (hrecs : (s.drv.rc_scan_get_ap_records.headD (0, [])).1 ≠ ESP_OK) :
    ∃ s', scan s = Res.abort s' ∧
      s'.log.getLast? = some (Call.esp_wifi_scan_get_ap_records (cnt % 65536)) := by
  rw [scan_after_mode_set s hsetup]
  simp only [esp_wifi_set_mode, esp_wifi_scan_start, esp_wifi_scan_get_ap_num, malloc,
    esp_wifi_scan_get_ap_records, initDone_rc_scan_start, initDone_rc_scan_get_ap_num,
    initDone_rc_scan_get_ap_records, initDone_malloc_fails, hstart, hnum, hmalloc]
  simp at hrecs
  simp [hcnt, hrecs]

theorem scan_fetch_rejected_counterexample :
    (scan (fresh { rc_scan_get_ap_num := [(0, 2)],
                   rc_scan_get_ap_records := [(12289, [])] })).value = none ∧
    ∃ s', scan (fresh { rc_scan_get_ap_num := [(0, 2)],
                        rc_scan_get_ap_records := [(12289, [])] }) = Res.abort s' ∧
      s'.log.getLast? = some (Call.esp_wifi_scan_get_ap_records 2) :=
  ⟨by decide, scan_fetch_rejected _ 2 (by decide) (by decide) (by decide) (by decide)
    (by decide) (by decide)⟩

/-- C15 (amended): after the initial mode-set of `scan`, a rejected scan-start
and a rejected result-count query make `scan` return the empty sequence, the
last driver call being the push of the stored mode, which `scan` leaves as it
was; a rejected bulk result fetch (the count being positive and the buffer
allocated) makes `scan` abort, the fetch being the last driver call: no mode
is pushed back and nothing is returned. -/
theorem scan_rejection_outcomes (s : WiFi) (hsetup : s.drv.setupAccepted) :
    (s.drv.rc_scan_start.headD 0 ≠ ESP_OK →
      ∃ s', scan s = Res.ret [] s' ∧ s'.m_wifiMode = s.m_wifiMode ∧
        s'.log.getLast? = some (Call.esp_wifi_set_mode s.m_wifiMode)) ∧
    (s.drv.rc_scan_start.headD 0 = ESP_OK →
      (s.drv.rc_scan_get_ap_num.headD (0, 0)).1 ≠ ESP_OK →
      ∃ s', scan s = Res.ret [] s' ∧ s'.m_wifiMode = s.m_wifiMode ∧
        s'.log.getLast? = some (Call.esp_wifi_set_mode s.m_wifiMode)) ∧
    (∀ cnt, s.drv.rc_scan_start.headD 0 = ESP_OK →
      s.drv.rc_scan_get_ap_num.headD (0, 0) = (ESP_OK, cnt) → cnt % 65536 ≠ 0 →
      s.drv.malloc_fails.headD false = false →
      (s.drv.rc_scan_get_ap_records.headD (0, [])).1 ≠ ESP_OK →
      ∃ s', scan s = Res.abort s' ∧
        s'.log.getLast? = some (Call.esp_wifi_scan_get_ap_records (cnt % 65536))) := by
  refine ⟨fun h1 => ?_, fun h1 h2 => ?_, fun cnt h1 h2 h3 h4 h5 =>
    scan_fetch_rejected s cnt hsetup h1 h2 h3 h4 h5⟩
  · rw [scan_after_mode_set s hsetup]
    simp only [esp_wifi_set_mode, esp_wifi_scan_start, initDone_rc_scan_start]
    rw [List.headD_eq_head?_getD] at h1
    simp [h1]
  · rw [scan_after_mode_set s hsetup]
    simp only [esp_wifi_set_mode, esp_wifi_scan_start, esp_wifi_scan_get_ap_num,
      initDone_rc_scan_start, initDone_rc_scan_get_ap_num, h1]
    simp at h2
    simp [h2]

theorem scan_rejection_outcomes_witness :
    (∃ s', scan (fresh { rc_scan_start := [258] }) = Res.ret [] s' ∧
      s'.m_wifiMode = (fresh { rc_scan_start := [258] }).m_wifiMode ∧
      s'.log.getLast? = some (Call.esp_wifi_set_mode 0)) ∧
    (∃ s', scan (fresh { rc_scan_get_ap_num := [(258, 0)] }) = Res.ret [] s' ∧
      s'.m_wifiMode = (fresh { rc_scan_get_ap_num := [(258, 0)] }).m_wifiMode ∧
      s'.log.getLast? = some (Call.esp_wifi_set_mode 0)) ∧
    ∃ s', scan (fresh { rc_scan_get_ap_num := [(0, 2)],
                        rc_scan_get_ap_records := [(12289, [])] }) = Res.abort s' ∧
      s'.log.getLast? = some (Call.esp_wifi_scan_get_ap_records 2) :=
  ⟨(scan_rejection_outcomes (fresh { rc_scan_start := [258] }) (by decide)).1 (by decide),
   (scan_rejection_outcomes (fresh { rc_scan_get_ap_num := [(258, 0)] }) (by decide)).2.1
     (by decide) (by decide),
   (scan_rejection_outcomes (fresh { rc_scan_get_ap_num := [(0, 2)],
                                     rc_scan_get_ap_records := [(12289, [])] }) (by decide)).2.2 2
     (by decide) (by decide) (by decide) (by decide) (by decide)⟩

theorem dnsWrites_append (l1 l2 : List Call) :
    dnsWrites (l1 ++ l2) = dnsWrites l1 ++ dnsWrites l2 := by
  simp [dnsWrites, List.filterMap_append]

theorem dnsWrites_initCalls (mode : Nat) (s : WiFi) : dnsWrites (initCalls mode s) = [] := by
  unfold initCalls
  split_ifs <;> simp [dnsWrites]

theorem dnsWrites_initDone (mode : Nat) (s : WiFi) :
    dnsWrites (initDone mode s).log = dnsWrites s.log := by
  show dnsWrites (s.log ++ initCalls mode s) = _
  rw [dnsWrites_append, dnsWrites_initCalls, List.append_nil]

/-- One `addDNSServer` on an object whose driver accepts the bring-up. -/
theorem addDNSServer_step (ip : Nat) (s : WiFi) (h : s.drv.setupAccepted) :
    ∃ t, addDNSServer ip s = Res.ret () t ∧ t.drv.setupAccepted ∧
      t.m_dnsCount = (s.m_dnsCount + 1) % 256 % 2 ∧
      dnsWrites t.log = dnsWrites s.log ++ [((s.m_dnsCount : Int), ip)] := by
  unfold addDNSServer
  rw [init_accepted _ _ h]
  refine ⟨_, rfl, initDone_accepted WIFI_MODE_STA h, rfl, ?_⟩
  show dnsWrites ((initDone WIFI_MODE_STA s).log ++ [_]) = _
  rw [dnsWrites_append, dnsWrites_initDone]
  rfl

/-- One `setDNSServer` on an object whose driver accepts the bring-up. -/
theorem setDNSServer_step (n : Int) (ip : Nat) (s : WiFi) (h : s.drv.setupAccepted) :
    ∃ t, setDNSServer n ip s = Res.ret () t ∧ t.drv.setupAccepted ∧
      t.m_dnsCount = s.m_dnsCount ∧ dnsWrites t.log = dnsWrites s.log ++ [(n % 256, ip)] := by
  unfold setDNSServer
  rw [init_accepted _ _ h]
  refine ⟨_, rfl, initDone_accepted WIFI_MODE_STA h, rfl, ?_⟩
  show dnsWrites ((initDone WIFI_MODE_STA s).log ++ [_]) = _
  rw [dnsWrites_append, dnsWrites_initDone]
  rfl

theorem addCount_cons_add (ip : Nat) (ops : List Op) :
    addCount (Op.addDNSServer ip :: ops) = addCount ops + 1 := by
  simp [addCount]

theorem addCount_cons_set (n : Int) (ip : Nat) (ops : List Op) :
    addCount (Op.setDNSServer n ip :: ops) = addCount ops := by
  simp [addCount]

/-- A sequence of DNS operations from any object whose cycling index is `k mod 2`. -/
theorem runOps_dns (ops : List Op) :
    ∀ (s : WiFi) (k : Nat), (∀ op ∈ ops, op.isDnsOp = true) →
      (∀ n ip, Op.setDNSServer n ip ∈ ops → 0 ≤ n ∧ n ≤ 255) → s.drv.setupAccepted →
      s.m_dnsCount = k % 2 →
      ∃ s', runOps ops s = some s' ∧ dnsWrites s'.log = dnsWrites s.log ++ dnsExpected k ops ∧
        s'.m_dnsCount = (k + addCount ops) % 2 := by
  induction ops with
  | nil =>
    intro s k _ _ _ hk
    exact ⟨s, rfl, by simp [dnsExpected], by simpa [addCount] using hk⟩
  | cons op ops ih =>
    intro s k hops hslot hs hk
    have hop := hops op (List.mem_cons_self _ _)
    have hrest : ∀ o ∈ ops, o.isDnsOp = true := fun o ho => hops o (List.mem_cons_of_mem _ ho)
    have hslots : ∀ n ip, Op.setDNSServer n ip ∈ ops → 0 ≤ n ∧ n ≤ 255 :=
      fun n ip hm => hslot n ip (List.mem_cons_of_mem _ hm)
    cases op with
    | addDNSServer ip =>
      obtain ⟨t, h1, h2, h3, h4⟩ := addDNSServer_step ip s hs
      have hk1 : t.m_dnsCount = (k + 1) % 2 := by
        rw [h3, hk]
        omega
      obtain ⟨s', g1, g2, g3⟩ := ih t (k + 1) hrest hslots h2 hk1
      refine ⟨s', ?_, ?_, ?_⟩
      · simp only [runOps, Op.run, h1, Res.returned]
        exact g1
      · rw [g2, h4, hk]
        simp [dnsExpected]
      · rw [g3, addCount_cons_add]
        congr 1
        omega
    | setDNSServer n ip =>
      obtain ⟨t, h1, h2, h3, h4⟩ := setDNSServer_step n ip s hs
      obtain ⟨s', g1, g2, g3⟩ := ih t k hrest hslots h2 (by rw [h3, hk])
      have hn := hslot n ip (List.mem_cons_self _ _)
      have hmod : n % 256 = n := Int.emod_eq_of_lt hn.1 (by omega)
      refine ⟨s', ?_, ?_, ?_⟩
      · simp only [runOps, Op.run, h1, Res.returned]
        exact g1
      · rw [g2, h4, hmod]
        simp [dnsExpected]
      · rw [g3, addCount_cons_set]
    | connectSTA _ _ _ _ _ => cases hop
    | disconnectSTA => cases hop
    | startAP _ _ _ _ _ _ => cases hop
    | stopAP => cases hop
    | scan => cases hop
    | setIPInfo _ _ _ => cases hop

/-- C16: on a fresh object whose driver accepts the bring-up, every sequence of
`addDNSServer(ip)` and `setDNSServer(n, ip)` calls, each `n` a slot number of
the resolver (one byte, 0 to 255), returns, and the resolver writes it makes
are, in order, slot `k mod 2` for the k-th `addDNSServer` (counting from 0, only
the `addDNSServer` calls) and slot `n` for each `setDNSServer(n, ip)`; the
cycling index ends as the number of `addDNSServer` calls mod 2; and from any
state, whatever the index, `setDNSServer(n, ip)` leaves the index as it was and
writes the slot that the conversion of `n` to one byte gives, which is `n` for
`n` from 0 to 255. -/
theorem dns_slots_cycle (d : Driver) (ops : List Op) (hd : d.setupAccepted)
    (hops : ∀ op ∈ ops, op.isDnsOp = true)
    (hslot : ∀ n ip, Op.setDNSServer n ip ∈ ops → 0 ≤ n ∧ n ≤ 255) :
    (∃ s', runOps ops (fresh d) = some s' ∧ dnsWrites s'.log = dnsExpected 0 ops ∧
      s'.m_dnsCount = addCount ops % 2) ∧
    ∀ (s : WiFi) (n : Int) (ip : Nat), s.drv.setupAccepted →
      ∃ t, setDNSServer n ip s = Res.ret () t ∧ t.m_dnsCount = s.m_dnsCount ∧
        dnsWrites t.log = dnsWrites s.log ++ [(n % 256, ip)] ∧
        (0 ≤ n → n ≤ 255 → dnsWrites t.log = dnsWrites s.log ++ [(n, ip)]) := by
  constructor
  · obtain ⟨s', h1, h2, h3⟩ := runOps_dns ops (fresh d) 0 hops hslot hd rfl
    refine ⟨s', h1, ?_, ?_⟩
    · rw [h2]
      simp [fresh, dnsWrites]
    · rw [h3, Nat.zero_add]
  · intro s n ip hs
    obtain ⟨t, h1, _, h3, h4⟩ := setDNSServer_step n ip s hs
    refine ⟨t, h1, h3, h4, fun h0 h255 => ?_⟩
    rw [h4, Int.emod_eq_of_lt h0 (by omega)]

theorem dns_slots_cycle_witness :
    (∃ s', runOps [Op.addDNSServer 134744072, Op.addDNSServer 67373064,
        Op.setDNSServer 1 16843009, Op.addDNSServer 151587081] (fresh {}) = some s' ∧
      dnsWrites s'.log = [(0, 134744072), (1, 67373064), (1, 16843009), (0, 151587081)] ∧
      s'.m_dnsCount = 1) ∧
    (∃ t, setDNSServer 0 16843009 { m_dnsCount := 1 } = Res.ret () t ∧ t.m_dnsCount = 1 ∧
      dnsWrites t.log = [(0, 16843009)]) ∧
    ∃ t, setDNSServer 256 16843009 { m_dnsCount := 1 } = Res.ret () t ∧ t.m_dnsCount = 1 ∧
      dnsWrites t.log = [(0, 16843009)] := by
  refine ⟨(dns_slots_cycle {} [Op.addDNSServer 134744072, Op.addDNSServer 67373064,
      Op.setDNSServer 1 16843009, Op.addDNSServer 151587081] (by decide) (by decide)
      (by simp)).1, ?_, ?_⟩
  · obtain ⟨t, h1, h2, _, h4⟩ :=
      (dns_slots_cycle {} [] (by decide) (by decide) (by simp)).2 { m_dnsCount := 1 } 0
        16843009 (by decide)
    exact ⟨t, h1, h2, h4 (by decide) (by decide)⟩
  · obtain ⟨t, h1, h2, h3, _⟩ :=
      (dns_slots_cycle {} [] (by decide) (by decide) (by simp)).2 { m_dnsCount := 1 } 256
        16843009 (by decide)
    exact ⟨t, h1, h2, h3⟩

theorem apConfigs_append (l1 l2 : List Call) :
    apConfigs (l1 ++ l2) = apConfigs l1 ++ apConfigs l2 := by
  simp [apConfigs, List.filterMap_append]

theorem apConfigs_initCalls (mode : Nat) (s : WiFi) : apConfigs (initCalls mode s) = [] := by
  unfold initCalls
  split_ifs <;> simp [apConfigs]

theorem apConfigs_initDone (mode : Nat) (s : WiFi) :
    apConfigs (initDone mode s).log = apConfigs s.log := by
  show apConfigs (s.log ++ initCalls mode s) = _
  rw [apConfigs_append, apConfigs_initCalls, List.append_nil]

theorem memcpyAt_length_ge (mem : List Nat) (off : Nat) (src : List Nat) (n : Nat)
    (h : n ≤ mem.length) : n ≤ (memcpyAt mem off src).length := by
  simp only [memcpyAt, List.length_append, List.length_take, List.length_drop]
  omega

/-- The byte at `i` after a `memcpy` that ends at or before `i`, or starts after it. -/
theorem memcpyAt_getD_outside (mem : List Nat) (off : Nat) (src : List Nat) (i : Nat)
    (hm : off ≤ mem.length) (h : i < off ∨ off + src.length ≤ i) :
    (memcpyAt mem off src).getD i 0 = mem.getD i 0 := by
  simp only [memcpyAt, List.getD_eq_getElem?_getD]
  rcases h with h | h
  · rw [List.append_assoc, List.getElem?_append_left (by simp; omega), List.getElem?_take_of_lt h]
  · rw [List.getElem?_append_right (by simp; omega), List.getElem?_drop]
    congr 2
    simp
    omega

/-- The byte at `i` after a `memcpy` that covers `i`. -/
theorem memcpyAt_getD_inside (mem : List Nat) (off : Nat) (src : List Nat) (i : Nat)
    (hm : off ≤ mem.length) (h1 : off ≤ i) (h2 : i < off + src.length) :
    (memcpyAt mem off src).getD i 0 = src.getD (i - off) 0 := by
  simp only [memcpyAt, List.getD_eq_getElem?_getD]
  rw [List.getElem?_append_left (by simp; omega), List.getElem?_append_right (by simp; omega)]
  congr 2
  simp
  omega

/-- The byte at offset 96 after the two copies of `startAP`. -/
theorem ssid_len_byte (ssid password : Bytes) (x : Nat) :
    (memcpyAt (memcpyAt (memcpyAt (List.replicate 98 0) 0 ssid) 96 [x]) 32 password).getD 96 0 =
      if password.length ≤ 64 then x else password.getD 64 0 := by
  have l1 : 98 ≤ (memcpyAt (List.replicate 98 0) 0 ssid).length :=
    memcpyAt_length_ge _ _ _ _ (by simp)
  have l2 : 98 ≤ (memcpyAt (memcpyAt (List.replicate 98 0) 0 ssid) 96 [x]).length :=
    memcpyAt_length_ge _ _ _ _ l1
  split_ifs with h
  · rw [memcpyAt_getD_outside _ _ _ _ (by omega) (Or.inr (by omega)),
      memcpyAt_getD_inside _ _ _ _ (by omega) (by omega) (by simp)]
    simp
  · rw [memcpyAt_getD_inside _ _ _ _ (by omega) (by omega) (by omega)]

/-- On a driver that accepts the setup calls `startAP` returns, having pushed one
access-point configuration, built from its arguments. -/
theorem startAP_accepted (ssid password : Bytes) (auth channel : Nat) (hidden : Bool)
    (maxc : Nat) (s : WiFi) (h : s.drv.setupAccepted) :
    ∃ s', startAP ssid password auth channel hidden maxc s = Res.ret () s' ∧
      apConfigs s'.log = apConfigs s.log ++
        [{ ssid := ssid,
           ssid_len := (memcpyAt (memcpyAt (memcpyAt (List.replicate 98 0) 0 ssid) 96
             [ssid.length % 256]) 32 password).getD 96 0,
           password := password,
           channel := channel % 256, authmode := auth,
           ssid_hidden := if hidden then 1 else 0,
           max_connection := maxc % 256, beacon_interval := 100 }] := by
  have h0 := initDone_accepted (s.m_wifiMode ||| WIFI_MODE_AP) h
  obtain ⟨-, -, -, h4, h5, -, -⟩ := h0
  have e4 := allOk_headD h4
  have e4t := allOk_headD (allOk_tail h4)
  have e5 := allOk_headD h5
  have ha := apConfigs_initDone (s.m_wifiMode ||| WIFI_MODE_AP) s
  unfold startAP
  rw [init_accepted _ _ h]
  by_cases hm : (initDone (s.m_wifiMode ||| WIFI_MODE_AP) s).m_wifiMode &&& WIFI_MODE_AP = 0
  · simp only [hm, ne_eq, not_true_eq_false, if_false, esp_wifi_set_mode, esp_wifi_set_config_ap]
    simp_all [ESP_OK, apConfigs_append]
    simp [apConfigs]
  · simp only [hm, ne_eq, not_false_eq_true, if_true, stopAP, esp_wifi_set_mode,
      esp_wifi_set_config_ap, call]
    split_ifs <;> simp_all [ESP_OK, apConfigs_append] <;> simp [apConfigs]

/-- The memory image of a configuration whose ssid and password fit their fields. -/
theorem image_layout (cfg : ApConfig) (hl : cfg.ssid.length ≤ 32) (hp : cfg.password.length ≤ 64) :
    cfg.image = cfg.ssid ++ List.replicate (32 - cfg.ssid.length) 0 ++ cfg.password ++
      List.replicate (64 - cfg.password.length) 0 ++ [cfg.ssid_len, cfg.channel] := by
  have e1 : memcpyAt (List.replicate 98 0) 0 cfg.ssid =
      cfg.ssid ++ List.replicate (98 - cfg.ssid.length) 0 := by
    simp only [memcpyAt, List.take_zero, List.nil_append, Nat.zero_add, List.drop_replicate]
  have e2 : memcpyAt (cfg.ssid ++ List.replicate (98 - cfg.ssid.length) 0) 96 [cfg.ssid_len] =
      cfg.ssid ++ List.replicate (96 - cfg.ssid.length) 0 ++ [cfg.ssid_len, 0] := by
    simp only [memcpyAt, List.take_append_eq_append_take, List.drop_append_eq_append_drop,
      List.take_replicate, List.drop_replicate, List.length_singleton]
    have a1 : List.take 96 cfg.ssid = cfg.ssid := List.take_of_length_le (by omega)
    have a2 : List.drop (96 + 1) cfg.ssid = [] := List.drop_of_length_le (by omega)
    have a3 : min (96 - cfg.ssid.length) (98 - cfg.ssid.length) = 96 - cfg.ssid.length := by omega
    have a4 : 98 - cfg.ssid.length - (96 + 1 - cfg.ssid.length) = 1 := by omega
    rw [a1, a2, a3, a4]
    simp
  have e3 : memcpyAt (cfg.ssid ++ List.replicate (96 - cfg.ssid.length) 0 ++ [cfg.ssid_len, 0]) 32
      cfg.password =
      cfg.ssid ++ List.replicate (32 - cfg.ssid.length) 0 ++ cfg.password ++
        List.replicate (64 - cfg.password.length) 0 ++ [cfg.ssid_len, 0] := by
    simp only [memcpyAt, List.take_append_eq_append_take, List.drop_append_eq_append_drop,
      List.take_replicate, List.drop_replicate, List.length_append, List.length_replicate]
    have a1 : List.take 32 cfg.ssid = cfg.ssid := List.take_of_length_le (by omega)
    have a2 : List.drop (32 + cfg.password.length) cfg.ssid = [] :=
      List.drop_of_length_le (by omega)
    have a3 : min (32 - cfg.ssid.length) (96 - cfg.ssid.length) = 32 - cfg.ssid.length := by omega
    have a4 : 96 - cfg.ssid.length - (32 + cfg.password.length - cfg.ssid.length) =
        64 - cfg.password.length := by omega
    have a5 : 32 - (cfg.ssid.length + (96 - cfg.ssid.length)) = 0 := by omega
    have a6 : 32 + cfg.password.length - (cfg.ssid.length + (96 - cfg.ssid.length)) = 0 := by omega
    rw [a1, a2, a3, a4, a5, a6]
    simp
  have hP : (cfg.ssid ++ List.replicate (32 - cfg.ssid.length) 0 ++ cfg.password ++
      List.replicate (64 - cfg.password.length) 0).length = 96 := by
    simp only [List.length_append, List.length_replicate]
    omega
  have e4 : memcpyAt (cfg.ssid ++ List.replicate (32 - cfg.ssid.length) 0 ++ cfg.password ++
      List.replicate (64 - cfg.password.length) 0 ++ [cfg.ssid_len, 0]) 97 [cfg.channel] =
      cfg.ssid ++ List.replicate (32 - cfg.ssid.length) 0 ++ cfg.password ++
        List.replicate (64 - cfg.password.length) 0 ++ [cfg.ssid_len, cfg.channel] := by
    unfold memcpyAt
    rw [List.take_append_eq_append_take, List.drop_append_eq_append_drop, hP,
      List.take_of_length_le (by omega), List.drop_of_length_le (by omega)]
    simp
  unfold ApConfig.image
  rw [e1, e2, e3, e4]

theorem c_str_append_zero (a r : Bytes) : c_str (a ++ 0 :: r) = c_str a := by
  unfold c_str
  induction a with
  | nil => simp
  | cons x a ih =>
    by_cases hx : x = 0
    · simp [hx]
    · simp only [List.cons_append, List.takeWhile_cons, hx, ne_eq, not_false_eq_true,
        decide_True, if_true, ih]

theorem c_str_append_of_no_zero (a b : Bytes) (h : 0 ∉ a) : c_str (a ++ b) = a ++ c_str b := by
  unfold c_str
  induction a with
  | nil => simp
  | cons x a ih =>
    have hx : x ≠ 0 := fun h0 => h (by simp [h0])
    have ha : 0 ∉ a := fun h0 => h (List.mem_cons_of_mem _ h0)
    simp only [List.cons_append, List.takeWhile_cons, hx, ne_eq, not_false_eq_true,
      decide_True, if_true, ih ha]

theorem replicate_zero_pos {n : Nat} (h : 0 < n) :
    List.replicate n 0 = 0 :: List.replicate (n - 1) 0 := by
  cases n with
  | zero => omega
  | succ m => simp [List.replicate_succ]

/-- What `getApSSID` reads from the image of a configuration whose ssid is
shorter than its field: the ssid, as a C string. -/
theorem getApSSID_short (cfg : ApConfig) (hl : cfg.ssid.length < 32)
    (hp : cfg.password.length ≤ 64) : getApSSID cfg.image = c_str cfg.ssid := by
  rw [image_layout cfg (by omega) hp, replicate_zero_pos (by omega : 0 < 32 - cfg.ssid.length)]
  unfold getApSSID
  simp only [List.append_assoc, List.cons_append]
  exact c_str_append_zero _ _

/-- What `getApSSID` reads from the image of a configuration whose ssid fills its
field: the ssid followed by the password, as a C string. -/
theorem getApSSID_full (cfg : ApConfig) (hl : cfg.ssid.length = 32) (h0 : 0 ∉ cfg.ssid)
    (hp : cfg.password.length < 64) : getApSSID cfg.image = cfg.ssid ++ c_str cfg.password := by
  rw [image_layout cfg (by omega) (by omega),
    replicate_zero_pos (by omega : 0 < 64 - cfg.password.length)]
  unfold getApSSID
  rw [hl]
  simp only [Nat.sub_self, List.replicate_zero, List.append_nil, List.append_assoc,
    List.cons_append]
  rw [c_str_append_of_no_zero _ _ h0, c_str_append_zero]

/-- C17: on a driver that accepts the setup calls, `startAP` with a password of
at most 64 bytes returns, having pushed one configuration, whose authmode,
max_connection, channel and ssid_hidden are the arguments (the three-argument
form passing channel 0, hidden false, max_connection 4). From that
configuration `getApSSID` returns the ssid, as a C string, when the ssid is
shorter than 32 bytes; when the ssid has exactly 32 bytes, none of them zero,
and the password is shorter than 64 bytes, it returns the ssid followed by the
password as a C string, not the ssid. -/
theorem startAP_getApSSID (ssid password : Bytes) (auth channel : Nat) (hidden : Bool)
    (maxc : Nat) (s : WiFi) (hs : s.drv.setupAccepted) (hp : password.length ≤ 64)
    (hch : channel < 256) (hmc : maxc < 256) :
    (∃ s' cfg, startAP ssid password auth channel hidden maxc s = Res.ret () s' ∧
      apConfigs s'.log = apConfigs s.log ++ [cfg] ∧
      cfg.authmode = auth ∧ cfg.max_connection = maxc ∧ cfg.channel = channel ∧
      cfg.ssid_hidden = (if hidden then 1 else 0) ∧
      (ssid.length < 32 → getApSSID cfg.image = c_str ssid) ∧
      (ssid.length = 32 → 0 ∉ ssid → password.length < 64 →
        getApSSID cfg.image = ssid ++ c_str password)) ∧
    startAP3 ssid password auth s = startAP ssid password auth 0 false 4 s := by
  refine ⟨?_, rfl⟩
  obtain ⟨s', h1, h2⟩ := startAP_accepted ssid password auth channel hidden maxc s hs
  refine ⟨s', _, h1, h2, rfl, Nat.mod_eq_of_lt hmc, Nat.mod_eq_of_lt hch, rfl, fun h => ?_,
    fun h h0 hp1 => ?_⟩
  · exact getApSSID_short _ h hp
  · exact getApSSID_full _ h h0 hp1

theorem startAP_getApSSID_witness :
    ∃ s' cfg, startAP (List.replicate 32 65) [112, 97, 115, 115, 119, 111, 114, 100] 3 1 false 4
        (fresh {}) = Res.ret () s' ∧
      apConfigs s'.log = [cfg] ∧
      getApSSID cfg.image = List.replicate 32 65 ++ [112, 97, 115, 115, 119, 111, 114, 100] ∧
      getApSSID cfg.image ≠ List.replicate 32 65 := by
  obtain ⟨s', cfg, h1, h2, _, _, _, _, _, h3⟩ :=
    (startAP_getApSSID (List.replicate 32 65) [112, 97, 115, 115, 119, 111, 114, 100] 3 1 false 4
      (fresh {}) (by decide) (by decide) (by decide) (by decide)).1
  have h4 := h3 (by decide) (by decide) (by decide)
  refine ⟨s', cfg, h1, h2, ?_, ?_⟩
  · rw [h4]
    decide
  · rw [h4]
    decide

/-- C18: on a driver that accepts the setup calls, `startAP` returns for every
ssid and password, whatever their lengths, and the configuration it pushes
holds every byte of the ssid and of the password, copied from the start of the
fields of 32 and 64 bytes: nothing is truncated and nothing is rejected. The
`ssid_len` pushed, which is the byte at offset 96 of the configuration, is the
length of the ssid reduced to one byte when the password has at most 64 bytes,
and the password byte of index 64 when the password is longer, the copy of the
password having run over it. -/
theorem startAP_copies_whole_input (ssid password : Bytes) (auth channel : Nat) (hidden : Bool)
    (maxc : Nat) (s : WiFi) (hs : s.drv.setupAccepted) :
    ∃ s' cfg, startAP ssid password auth channel hidden maxc s = Res.ret () s' ∧
      apConfigs s'.log = apConfigs s.log ++ [cfg] ∧
      cfg.ssid = ssid ∧ cfg.password = password ∧
      (password.length ≤ 64 → cfg.ssid_len = ssid.length % 256) ∧
      (64 < password.length → cfg.ssid_len = password.getD 64 0) ∧
      cfg.image.getD 96 0 = cfg.ssid_len := by
  obtain ⟨s', h1, h2⟩ := startAP_accepted ssid password auth channel hidden maxc s hs
  have hb := ssid_len_byte ssid password (ssid.length % 256)
  refine ⟨s', _, h1, h2, rfl, rfl, fun h => ?_, fun h => ?_, ?_⟩
  · show (memcpyAt (memcpyAt (memcpyAt (List.replicate 98 0) 0 ssid) 96
      [ssid.length % 256]) 32 password).getD 96 0 = _
    rw [hb, if_pos h]
  · show (memcpyAt (memcpyAt (memcpyAt (List.replicate 98 0) 0 ssid) 96
      [ssid.length % 256]) 32 password).getD 96 0 = _
    rw [hb, if_neg (by omega)]
  · show (memcpyAt (memcpyAt (memcpyAt (memcpyAt (List.replicate 98 0) 0 ssid) 96
      [(memcpyAt (memcpyAt (memcpyAt (List.replicate 98 0) 0 ssid) 96
        [ssid.length % 256]) 32 password).getD 96 0]) 32 password) 97 [channel % 256]).getD 96 0 =
      (memcpyAt (memcpyAt (memcpyAt (List.replicate 98 0) 0 ssid) 96
        [ssid.length % 256]) 32 password).getD 96 0
    have l1 : 98 ≤ (memcpyAt (List.replicate 98 0) 0 ssid).length :=
      memcpyAt_length_ge _ _ _ _ (by simp)
    have l3 : 98 ≤ (memcpyAt (memcpyAt (memcpyAt (List.replicate 98 0) 0 ssid) 96
        [(memcpyAt (memcpyAt (memcpyAt (List.replicate 98 0) 0 ssid) 96
          [ssid.length % 256]) 32 password).getD 96 0]) 32 password).length :=
      memcpyAt_length_ge _ _ _ _ (memcpyAt_length_ge _ _ _ _ l1)
    rw [memcpyAt_getD_outside _ _ _ _ (by omega) (Or.inl (by omega)), ssid_len_byte, hb]
    split_ifs <;> rfl

theorem startAP_copies_whole_input_witness :
    (∃ s' cfg, startAP (List.replicate 33 65) [112, 97, 115, 115, 119, 111, 114, 100] 3 1 false 4
        (fresh {}) = Res.ret () s' ∧
      apConfigs s'.log = [cfg] ∧ cfg.ssid.length = 33 ∧ cfg.ssid_len = 33 ∧
      cfg.image.getD 96 0 = 33) ∧
    ∃ s' cfg, startAP (List.replicate 33 65) (List.replicate 65 66) 3 1 false 4 (fresh {}) =
        Res.ret () s' ∧
      apConfigs s'.log = [cfg] ∧ cfg.ssid.length = 33 ∧ cfg.password.length = 65 ∧
      cfg.ssid_len = 66 ∧ cfg.image.getD 96 0 = 66 := by
  constructor
  · obtain ⟨s', cfg, h1, h2, h3, _, h5, _, h7⟩ :=
      startAP_copies_whole_input (List.replicate 33 65) [112, 97, 115, 115, 119, 111, 114, 100]
        3 1 false 4 (fresh {}) (by decide)
    have h8 : cfg.ssid_len = 33 := h5 (by decide)
    refine ⟨s', cfg, h1, h2, ?_, h8, ?_⟩
    · rw [h3]
      decide
    · rw [h7, h8]
  · obtain ⟨s', cfg, h1, h2, h3, h4, _, h6, h7⟩ :=
      startAP_copies_whole_input (List.replicate 33 65) (List.replicate 65 66) 3 1 false 4
        (fresh {}) (by decide)
    have h8 : cfg.ssid_len = 66 := by
      rw [h6 (by decide)]
      decide
    refine ⟨s', cfg, h1, h2, ?_, ?_, h8, ?_⟩
    · rw [h3]
      decide
    · rw [h4]
      decide
    · rw [h7, h8]

/-- C19: `isConnectedToAP` returns `true` exactly when the stored connection
outcome is not 0: it returns `true` on a fresh object, whose outcome is the
unset sentinel 255, and after a station disconnect with reason 201, and it
returns `false` after the address was acquired, when the outcome is `ESP_OK`. -/
theorem isConnectedToAP_is_outcome_nonzero :
    (∀ s : WiFi, isConnectedToAP s = true ↔ s.m_apConnectionStatus ≠ 0) ∧
    (fresh {}).m_apConnectionStatus = 255 ∧ isConnectedToAP (fresh {}) = true ∧
    (eventHandler ⟨EventBase.IP_EVENT, IP_EVENT_STA_GOT_IP, 0⟩ (fresh {})).m_apConnectionStatus
      = 0 ∧
    isConnectedToAP (eventHandler ⟨EventBase.IP_EVENT, IP_EVENT_STA_GOT_IP, 0⟩ (fresh {}))
      = false ∧
    isConnectedToAP (eventHandler ⟨EventBase.WIFI_EVENT, WIFI_EVENT_STA_DISCONNECTED, 201⟩
      (fresh {})) = true := by
  refine ⟨fun s => ?_, by decide, by decide, by decide, by decide, by decide⟩
  simp [isConnectedToAP]

/-- C20: when at least one of the three strings does not parse as an address,
`setIPInfo(ip, gw, netmask)` returns with the object as it was: no field is
changed and no call is issued. -/
theorem setIPInfo_unparsable (inet_pton : Bytes → Option Nat) (ip gw netmask : Bytes) (s : WiFi)
    (h : inet_pton (c_str ip) = none ∨ inet_pton (c_str gw) = none ∨
      inet_pton (c_str netmask) = none) :
    setIPInfoStr inet_pton ip gw netmask s = Res.ret () s := by
  unfold setIPInfoStr
  rcases h with h | h | h
  · rw [h]
  · rw [h]
    cases inet_pton (c_str ip) <;> rfl
  · rw [h]
    cases inet_pton (c_str ip) <;> cases inet_pton (c_str gw) <;> rfl

theorem setIPInfo_unparsable_witness :
    parseIPv4 (c_str [49, 57, 50, 46, 49, 54, 56, 46, 49, 46, 49]) = some 16885952 ∧
    parseIPv4 (c_str [49, 57, 50, 46, 49, 54, 56, 46, 49]) = none ∧
    parseIPv4 (c_str [50, 53, 53, 46, 50, 53, 53, 46, 50, 53, 53, 46, 48]) = some 16777215 ∧
    setIPInfoStr parseIPv4 [49, 57, 50, 46, 49, 54, 56, 46, 49, 46, 49]
      [49, 57, 50, 46, 49, 54, 56, 46, 49] [50, 53, 53, 46, 50, 53, 53, 46, 50, 53, 53, 46, 48]
      (fresh {}) = Res.ret () (fresh {}) :=
  ⟨by decide, by decide, by decide,
   setIPInfo_unparsable parseIPv4 [49, 57, 50, 46, 49, 54, 56, 46, 49, 46, 49]
     [49, 57, 50, 46, 49, 54, 56, 46, 49] [50, 53, 53, 46, 50, 53, 53, 46, 50, 53, 53, 46, 48]
     (fresh {}) (Or.inr (Or.inl (by decide)))⟩

theorem ret_of_returned_isSome {α : Type} (r : Res α) (h : r.returned.isSome = true) :
    ∃ v s', r = Res.ret v s' := by
  cases r with
  | ret v s' => exact ⟨v, s', rfl⟩
  | abort s' => cases h
  | blocked s' => cases h

/-- Whatever path the part of `connectSTA` after the loop returns on, it has
given the semaphore. -/
theorem connectFinish_sem (fuel : Nat) (s s' : WiFi) (v : Int)
    (h : connectFinish fuel s = Res.ret v s') : s'.m_connectFinished = true := by
  rcases ht : s.m_testConnection with _ | _
  · rw [connectFinish_plain fuel s ht] at h
    cases h
    rfl
  · unfold connectFinish at h
    simp only [ht, if_true] at h
    split at h
    · cases h
    · cases h
    · split at h
      · cases h
      · cases h
      · cases h
        rfl

/-- Whatever path the loop of `connectSTA` returns on, it has given the
semaphore. -/
theorem connectLoop_sem (fuel : Nat) : ∀ (s s' : WiFi) (v : Int),
    connectLoop fuel s = Res.ret v s' → s'.m_connectFinished = true := by
  induction fuel with
  | zero =>
    intro s s' v h
    by_cases hc : s.drv.rc_connect.headD 0 = ESP_OK
    · rw [connectLoop_zero s hc] at h
      cases h
    · rw [connectLoop_rejected 0 s hc] at h
      cases h
      rfl
  | succ n ih =>
    intro s s' v h
    by_cases hc : s.drv.rc_connect.headD 0 = ESP_OK
    · rw [connectLoop_succ n s hc] at h
      split_ifs at h
      · exact connectFinish_sem _ _ _ _ h
      · exact ih _ _ _ h
      · exact connectFinish_sem _ _ _ _ h
    · rw [connectLoop_rejected (n + 1) s hc] at h
      cases h
      rfl

/-- C21: every call of `connectSTA` that is entered with the semaphore
`m_connectFinished` available and returns, returns with the semaphore
available: on the path without wait, which never takes it, on the path of a
rejected `esp_wifi_connect`, on the path of the wait, and on the
credential-test path after the drain loop. -/
theorem connectSTA_releases_signal (fuel : Nat) (ssid password : Bytes)
    (waitForConnection testConnection : Bool) (s s' : WiFi) (v : Int)
    (hsem : s.m_connectFinished = true)
    (h : connectSTA fuel ssid password waitForConnection testConnection s = Res.ret v s') :
    s'.m_connectFinished = true := by
  cases waitForConnection
  · have e := connectSTA_no_wait_ret h
    subst e
    exact hsem
  · exact connectLoop_sem fuel _ _ _ (connectSTA_wait_ret h)

theorem connectSTA_releases_signal_witness :
    (∃ v s', connectSTA 0 [110] [112] false false (fresh {}) = Res.ret v s' ∧
      s'.m_connectFinished = true) ∧
    (∃ v s', connectSTA 0 [110] [112] true false (fresh { rc_connect := [12289] }) =
        Res.ret v s' ∧ s'.m_connectFinished = true) ∧
    (∃ v s', connectSTA 1 [110] [112] true false
        (fresh { events := [[⟨EventBase.IP_EVENT, IP_EVENT_STA_GOT_IP, 0⟩]] }) = Res.ret v s' ∧
      s'.m_connectFinished = true) ∧
    (∃ v s', connectSTA 3 [110] [112] true true
        (fresh { events := [[⟨EventBase.IP_EVENT, IP_EVENT_STA_GOT_IP, 0⟩],
                            [⟨EventBase.WIFI_EVENT, WIFI_EVENT_STA_DISCONNECTED, 8⟩], []] }) =
        Res.ret v s' ∧ s'.m_connectFinished = true) := by
  refine ⟨?_, ?_, ?_, ?_⟩
  · obtain ⟨v, s', h⟩ := ret_of_returned_isSome
      (connectSTA 0 [110] [112] false false (fresh {})) (by decide)
    exact ⟨v, s', h, connectSTA_releases_signal _ _ _ _ _ _ _ _ (by decide) h⟩
  · obtain ⟨v, s', h⟩ := ret_of_returned_isSome
      (connectSTA 0 [110] [112] true false (fresh { rc_connect := [12289] })) (by decide)
    exact ⟨v, s', h, connectSTA_releases_signal _ _ _ _ _ _ _ _ (by decide) h⟩
  · obtain ⟨v, s', h⟩ := ret_of_returned_isSome
      (connectSTA 1 [110] [112] true false
        (fresh { events := [[⟨EventBase.IP_EVENT, IP_EVENT_STA_GOT_IP, 0⟩]] })) (by decide)
    exact ⟨v, s', h, connectSTA_releases_signal _ _ _ _ _ _ _ _ (by decide) h⟩
  · obtain ⟨v, s', h⟩ := ret_of_returned_isSome
      (connectSTA 3 [110] [112] true true
        (fresh { events := [[⟨EventBase.IP_EVENT, IP_EVENT_STA_GOT_IP, 0⟩],
                            [⟨EventBase.WIFI_EVENT, WIFI_EVENT_STA_DISCONNECTED, 8⟩], []] }))
      (by decide)
    exact ⟨v, s', h, connectSTA_releases_signal _ _ _ _ _ _ _ _ (by decide) h⟩

set_option maxRecDepth 100000 in
theorem fmt_d_length_int8 : ∀ k : Fin 256, (fmt_d ((k.val : Int) - 128)).length ≤ 4 ∧
    (29 ≤ k.val → (fmt_d ((k.val : Int) - 128)).length ≤ 3) ∧
    (k.val ≤ 28 → (fmt_d ((k.val : Int) - 128)).length = 4) := by
  decide

/-- The number of characters that `%d` prints for a value of the `int8_t` range. -/
theorem fmt_d_length (x : Int) (hlo : -128 ≤ x) (hhi : x ≤ 127) :
    (fmt_d x).length ≤ 4 ∧ (-99 ≤ x → (fmt_d x).length ≤ 3) ∧
    (x ≤ -100 → (fmt_d x).length = 4) := by
  have h := fmt_d_length_int8 ⟨(x + 128).toNat, by omega⟩
  have e : (((x + 128).toNat : Nat) : Int) - 128 = x := by omega
  simp only [e] at h
  exact ⟨h.1, fun h1 => h.2.1 (by omega), fun h1 => h.2.2 (by omega)⟩

theorem authName_length (m : Nat) : (authName m).length ≤ 22 := by
  unfold authName
  split_ifs <;> decide

theorem text_length (r : WiFiAPRecord) :
    r.text.length =
      22 + (c_str r.m_ssid).length + (authName r.m_authMode).length + (fmt_d r.m_rssi).length := by
  simp only [WiFiAPRecord.text, List.length_append, List.length_cons, List.length_nil]
  omega

/-- C22: for a record whose ssid has at most 32 bytes and whose rssi is in the
`int8_t` range, the text that `toString` formats and its terminating zero take
at most 81 bytes; they fit the 80 bytes of `info_str` when the rssi is at least
-99; with an ssid of 32 bytes, the auth mode `WIFI_AUTH_WPA_WPA2_PSK` and an
rssi of -100 or less they take 81 bytes, one more than `info_str` holds. -/
theorem toString_text_length (r : WiFiAPRecord) (hs : (c_str r.m_ssid).length ≤ 32)
    (hlo : -128 ≤ r.m_rssi) (hhi : r.m_rssi ≤ 127) :
    r.text.length + 1 ≤ 81 ∧
    (-99 ≤ r.m_rssi → r.toString = some r.text) ∧
    ((c_str r.m_ssid).length = 32 → r.m_authMode = WIFI_AUTH_WPA_WPA2_PSK → r.m_rssi ≤ -100 →
      r.text.length + 1 = 81 ∧ r.toString = none) := by
  obtain ⟨d1, d2, d3⟩ := fmt_d_length r.m_rssi hlo hhi
  have ha := authName_length r.m_authMode
  have ht := text_length r
  refine ⟨by omega, fun h => ?_, fun h1 h2 h3 => ?_⟩
  · have := d2 h
    unfold WiFiAPRecord.toString
    rw [if_pos]
    simp only [info_str_size]
    omega
  · have h4 := d3 h3
    have h5 : (authName r.m_authMode).length = 22 := by
      rw [h2]
      decide
    have h6 : r.text.length + 1 = 81 := by omega
    refine ⟨h6, ?_⟩
    unfold WiFiAPRecord.toString
    rw [if_neg]
    simp only [info_str_size]
    omega

theorem toString_text_length_witness :
    info_str_size = 80 ∧
    (WiFiAPRecord.text ⟨[0, 0, 0, 0, 0, 0], -100, List.replicate 32 65, 4⟩).length + 1 = 81 ∧
    WiFiAPRecord.toString ⟨[0, 0, 0, 0, 0, 0], -100, List.replicate 32 65, 4⟩ = none :=
  ⟨by decide,
   (toString_text_length ⟨[0, 0, 0, 0, 0, 0], -100, List.replicate 32 65, 4⟩
     (by decide) (by decide) (by decide)).2.2 (by decide) (by decide) (by decide)⟩

/-- C23: for every MAC address the text that `getApMac` and `getStaMac` format
has 17 characters, so that with its terminating zero `sprintf` writes 18 bytes
into the 10 bytes of `mac_str`: neither function has a defined result. The
text itself is the six bytes as two upper-case hexadecimal digits each,
separated by colons. -/
theorem mac_text_exceeds_mac_str :
    (∀ mac : List Nat, (macText mac).length = 17 ∧ getApMac mac = none ∧
      getStaMac mac = none) ∧
    mac_str_size = 10 ∧
    macText [36, 10, 196, 0, 171, 255] =
      [50, 52, 58, 48, 65, 58, 67, 52, 58, 48, 48, 58, 65, 66, 58, 70, 70] ∧
    getApMac [36, 10, 196, 0, 171, 255] = none ∧
    getStaMac [36, 10, 196, 0, 171, 255] = none := by
  refine ⟨fun mac => ?_, rfl, by decide, by decide, by decide⟩
  have hl : (macText mac).length = 17 := by
    simp [macText, fmt_02X]
  refine ⟨hl, ?_, ?_⟩
  · unfold getApMac
    rw [hl, if_neg (by decide)]
  · unfold getStaMac
    rw [hl, if_neg (by decide)]

end WiFi
